import Mathlib

/-!
# Tour service: execution lifecycle, proximity scan and cart ledger

A shallow embedding of `services/tour-service` (handlers, repository and models).

Conventions of the embedding

* `float64` is an abstract type `F`.  The cart code only uses `0` and `+`, the
  proximity code only uses `≤`, the literal `50` and the distance function,
  which is a parameter of the handlers that call it.  No algebraic law is
  assumed of `F` there, so the results on the handlers hold for IEEE doubles as
  well as for `ℝ` or `ℚ`.
* `calculateDistance` is written over a field `F` and the functions of Go's
  `math` package it calls (`MathLib`); its symmetry, its zero on equal points
  and its value on a meridian are proved for the real numbers and the real
  functions (`realMath`), rounding not being modelled.  The range of the
  `float64` result is not covered by that model: see `realMath`.
* `primitive.ObjectID` is a natural number, `time.Time` is a natural number whose
  zero value is `0`; Go `string` is `String`.
* The MongoDB collections are lists in natural (insertion) order; `FindOne` and
  `UpdateOne` act on the first matching document; `InsertOne` appends and takes
  the new `_id` from a counter kept in the store.
* Every repository method takes the `Faults` of the current request: a flag per
  method that makes the call return an error without touching the store.
* A request id that `primitive.ObjectIDFromHex` rejects is `none`.
-/

namespace TourService

/-- Identifier `primitive.ObjectID`. -/
abbrev ObjectID := Nat

/-- Instant `time.Time`; the zero value is `0`. -/
abbrev Time := Nat

/-! ## models/tour.go -/

/-- Record `models.Tour`. -/
structure Tour (F : Type) where
  ID : ObjectID
  GuideID : String
  Name : String
  Description : String
  Difficulty : String
  Tags : List String
  Status : String
  Price : F
  IsPublished : Bool
  PublishedAt : Time
  CreatedAt : Time
deriving DecidableEq

/-- Record `models.KeyPoint`. -/
structure KeyPoint (F : Type) where
  ID : ObjectID
  TourID : ObjectID
  Latitude : F
  Longitude : F
  Name : String
  Description : String
  Image : String
  Order : Int
deriving DecidableEq

/-- Record `models.CartItem`. -/
structure CartItem (F : Type) where
  TourID : ObjectID
  TourName : String
  Price : F
deriving DecidableEq

/-- Record `models.ShoppingCart`. -/
structure ShoppingCart (F : Type) where
  ID : ObjectID
  TouristID : String
  Items : List (CartItem F)
  TotalPrice : F
deriving DecidableEq

/-- Record `models.PurchaseToken`. -/
structure PurchaseToken where
  ID : ObjectID
  TouristID : String
  TourID : ObjectID
  Token : String
  PurchasedAt : Time
deriving DecidableEq, Repr

/-- Record `models.CompletedKeypoint`. -/
structure CompletedKeypoint where
  KeypointID : ObjectID
  CompletedAt : Time
deriving DecidableEq, Repr

/-- Record `models.TourExecution`. -/
structure TourExecution (F : Type) where
  ID : ObjectID
  TouristID : String
  TourID : ObjectID
  Status : String
  StartedAt : Time
  CompletedAt : Time
  LastActivity : Time
  StartLatitude : F
  StartLongitude : F
  CompletedKeypoints : List CompletedKeypoint
deriving DecidableEq

/-! ## repository/tour_repository.go -/

/-- The six collections of `TourRepository` (positions are not modelled) and
the counter the store draws fresh `_id`s from. -/
structure Store (F : Type) where
  tours : List (Tour F)
  keypoints : List (KeyPoint F)
  carts : List (ShoppingCart F)
  tokens : List PurchaseToken
  executions : List (TourExecution F)
  nextID : ObjectID
deriving DecidableEq

/-- Which repository calls of the current request return an error.
`CreatePurchaseToken i` is the write for the `i`-th cart line of a checkout. -/
structure Faults where
  GetTourByID : Bool
  PublishTour : Bool
  CreateKeyPoint : Bool
  GetKeyPointsByTourID : Bool
  UpdateKeyPoint : Bool
  DeleteKeyPoint : Bool
  GetOrCreateCart : Bool
  UpdateCart : Bool
  ClearCart : Bool
  CreatePurchaseToken : Nat → Bool
  HasPurchased : Bool
  CreateExecution : Bool
  GetExecution : Bool
  UpdateExecution : Bool
  GetActiveExecution : Bool

/-- No repository call fails. -/
def Faults.ok : Faults :=
  ⟨false, false, false, false, false, false, false, false, false, fun _ => false,
    false, false, false, false, false⟩

/-- What a request sees of the outside world: the faults of its repository
calls, the clock reading `time.Now()` and the strings `uuid.New().String()`
yields (one per cart line). -/
structure Env where
  faults : Faults
  now : Time
  uuid : Nat → String

/-- Effect of `UpdateOne` with an id filter: the first document satisfying `p`
is replaced by `f` of it; nothing happens when there is none. -/
def updateFirst {α : Type} (p : α → Bool) (f : α → α) : List α → List α
  | [] => []
  | x :: xs => if p x then f x :: xs else x :: updateFirst p f xs

/-- Effect of `DeleteOne`: the first document satisfying `p` is removed. -/
def deleteFirst {α : Type} (p : α → Bool) : List α → List α
  | [] => []
  | x :: xs => if p x then xs else x :: deleteFirst p xs

section Repository

variable {F : Type}

/-- Repository method `GetTourByID`. -/
def Store.GetTourByID (s : Store F) (fl : Faults) (id : ObjectID) : Option (Tour F) :=
  if fl.GetTourByID then none else s.tours.find? (fun t => t.ID == id)

/-- Repository method `PublishTour`: `$set` of the four publication fields. -/
def Store.PublishTour (s : Store F) (fl : Faults) (now : Time) (tourID : ObjectID) (price : F) :
    Option (Store F) :=
  if fl.PublishTour then none
  else some { s with
    tours := updateFirst (fun t => t.ID == tourID)
      (fun t => { t with IsPublished := true, Status := "published", Price := price,
                         PublishedAt := now }) s.tours }

/-- Repository method `CreateKeyPoint`: returns the keypoint with its new id. -/
def Store.CreateKeyPoint (s : Store F) (fl : Faults) (keypoint : KeyPoint F) :
    Option (KeyPoint F × Store F) :=
  if fl.CreateKeyPoint then none
  else
    let kp := { keypoint with ID := s.nextID }
    some (kp, { s with keypoints := s.keypoints ++ [kp], nextID := s.nextID + 1 })

/-- Repository method `GetKeyPointsByTourID`: the tour's keypoints in stored order. -/
def Store.GetKeyPointsByTourID (s : Store F) (fl : Faults) (tourID : ObjectID) :
    Option (List (KeyPoint F)) :=
  if fl.GetKeyPointsByTourID then none
  else some (s.keypoints.filter (fun kp => kp.TourID == tourID))

/-- Repository method `UpdateKeyPoint`. -/
def Store.UpdateKeyPoint (s : Store F) (fl : Faults) (keypoint : KeyPoint F) :
    Option (Store F) :=
  if fl.UpdateKeyPoint then none
  else some { s with
    keypoints := updateFirst (fun kp => kp.ID == keypoint.ID) (fun _ => keypoint) s.keypoints }

/-- Repository method `DeleteKeyPoint`. -/
def Store.DeleteKeyPoint (s : Store F) (fl : Faults) (keypointID : ObjectID) :
    Option (Store F) :=
  if fl.DeleteKeyPoint then none
  else some { s with keypoints := deleteFirst (fun kp => kp.ID == keypointID) s.keypoints }

/-- Repository method `GetOrCreateCart`: the tourist's cart, inserted empty with
total `0` when the tourist has none. -/
def Store.GetOrCreateCart [Zero F] (s : Store F) (fl : Faults) (touristID : String) :
    Option (ShoppingCart F × Store F) :=
  if fl.GetOrCreateCart then none
  else
    match s.carts.find? (fun c => c.TouristID == touristID) with
    | some cart => some (cart, s)
    | none =>
      let cart : ShoppingCart F := ⟨s.nextID, touristID, [], 0⟩
      some (cart, { s with carts := s.carts ++ [cart], nextID := s.nextID + 1 })

/-- Repository method `UpdateCart`. -/
def Store.UpdateCart (s : Store F) (fl : Faults) (cart : ShoppingCart F) : Option (Store F) :=
  if fl.UpdateCart then none
  else some { s with carts := updateFirst (fun c => c.ID == cart.ID) (fun _ => cart) s.carts }

/-- Repository method `ClearCart`: `$set` of `items` and `totalPrice`. -/
def Store.ClearCart [Zero F] (s : Store F) (fl : Faults) (touristID : String) :
    Option (Store F) :=
  if fl.ClearCart then none
  else some { s with
    carts := updateFirst (fun c => c.TouristID == touristID)
      (fun c => { c with Items := [], TotalPrice := 0 }) s.carts }

/-- Repository method `CreatePurchaseToken` for cart line `line`: returns the
token with its timestamp and new id. -/
def Store.CreatePurchaseToken (s : Store F) (fl : Faults) (now : Time) (line : Nat)
    (token : PurchaseToken) : Option (PurchaseToken × Store F) :=
  if fl.CreatePurchaseToken line then none
  else
    let tk := { token with PurchasedAt := now, ID := s.nextID }
    some (tk, { s with tokens := s.tokens ++ [tk], nextID := s.nextID + 1 })

/-- Repository method `HasPurchased`: `none` is the error, `some b` is `count > 0`. -/
def Store.HasPurchased (s : Store F) (fl : Faults) (touristID : String) (tourID : ObjectID) :
    Option Bool :=
  if fl.HasPurchased then none
  else some (decide
    (0 < (s.tokens.filter (fun tk => tk.TouristID == touristID && tk.TourID == tourID)).length))

/-- Repository method `CreateExecution`: stamps the record, marks it active with
an empty completion list and inserts it. -/
def Store.CreateExecution (s : Store F) (fl : Faults) (now : Time) (execution : TourExecution F) :
    Option (TourExecution F × Store F) :=
  let stamped := { execution with
    StartedAt := now, LastActivity := now, Status := "active", CompletedKeypoints := [] }
  if fl.CreateExecution then none
  else
    let e := { stamped with ID := s.nextID }
    some (e, { s with executions := s.executions ++ [e], nextID := s.nextID + 1 })

/-- Repository method `GetExecution`. -/
def Store.GetExecution (s : Store F) (fl : Faults) (executionID : ObjectID) :
    Option (TourExecution F) :=
  if fl.GetExecution then none else s.executions.find? (fun e => e.ID == executionID)

/-- The document `$set` leaves behind: every field of `new`, except that
`completedAt` is tagged `omitempty`, so a zero `CompletedAt` keeps the stored one. -/
def setExecution (new old : TourExecution F) : TourExecution F :=
  { new with CompletedAt := if new.CompletedAt = 0 then old.CompletedAt else new.CompletedAt }

/-- Repository method `UpdateExecution`: touches `LastActivity` on the caller's
record (first component) and writes it; the second component is `none` on error. -/
def Store.UpdateExecution (s : Store F) (fl : Faults) (now : Time) (execution : TourExecution F) :
    TourExecution F × Option (Store F) :=
  let e := { execution with LastActivity := now }
  if fl.UpdateExecution then (e, none)
  else (e, some { s with
    executions := updateFirst (fun x => x.ID == e.ID) (setExecution e) s.executions })

/-- Repository method `GetActiveExecution`. -/
def Store.GetActiveExecution (s : Store F) (fl : Faults) (touristID : String)
    (tourID : ObjectID) : Option (TourExecution F) :=
  if fl.GetActiveExecution then none
  else s.executions.find?
    (fun e => e.TouristID == touristID && e.TourID == tourID && e.Status == "active")

end Repository

/-! ## proto messages (responses)

The generated `pb` package is not part of the sources; each response keeps the
fields the handlers fill in, and a mapped entity is the model record itself. -/

/-- Message `pb.TourResponse`. -/
structure TourResponse (F : Type) where
  Success : Bool
  Message : String
  Tour : Option (Tour F)
deriving DecidableEq

/-- Message `pb.KeyPointResponse`. -/
structure KeyPointResponse (F : Type) where
  Success : Bool
  Message : String
  KeyPoint : Option (KeyPoint F)
deriving DecidableEq

/-- Message `pb.DeleteKeyPointResponse`. -/
structure DeleteKeyPointResponse where
  Success : Bool
  Message : String
deriving DecidableEq, Repr

/-- Message `pb.CartResponse`. -/
structure CartResponse (F : Type) where
  Success : Bool
  Message : String
  Cart : Option (ShoppingCart F)
deriving DecidableEq

/-- Message `pb.PurchaseToken`. -/
structure TokenProto where
  TourId : ObjectID
  Token : String
  PurchasedAt : Time
deriving DecidableEq, Repr

/-- Message `pb.CheckoutResponse`; `Issued` is the `%d` of the message text. -/
structure CheckoutResponse where
  Success : Bool
  Message : String
  Issued : Nat
  Tokens : List TokenProto
deriving DecidableEq, Repr

/-- Message `pb.ExecutionResponse`. -/
structure ExecutionResponse (F : Type) where
  Success : Bool
  Message : String
  Execution : Option (TourExecution F)
deriving DecidableEq

/-- Message `pb.ProximityResponse`. -/
structure ProximityResponse (F : Type) where
  Success : Bool
  Message : String
  NearKeyPoint : Bool
  NearbyKeyPoint : Option (KeyPoint F)
  Distance : Option F
deriving DecidableEq

/-! ## handlers/tour_handler.go -/

section Handlers

variable {F : Type}

/-- Handler `PublishTour`. -/
def PublishTour (s : Store F) (env : Env) (tourId : Option ObjectID) (guideId : String)
    (price : F) : TourResponse F × Store F :=
  match tourId with
  | none => (⟨false, "Invalid tour ID", none⟩, s)
  | some tourID =>
    match s.GetTourByID env.faults tourID with
    | none => (⟨false, "Tour not found", none⟩, s)
    | some tour =>
      if tour.GuideID != guideId then
        (⟨false, "Unauthorized: You don't own this tour", none⟩, s)
      else
        match s.PublishTour env.faults env.now tourID price with
        | none => (⟨false, "Failed to publish tour", none⟩, s)
        | some s1 =>
          (⟨true, "Tour published successfully", s1.GetTourByID env.faults tourID⟩, s1)

/-- Handler `AddKeyPoint`. -/
def AddKeyPoint (s : Store F) (env : Env) (tourId : Option ObjectID) (guideId : String)
    (latitude longitude : F) (name description image : String) (order : Int) :
    KeyPointResponse F × Store F :=
  match tourId with
  | none => (⟨false, "Invalid tour ID", none⟩, s)
  | some tourID =>
    match s.GetTourByID env.faults tourID with
    | none => (⟨false, "Tour not found", none⟩, s)
    | some tour =>
      if tour.GuideID != guideId then
        (⟨false, "Unauthorized: You don't own this tour", none⟩, s)
      else
        match s.CreateKeyPoint env.faults
            ⟨0, tourID, latitude, longitude, name, description, image, order⟩ with
        | none => (⟨false, "Failed to create keypoint", none⟩, s)
        | some (keypoint, s1) => (⟨true, "Keypoint added successfully", some keypoint⟩, s1)

/-- The guard `err != nil || tour.GuideID != req.GuideId` of `UpdateKeyPoint`
and `DeleteKeyPoint`. -/
def ownershipFails (tour : Option (Tour F)) (guideId : String) : Bool :=
  match tour with
  | none => true
  | some t => t.GuideID != guideId

/-- Handler `UpdateKeyPoint`. -/
def UpdateKeyPoint (s : Store F) (env : Env) (keyPointId tourId : Option ObjectID)
    (guideId : String) (latitude longitude : F) (name description image : String) :
    KeyPointResponse F × Store F :=
  match keyPointId with
  | none => (⟨false, "Invalid keypoint ID", none⟩, s)
  | some keypointID =>
    match tourId with
    | none => (⟨false, "Invalid tour ID", none⟩, s)
    | some tourID =>
      if ownershipFails (s.GetTourByID env.faults tourID) guideId then
        (⟨false, "Unauthorized", none⟩, s)
      else
        let keypoint : KeyPoint F :=
          ⟨keypointID, tourID, latitude, longitude, name, description, image, 0⟩
        match s.UpdateKeyPoint env.faults keypoint with
        | none => (⟨false, "Failed to update keypoint", none⟩, s)
        | some s1 => (⟨true, "Keypoint updated successfully", some keypoint⟩, s1)

/-- Handler `DeleteKeyPoint`. -/
def DeleteKeyPoint (s : Store F) (env : Env) (keyPointId tourId : Option ObjectID)
    (guideId : String) : DeleteKeyPointResponse × Store F :=
  match keyPointId with
  | none => (⟨false, "Invalid keypoint ID"⟩, s)
  | some keypointID =>
    match tourId with
    | none => (⟨false, "Invalid tour ID"⟩, s)
    | some tourID =>
      if ownershipFails (s.GetTourByID env.faults tourID) guideId then
        (⟨false, "Unauthorized"⟩, s)
      else
        match s.DeleteKeyPoint env.faults keypointID with
        | none => (⟨false, "Failed to delete keypoint"⟩, s)
        | some s1 => (⟨true, "Keypoint deleted successfully"⟩, s1)

/-- The loop `for _, item := range cart.Items` of `AddToCart`: is the tour
already one of the lines? -/
def inCart (tourID : ObjectID) : List (CartItem F) → Bool
  | [] => false
  | item :: rest => if item.TourID == tourID then true else inCart tourID rest

/-- Handler `AddToCart`. -/
def AddToCart [Zero F] [Add F] (s : Store F) (env : Env) (touristId : String)
    (tourId : Option ObjectID) : CartResponse F × Store F :=
  match tourId with
  | none => (⟨false, "Invalid tour ID", none⟩, s)
  | some tourID =>
    match s.GetTourByID env.faults tourID with
    | none => (⟨false, "Tour not found", none⟩, s)
    | some tour =>
      if !tour.IsPublished then (⟨false, "Cannot add unpublished tour to cart", none⟩, s)
      else
        match s.GetOrCreateCart env.faults touristId with
        | none => (⟨false, "Failed to access cart", none⟩, s)
        | some (cart, s1) =>
          if inCart tourID cart.Items then (⟨false, "Tour already in cart", none⟩, s1)
          else
            let cart1 : ShoppingCart F :=
              { cart with
                Items := cart.Items ++ [⟨tourID, tour.Name, tour.Price⟩],
                TotalPrice := cart.TotalPrice + tour.Price }
            match s1.UpdateCart env.faults cart1 with
            | none => (⟨false, "Failed to update cart", none⟩, s1)
            | some s2 => (⟨true, "Tour added to cart", some cart1⟩, s2)

/-- The loop of `RemoveFromCart`, started from `newItems` and `newTotal`: every
line with another tour id is appended to the items and added to the total. -/
def removeLoop [Add F] (tourID : ObjectID) :
    List (CartItem F) → List (CartItem F) → F → List (CartItem F) × F
  | [], newItems, newTotal => (newItems, newTotal)
  | item :: rest, newItems, newTotal =>
    if item.TourID != tourID then
      removeLoop tourID rest (newItems ++ [item]) (newTotal + item.Price)
    else removeLoop tourID rest newItems newTotal

/-- Handler `RemoveFromCart`. -/
def RemoveFromCart [Zero F] [Add F] (s : Store F) (env : Env) (touristId : String)
    (tourId : Option ObjectID) : CartResponse F × Store F :=
  match tourId with
  | none => (⟨false, "Invalid tour ID", none⟩, s)
  | some tourID =>
    match s.GetOrCreateCart env.faults touristId with
    | none => (⟨false, "Failed to access cart", none⟩, s)
    | some (cart, s1) =>
      let r := removeLoop tourID cart.Items [] 0
      let cart1 : ShoppingCart F := { cart with Items := r.1, TotalPrice := r.2 }
      match s1.UpdateCart env.faults cart1 with
      | none => (⟨false, "Failed to update cart", none⟩, s1)
      | some s2 => (⟨true, "Tour removed from cart", some cart1⟩, s2)

/-- Handler `GetCart`. -/
def GetCart [Zero F] (s : Store F) (env : Env) (touristId : String) :
    CartResponse F × Store F :=
  match s.GetOrCreateCart env.faults touristId with
  | none => (⟨false, "Failed to get cart", none⟩, s)
  | some (cart, s1) => (⟨true, "Cart retrieved successfully", some cart⟩, s1)

/-- The loop of `Checkout` over the cart lines, `line` being the index of the
head of the remaining items: one token write per line, a failed write skips
the line. -/
def checkoutLoop (env : Env) (touristId : String) :
    List (CartItem F) → Nat → Store F → List TokenProto → List TokenProto × Store F
  | [], _, s, tokens => (tokens, s)
  | item :: rest, line, s, tokens =>
    match s.CreatePurchaseToken env.faults env.now line
        ⟨0, touristId, item.TourID, env.uuid line, 0⟩ with
    | none => checkoutLoop env touristId rest (line + 1) s tokens
    | some (token, s1) =>
      checkoutLoop env touristId rest (line + 1) s1
        (tokens ++ [⟨item.TourID, token.Token, token.PurchasedAt⟩])

/-- Handler `Checkout`. -/
def Checkout [Zero F] (s : Store F) (env : Env) (touristId : String) :
    CheckoutResponse × Store F :=
  match s.GetOrCreateCart env.faults touristId with
  | none => (⟨false, "Failed to get cart", 0, []⟩, s)
  | some (cart, s1) =>
    if cart.Items.length == 0 then (⟨false, "Cart is empty", 0, []⟩, s1)
    else
      let r := checkoutLoop env touristId cart.Items 0 s1 []
      let s3 := match r.2.ClearCart env.faults touristId with
        | none => r.2
        | some s2 => s2
      (⟨true, "Successfully purchased " ++ toString r.1.length ++ " tours", r.1.length, r.1⟩, s3)

/-- Handler `StartTourExecution`. -/
def StartTourExecution (s : Store F) (env : Env) (touristId : String)
    (tourId : Option ObjectID) (startLatitude startLongitude : F) :
    ExecutionResponse F × Store F :=
  match tourId with
  | none => (⟨false, "Invalid tour ID", none⟩, s)
  | some tourID =>
    if s.HasPurchased env.faults touristId tourID != some true then
      (⟨false, "Tour not purchased. Please buy the tour first.", none⟩, s)
    else
      match s.GetActiveExecution env.faults touristId tourID with
      | some existingExecution =>
        (⟨true, "Continuing existing tour execution", some existingExecution⟩, s)
      | none =>
        match s.CreateExecution env.faults env.now
            ⟨0, touristId, tourID, "", 0, 0, 0, startLatitude, startLongitude, []⟩ with
        | none => (⟨false, "Failed to start tour execution", none⟩, s)
        | some (execution, s1) => (⟨true, "Tour execution started", some execution⟩, s1)

/-- The inner loop of `CheckProximity`: is `kpID` among the completed keypoints? -/
def alreadyCompleted (kpID : ObjectID) : List CompletedKeypoint → Bool
  | [] => false
  | completed :: rest => if completed.KeypointID == kpID then true else alreadyCompleted kpID rest

/-- The outer loop of `CheckProximity` up to its `return`: the first keypoint,
in list order, that is not completed and lies within 50 of the position,
together with its distance. -/
def scanKeypoints [LE F] [DecidableRel (LE.le : F → F → Prop)] [OfNat F 50]
    (calculateDistance : F → F → F → F → F) (currentLatitude currentLongitude : F)
    (completed : List CompletedKeypoint) : List (KeyPoint F) → Option (KeyPoint F × F)
  | [] => none
  | kp :: rest =>
    if alreadyCompleted kp.ID completed then
      scanKeypoints calculateDistance currentLatitude currentLongitude completed rest
    else
      let distance := calculateDistance currentLatitude currentLongitude kp.Latitude kp.Longitude
      if distance ≤ 50 then some (kp, distance)
      else scanKeypoints calculateDistance currentLatitude currentLongitude completed rest

/-- The store after a call of `UpdateExecution` whose error is only logged. -/
def afterUpdate (s : Store F) (r : TourExecution F × Option (Store F)) : Store F :=
  match r.2 with
  | none => s
  | some s1 => s1

/-- Handler `CheckProximity`. -/
def CheckProximity [LE F] [DecidableRel (LE.le : F → F → Prop)] [OfNat F 50]
    (calculateDistance : F → F → F → F → F) (s : Store F) (env : Env)
    (executionId : Option ObjectID) (touristId : String)
    (currentLatitude currentLongitude : F) : ProximityResponse F × Store F :=
  match executionId with
  | none => (⟨false, "Invalid execution ID", false, none, none⟩, s)
  | some executionID =>
    match s.GetExecution env.faults executionID with
    | none => (⟨false, "Execution not found", false, none, none⟩, s)
    | some execution =>
      if execution.TouristID != touristId then (⟨false, "Unauthorized", false, none, none⟩, s)
      else
        match s.GetKeyPointsByTourID env.faults execution.TourID with
        | none => (⟨false, "Failed to get keypoints", false, none, none⟩, s)
        | some keypoints =>
          match scanKeypoints calculateDistance currentLatitude currentLongitude
              execution.CompletedKeypoints keypoints with
          | some (kp, distance) =>
            let execution1 := { execution with
              CompletedKeypoints := execution.CompletedKeypoints ++ [⟨kp.ID, env.now⟩] }
            (⟨true, "Near keypoint", true, some kp, some distance⟩,
              afterUpdate s (s.UpdateExecution env.faults env.now execution1))
          | none =>
            (⟨true, "No nearby keypoints", false, none, none⟩,
              afterUpdate s (s.UpdateExecution env.faults env.now execution))

/-- Handler `CompleteTour`. -/
def CompleteTour (s : Store F) (env : Env) (executionId : Option ObjectID)
    (touristId : String) : ExecutionResponse F × Store F :=
  match executionId with
  | none => (⟨false, "Invalid execution ID", none⟩, s)
  | some executionID =>
    match s.GetExecution env.faults executionID with
    | none => (⟨false, "Execution not found", none⟩, s)
    | some execution =>
      if execution.TouristID != touristId then (⟨false, "Unauthorized", none⟩, s)
      else
        match s.UpdateExecution env.faults env.now
            { execution with Status := "completed", CompletedAt := env.now } with
        | (_, none) => (⟨false, "Failed to complete tour", none⟩, s)
        | (execution1, some s1) => (⟨true, "Tour completed successfully", some execution1⟩, s1)

/-- Handler `AbandonTour`. -/
def AbandonTour (s : Store F) (env : Env) (executionId : Option ObjectID)
    (touristId : String) : ExecutionResponse F × Store F :=
  match executionId with
  | none => (⟨false, "Invalid execution ID", none⟩, s)
  | some executionID =>
    match s.GetExecution env.faults executionID with
    | none => (⟨false, "Execution not found", none⟩, s)
    | some execution =>
      if execution.TouristID != touristId then (⟨false, "Unauthorized", none⟩, s)
      else
        match s.UpdateExecution env.faults env.now
            { execution with Status := "abandoned", CompletedAt := env.now } with
        | (_, none) => (⟨false, "Failed to abandon tour", none⟩, s)
        | (execution1, some s1) => (⟨true, "Tour abandoned", some execution1⟩, s1)

/-- Handler `GetExecution`. -/
def GetExecution (s : Store F) (env : Env) (executionId : Option ObjectID)
    (touristId : String) : ExecutionResponse F × Store F :=
  match executionId with
  | none => (⟨false, "Invalid execution ID", none⟩, s)
  | some executionID =>
    match s.GetExecution env.faults executionID with
    | none => (⟨false, "Execution not found", none⟩, s)
    | some execution =>
      if execution.TouristID != touristId then (⟨false, "Unauthorized", none⟩, s)
      else (⟨true, "Execution retrieved successfully", some execution⟩, s)

end Handlers

/-! ## The haversine distance -/

/-- The part of Go's `math` package that `calculateDistance` calls: `math.Pi`,
`math.Sin`, `math.Cos`, `math.Sqrt` and `math.Atan2` (first argument `y`,
second argument `x`). -/
structure MathLib (F : Type) where
  Pi : F
  Sin : F → F
  Cos : F → F
  Sqrt : F → F
  Atan2 : F → F → F

/-- The local `a` of `calculateDistance`: the haversine term of the two points,
computed from their coordinates in degrees. -/
def haversineTerm {F : Type} [Field F] (m : MathLib F) (lat1 lon1 lat2 lon2 : F) : F :=
  let lat1Rad := lat1 * m.Pi / 180
  let lat2Rad := lat2 * m.Pi / 180
  let deltaLat := (lat2 - lat1) * m.Pi / 180
  let deltaLon := (lon2 - lon1) * m.Pi / 180
  m.Sin (deltaLat / 2) * m.Sin (deltaLat / 2) +
    m.Cos lat1Rad * m.Cos lat2Rad * m.Sin (deltaLon / 2) * m.Sin (deltaLon / 2)

/-- Function `calculateDistance`: the haversine formula for the distance in
metres between two coordinates, on a sphere of radius 6371000. -/
def calculateDistance {F : Type} [Field F] (m : MathLib F) (lat1 lon1 lat2 lon2 : F) : F :=
  let earthRadius : F := 6371000
  let a := haversineTerm m lat1 lon1 lat2 lon2
  let c := 2 * m.Atan2 (m.Sqrt a) (m.Sqrt (1 - a))
  earthRadius * c

/-- The `math` functions on the real numbers, `float64` being idealised as `ℝ`:
`Atan2 y x` is the angle of the point `(x, y)`, in `(-π, π]`, and `0` at the
origin.  This is exact arithmetic: it has no rounding and no `NaN`, so what is
proved with it is a property of the haversine formula, and carries over to the
`float64` code only where rounding cannot change the outcome.  It does not for
the bounds of the haversine term: at antipodal points the exact term is `1`
(`haversineTerm_antipodal`) and the `float64` term can round to
`1.0000000000000002`, where `math.Sqrt (1 - a)` is `NaN`. -/
noncomputable def realMath : MathLib ℝ :=
  ⟨Real.pi, Real.sin, Real.cos, Real.sqrt, fun y x => Complex.arg ⟨x, y⟩⟩

/-! ## The service as a transition system -/

/-- A request to one of the modelled handlers, with its arguments. -/
inductive Call (F : Type) where
  | publishTour (tourId : Option ObjectID) (guideId : String) (price : F)
  | addKeyPoint (tourId : Option ObjectID) (guideId : String) (latitude longitude : F)
      (name description image : String) (order : Int)
  | updateKeyPoint (keyPointId tourId : Option ObjectID) (guideId : String)
      (latitude longitude : F) (name description image : String)
  | deleteKeyPoint (keyPointId tourId : Option ObjectID) (guideId : String)
  | addToCart (touristId : String) (tourId : Option ObjectID)
  | removeFromCart (touristId : String) (tourId : Option ObjectID)
  | getCart (touristId : String)
  | checkout (touristId : String)
  | startTourExecution (touristId : String) (tourId : Option ObjectID)
      (startLatitude startLongitude : F)
  | checkProximity (executionId : Option ObjectID) (touristId : String)
      (currentLatitude currentLongitude : F)
  | completeTour (executionId : Option ObjectID) (touristId : String)
  | abandonTour (executionId : Option ObjectID) (touristId : String)
  | getExecution (executionId : Option ObjectID) (touristId : String)

section Transition

variable {F : Type} [Zero F] [Add F] [LE F] [DecidableRel (LE.le : F → F → Prop)] [OfNat F 50]

/-- The store one request leaves behind. -/
def step (calculateDistance : F → F → F → F → F) (s : Store F) (env : Env) :
    Call F → Store F
  | .publishTour tourId guideId price => (PublishTour s env tourId guideId price).2
  | .addKeyPoint tourId guideId latitude longitude name description image order =>
    (AddKeyPoint s env tourId guideId latitude longitude name description image order).2
  | .updateKeyPoint keyPointId tourId guideId latitude longitude name description image =>
    (UpdateKeyPoint s env keyPointId tourId guideId latitude longitude name description image).2
  | .deleteKeyPoint keyPointId tourId guideId => (DeleteKeyPoint s env keyPointId tourId guideId).2
  | .addToCart touristId tourId => (AddToCart s env touristId tourId).2
  | .removeFromCart touristId tourId => (RemoveFromCart s env touristId tourId).2
  | .getCart touristId => (GetCart s env touristId).2
  | .checkout touristId => (Checkout s env touristId).2
  | .startTourExecution touristId tourId startLatitude startLongitude =>
    (StartTourExecution s env touristId tourId startLatitude startLongitude).2
  | .checkProximity executionId touristId currentLatitude currentLongitude =>
    (CheckProximity calculateDistance s env executionId touristId
      currentLatitude currentLongitude).2
  | .completeTour executionId touristId => (CompleteTour s env executionId touristId).2
  | .abandonTour executionId touristId => (AbandonTour s env executionId touristId).2
  | .getExecution executionId touristId => (GetExecution s env executionId touristId).2

/-- The store after a sequence of requests handled one after the other. -/
def run (calculateDistance : F → F → F → F → F) (s : Store F) :
    List (Env × Call F) → Store F
  | [] => s
  | c :: rest => run calculateDistance (step calculateDistance s c.1 c.2) rest

end Transition

/-- How one request may change the execution collection: not at all, by
inserting one fresh active execution with no completed keypoint for a purchased
pair (and, when `GetActiveExecution` did not fail, only if the pair had no
active execution), or by rewriting the first document of some id, keeping
its id and pair, moving its status to itself, `completed` or `abandoned`, and
appending at most one keypoint that was not yet completed. -/
def ExecStep {F : Type} (gaFault : Bool) (s s1 : Store F) : Prop :=
  s1.executions = s.executions ∨
  (∃ e : TourExecution F, s1.executions = s.executions ++ [e] ∧ e.Status = "active" ∧
    e.CompletedKeypoints = [] ∧
    (∃ tk ∈ s.tokens, tk.TouristID = e.TouristID ∧ tk.TourID = e.TourID) ∧
    (gaFault = false → ∀ x ∈ s.executions,
      ¬ (x.TouristID = e.TouristID ∧ x.TourID = e.TourID ∧ x.Status = "active"))) ∨
  (∃ (pre post : List (TourExecution F)) (e e1 : TourExecution F),
    s.executions = pre ++ e :: post ∧ s1.executions = pre ++ e1 :: post ∧
    (∀ x ∈ pre, x.ID ≠ e.ID) ∧
    e1.ID = e.ID ∧ e1.TouristID = e.TouristID ∧ e1.TourID = e.TourID ∧
    (e1.Status = e.Status ∨ e1.Status = "completed" ∨ e1.Status = "abandoned") ∧
    (e1.CompletedKeypoints = e.CompletedKeypoints ∨
      ∃ c, e1.CompletedKeypoints = e.CompletedKeypoints ++ [c] ∧
        alreadyCompleted c.KeypointID e.CompletedKeypoints = false))

/-- The keypoint ids of an execution's `CompletedKeypoints`, in list order. -/
def completedIds {F : Type} (e : TourExecution F) : List ObjectID :=
  e.CompletedKeypoints.map (fun c => c.KeypointID)

/-- No stored execution lists a keypoint id twice. -/
def DistinctCompleted {F : Type} (s : Store F) : Prop :=
  ∀ e ∈ s.executions, (completedIds e).Nodup

/-- A keypoint qualifies for completion: its id is not yet among the completed
ids of the execution and its distance to the reported position is at most 50. -/
def Qualifies {F : Type} [LE F] [OfNat F 50] (calculateDistance : F → F → F → F → F)
    (lat lon : F) (e : TourExecution F) (kp : KeyPoint F) : Prop :=
  kp.ID ∉ completedIds e ∧ calculateDistance lat lon kp.Latitude kp.Longitude ≤ 50

/-- Every stored execution is for a pair that holds a purchase token. -/
def AllPurchased {F : Type} (s : Store F) : Prop :=
  ∀ e ∈ s.executions, ∃ tk ∈ s.tokens, tk.TouristID = e.TouristID ∧ tk.TourID = e.TourID

/-- The stored executions of a tourist for a tour whose status is `active`. -/
def activeFor {F : Type} (s : Store F) (touristId : String) (tourID : ObjectID) :
    List (TourExecution F) :=
  s.executions.filter
    (fun e => e.TouristID == touristId && e.TourID == tourID && e.Status == "active")

/-- At most one active execution per (tourist, tour) pair. -/
def AtMostOneActive {F : Type} (s : Store F) : Prop :=
  ∀ (touristId : String) (tourID : ObjectID), (activeFor s touristId tourID).length ≤ 1

/-- The sum of the prices of the cart lines, taken in list order starting
from `0`. -/
def sumPrices {F : Type} [Zero F] [Add F] (items : List (CartItem F)) : F :=
  items.foldl (fun acc item => acc + item.Price) 0

/-- Every stored cart's `TotalPrice` is the sum of the prices of its lines. -/
def CartTotals {F : Type} [Zero F] [Add F] (s : Store F) : Prop :=
  ∀ c ∈ s.carts, c.TotalPrice = sumPrices c.Items

/-- The tour ids of the lines of a cart, in list order. -/
def lineIds {F : Type} (items : List (CartItem F)) : List ObjectID :=
  items.map (fun item => item.TourID)

/-- No stored cart has two lines with the same tour id. -/
def CartUnique {F : Type} (s : Store F) : Prop :=
  ∀ c ∈ s.carts, (lineIds c.Items).Nodup

/-- The cart stored for a tourist: the first cart document with the
tourist's id, as `GetOrCreateCart` and `ClearCart` select it. -/
def Store.cartOf {F : Type} (s : Store F) (touristId : String) : Option (ShoppingCart F) :=
  s.carts.find? (fun c => c.TouristID == touristId)

/-- The lines of the cart stored for a tourist; none when the tourist has no
cart yet (the cart `GetOrCreateCart` then creates is empty). -/
def Store.linesOf {F : Type} (s : Store F) (touristId : String) : List (CartItem F) :=
  match s.cartOf touristId with
  | some c => c.Items
  | none => []

/-- The `_id`s of the cart documents are pairwise distinct and were drawn from
the counter, as the database guarantees for a collection. -/
def CartIdsFresh {F : Type} (s : Store F) : Prop :=
  (s.carts.map (fun c => c.ID)).Nodup ∧ ∀ c ∈ s.carts, c.ID < s.nextID

/-- The cart lines whose token write does not fail in this request, each with
its index in the cart, in cart order; `line` is the index of the first item. -/
def issuedLines {F : Type} (env : Env) (items : List (CartItem F)) (line : Nat) :
    List (Nat × CartItem F) :=
  (items.enumFrom line).filter (fun p => !env.faults.CreatePurchaseToken p.1)

/-! ## A worked scenario on integer coordinates -/

/-- A stand-in for the distance on an integer grid (sum of the coordinate
gaps), used to run the handlers on concrete data. -/
def gridDistance (lat1 lon1 lat2 lon2 : Int) : Int :=
  ((lat2 - lat1).natAbs : Int) + ((lon2 - lon1).natAbs : Int)

/-- Two published tours (prices 10 and 5) and a draft; tour 1 has three
keypoints and is bought and started by tourist `ana`; keypoints 11 and 12 are
30 apart, keypoint 13 is far away. -/
def demoStore : Store Int :=
  { tours := [⟨1, "guide", "Old town", "", "easy", [], "published", 10, true, 5, 1⟩,
              ⟨2, "guide", "Harbour", "", "easy", [], "published", 5, true, 5, 2⟩,
              ⟨3, "guide", "Hills", "", "hard", [], "draft", 0, false, 0, 3⟩],
    keypoints := [⟨11, 1, 0, 0, "gate", "", "", 1⟩, ⟨12, 1, 0, 30, "square", "", "", 2⟩,
                  ⟨13, 1, 0, 1000, "tower", "", "", 3⟩],
    carts := [],
    tokens := [⟨31, "ana", 1, "tok", 6⟩],
    executions := [⟨21, "ana", 1, "active", 7, 0, 7, 0, 0, []⟩],
    nextID := 100 }

/-- A request environment without faults, at time 9. -/
def demoEnv : Env := ⟨Faults.ok, 9, fun _ => "u"⟩

/-- The scenario before the walk: the tour is bought, no execution exists yet. -/
def boughtStore : Store Int := { demoStore with executions := [] }

/-- Tourist `ana` starts the tour twice, reports the same position twice
within range of keypoints 11 and 12, completes the walk and starts again. -/
def walkTrace : List (Env × Call Int) :=
  [(demoEnv, .startTourExecution "ana" (some 1) 0 0),
   (demoEnv, .startTourExecution "ana" (some 1) 0 0),
   (demoEnv, .checkProximity (some 100) "ana" 0 25),
   (demoEnv, .checkProximity (some 100) "ana" 0 25),
   (demoEnv, .completeTour (some 100) "ana"),
   (demoEnv, .startTourExecution "ana" (some 1) 0 0)]

/-- A later request environment without faults, at time 12. -/
def laterEnv : Env := ⟨Faults.ok, 12, fun _ => "v"⟩

/-- Tourist `ana` adds tours 1 and 2, removes tour 1, adds it again and
checks out. -/
def cartTrace : List (Env × Call Int) :=
  [(demoEnv, .addToCart "ana" (some 1)),
   (demoEnv, .addToCart "ana" (some 2)),
   (demoEnv, .removeFromCart "ana" (some 1)),
   (demoEnv, .addToCart "ana" (some 1)),
   (demoEnv, .checkout "ana")]

/-- A request environment at time 9 in which `GetActiveExecution` returns an
error and every other repository call succeeds. -/
def lookupFaultEnv : Env :=
  ⟨⟨false, false, false, false, false, false, false, false, false, fun _ => false,
      false, false, false, false, true⟩, 9, fun _ => "u"⟩

/-- The worked store with a third published tour (id 4, price 7) and no
execution. -/
def shopStore : Store Int :=
  { boughtStore with
    tours := [⟨1, "guide", "Old town", "", "easy", [], "published", 10, true, 5, 1⟩,
              ⟨2, "guide", "Harbour", "", "easy", [], "published", 5, true, 5, 2⟩,
              ⟨4, "guide", "Castle", "", "easy", [], "published", 7, true, 5, 4⟩] }

/-- Tourist `ana` fills her cart with the three published tours. -/
def threeAdds : List (Env × Call Int) :=
  [(demoEnv, .addToCart "ana" (some 1)),
   (demoEnv, .addToCart "ana" (some 2)),
   (demoEnv, .addToCart "ana" (some 4))]

/-- A request environment at time 9 in which the token write of the second
cart line (index 1) fails and every other repository call succeeds. -/
def secondWriteFails : Env :=
  ⟨⟨false, false, false, false, false, false, false, false, false, fun i => i == 1,
      false, false, false, false, false⟩, 9,
    fun i => if i == 0 then "a" else if i == 1 then "b" else "c"⟩

/-- A request environment at time 12 in which `UpdateExecution` returns an
error and every other repository call succeeds. -/
def writeFaultEnv : Env :=
  ⟨⟨false, false, false, false, false, false, false, false, false, fun _ => false,
      false, false, false, true, false⟩, 12, fun _ => "w"⟩

/-- A request environment at time 12 in which `ClearCart` returns an error and
every other repository call succeeds. -/
def clearFaultEnv : Env :=
  ⟨⟨false, false, false, false, false, false, false, false, true, fun _ => false,
      false, false, false, false, false⟩, 12, fun _ => "x"⟩

/-! ## Lemmas on the collection primitives -/

section Lemmas

variable {F : Type}

theorem find_updateFirst {α : Type} (p : α → Bool) (f : α → α) (l : List α) (x : α)
    (hx : l.find? p = some x) (hp : p (f x) = true) :
    (updateFirst p f l).find? p = some (f x) := by
  induction l with
  | nil => simp at hx
  | cons a t ih =>
    by_cases ha : p a = true
    · have hax : a = x := by simpa [List.find?, ha] using hx
      subst hax
      simp [updateFirst, ha, List.find?, hp]
    · have ht : t.find? p = some x := by simpa [List.find?, ha] using hx
      simp [updateFirst, ha, List.find?, ih ht]

theorem getExecution_some {s : Store F} {fl : Faults} {id : ObjectID} {e : TourExecution F}
    (h : s.GetExecution fl id = some e) :
    fl.GetExecution = false ∧ s.executions.find? (fun x => x.ID == id) = some e ∧ e.ID = id := by
  unfold Store.GetExecution at h
  by_cases hf : fl.GetExecution = true
  · simp [hf] at h
  · simp only [hf] at h
    refine ⟨by simpa using hf, by simpa using h, ?_⟩
    have := List.find?_some h
    simpa using this

/-- Reading back after a successful `UpdateExecution` of a record with the id
that was read yields the written document. -/
theorem getExecution_updateExecution {s s1 : Store F} {fl : Faults} {now : Time}
    {id : ObjectID} {e e1 : TourExecution F}
    (h : s.GetExecution fl id = some e) (hid : e1.ID = id)
    (hu : (s.UpdateExecution fl now e1).2 = some s1) :
    s1.GetExecution fl id = some (setExecution { e1 with LastActivity := now } e) := by
  obtain ⟨hf, hfind, heid⟩ := getExecution_some h
  unfold Store.UpdateExecution at hu
  by_cases hfu : fl.UpdateExecution = true
  · simp [hfu] at hu
  · simp only [hfu] at hu
    simp only [Bool.false_eq_true, if_false, Option.some.injEq] at hu
    subst hu
    simp only [Store.GetExecution, hf, Bool.false_eq_true, if_false, hid]
    exact find_updateFirst _ _ _ _ hfind (by simp [setExecution, hid])

theorem updateFirst_of_find_none {α : Type} (p : α → Bool) (f : α → α) (l : List α)
    (h : l.find? p = none) : updateFirst p f l = l := by
  induction l with
  | nil => rfl
  | cons a t ih =>
    by_cases ha : p a = true
    · simp [List.find?, ha] at h
    · have ht : t.find? p = none := by simpa [List.find?, ha] using h
      simp [updateFirst, ha, ih ht]

theorem updateFirst_split {α : Type} (p : α → Bool) (f : α → α) (l : List α) (x : α)
    (h : l.find? p = some x) :
    ∃ pre post, l = pre ++ x :: post ∧ updateFirst p f l = pre ++ f x :: post ∧
      ∀ y ∈ pre, p y = false := by
  induction l with
  | nil => simp at h
  | cons a t ih =>
    by_cases ha : p a = true
    · have hax : a = x := by simpa [List.find?, ha] using h
      subst hax
      exact ⟨[], t, rfl, by simp [updateFirst, ha], by simp⟩
    · have ht : t.find? p = some x := by simpa [List.find?, ha] using h
      obtain ⟨pre, post, h1, h2, h3⟩ := ih ht
      refine ⟨a :: pre, post, by simp [h1], by simp [updateFirst, ha, h2], ?_⟩
      intro y hy
      rcases List.mem_cons.1 hy with rfl | hy
      · simpa using ha
      · exact h3 y hy

theorem checkoutLoop_executions (env : Env) (touristId : String) (items : List (CartItem F))
    (line : Nat) (s : Store F) (tokens : List TokenProto) :
    (checkoutLoop env touristId items line s tokens).2.executions = s.executions := by
  induction items generalizing line s tokens with
  | nil => rfl
  | cons item rest ih =>
    unfold checkoutLoop
    by_cases hf : env.faults.CreatePurchaseToken line = true
    · simp [Store.CreatePurchaseToken, hf, ih]
    · simp [Store.CreatePurchaseToken, hf, ih]

theorem getOrCreateCart_executions [Zero F] {s s1 : Store F} {fl : Faults} {t : String}
    {cart : ShoppingCart F} (h : s.GetOrCreateCart fl t = some (cart, s1)) :
    s1.executions = s.executions ∧ s1.tokens = s.tokens ∧ s1.tours = s.tours ∧
      s1.keypoints = s.keypoints := by
  unfold Store.GetOrCreateCart at h
  split at h
  · simp at h
  · split at h
    · simp only [Option.some.injEq, Prod.mk.injEq] at h
      obtain ⟨-, rfl⟩ := h
      simp
    · simp only [Option.some.injEq, Prod.mk.injEq] at h
      obtain ⟨-, rfl⟩ := h
      simp

theorem updateExecution_frame {s s1 : Store F} {fl : Faults} {now : Time}
    {e1 : TourExecution F} (hu : (s.UpdateExecution fl now e1).2 = some s1) :
    s1.carts = s.carts ∧ s1.tokens = s.tokens ∧ s1.tours = s.tours ∧
      s1.keypoints = s.keypoints := by
  unfold Store.UpdateExecution at hu
  split at hu
  · simp at hu
  · simp only [Option.some.injEq] at hu
    subst hu
    simp

/-- A successful `UpdateExecution` of a record derived from the one read under
the same id is a rewrite step of `ExecStep`. -/
theorem updateExecution_execStep {s s1 : Store F} {fl : Faults} {now : Time} {id : ObjectID}
    {e : TourExecution F} (e1 : TourExecution F) (ga : Bool)
    (h : s.GetExecution fl id = some e) (hid : e1.ID = e.ID)
    (ht : e1.TouristID = e.TouristID) (hto : e1.TourID = e.TourID)
    (hs : e1.Status = e.Status ∨ e1.Status = "completed" ∨ e1.Status = "abandoned")
    (hc : e1.CompletedKeypoints = e.CompletedKeypoints ∨
      ∃ c, e1.CompletedKeypoints = e.CompletedKeypoints ++ [c] ∧
        alreadyCompleted c.KeypointID e.CompletedKeypoints = false)
    (hu : (s.UpdateExecution fl now e1).2 = some s1) : ExecStep ga s s1 := by
  obtain ⟨-, hfind, heid⟩ := getExecution_some h
  unfold Store.UpdateExecution at hu
  split at hu
  · simp at hu
  · simp only [Option.some.injEq] at hu
    subst hu
    have hfind1 : s.executions.find? (fun x => x.ID == e1.ID) = some e := by
      rw [hid, heid]; exact hfind
    obtain ⟨pre, post, h1, h2, h3⟩ :=
      updateFirst_split (fun x => x.ID == e1.ID)
        (setExecution { e1 with LastActivity := now }) s.executions e hfind1
    refine Or.inr (Or.inr ⟨pre, post, e, setExecution { e1 with LastActivity := now } e,
      h1, h2, ?_, ?_, ?_, ?_, ?_, ?_⟩)
    · intro x hx
      have := h3 x hx
      simpa [hid] using this
    · simpa [setExecution] using hid
    · simpa [setExecution] using ht
    · simpa [setExecution] using hto
    · simpa [setExecution] using hs
    · simpa [setExecution] using hc

theorem execStep_refl (ga : Bool) (s : Store F) : ExecStep ga s s := Or.inl rfl

theorem execStep_of_executions_eq (ga : Bool) {s s1 : Store F}
    (h : s1.executions = s.executions) : ExecStep ga s s1 := Or.inl h

theorem alreadyCompleted_iff (kpID : ObjectID) (completed : List CompletedKeypoint) :
    alreadyCompleted kpID completed = true ↔ kpID ∈ completed.map (fun c => c.KeypointID) := by
  induction completed with
  | nil => simp [alreadyCompleted]
  | cons c rest ih =>
    unfold alreadyCompleted
    by_cases hc : c.KeypointID = kpID
    · simp [hc]
    · have hc1 : ¬ kpID = c.KeypointID := fun h => hc h.symm
      simp [hc, hc1, ih]

section Scan

variable [LE F] [DecidableRel (LE.le : F → F → Prop)] [OfNat F 50]
  (calculateDistance : F → F → F → F → F)

/-- What the scan returns is the first keypoint of the list that is neither
completed nor farther than 50, with its distance. -/
theorem scanKeypoints_some (lat lon : F) (completed : List CompletedKeypoint)
    (kps : List (KeyPoint F)) (kp : KeyPoint F) (d : F)
    (h : scanKeypoints calculateDistance lat lon completed kps = some (kp, d)) :
    ∃ pre post, kps = pre ++ kp :: post ∧
      alreadyCompleted kp.ID completed = false ∧
      d = calculateDistance lat lon kp.Latitude kp.Longitude ∧ d ≤ 50 ∧
      ∀ x ∈ pre, ¬ (alreadyCompleted x.ID completed = false ∧
        calculateDistance lat lon x.Latitude x.Longitude ≤ 50) := by
  induction kps with
  | nil => simp [scanKeypoints] at h
  | cons a rest ih =>
    unfold scanKeypoints at h
    by_cases hc : alreadyCompleted a.ID completed = true
    · simp only [hc, if_true] at h
      obtain ⟨pre, post, h1, h2, h3, h4, h5⟩ := ih h
      refine ⟨a :: pre, post, by simp [h1], h2, h3, h4, ?_⟩
      intro x hx
      rcases List.mem_cons.1 hx with rfl | hx
      · simp [hc]
      · exact h5 x hx
    · simp only [hc, Bool.false_eq_true, if_false] at h
      by_cases hd : calculateDistance lat lon a.Latitude a.Longitude ≤ 50
      · simp only [hd, if_true, Option.some.injEq, Prod.mk.injEq] at h
        obtain ⟨rfl, rfl⟩ := h
        exact ⟨[], rest, rfl, by simpa using hc, rfl, hd, by simp⟩
      · simp only [hd, if_false] at h
        obtain ⟨pre, post, h1, h2, h3, h4, h5⟩ := ih h
        refine ⟨a :: pre, post, by simp [h1], h2, h3, h4, ?_⟩
        intro x hx
        rcases List.mem_cons.1 hx with rfl | hx
        · exact fun hx => hd hx.2
        · exact h5 x hx

/-- The scan finds nothing exactly when no keypoint of the list is both
uncompleted and within 50. -/
theorem scanKeypoints_none (lat lon : F) (completed : List CompletedKeypoint)
    (kps : List (KeyPoint F)) :
    scanKeypoints calculateDistance lat lon completed kps = none ↔
      ∀ x ∈ kps, ¬ (alreadyCompleted x.ID completed = false ∧
        calculateDistance lat lon x.Latitude x.Longitude ≤ 50) := by
  induction kps with
  | nil => simp [scanKeypoints]
  | cons a rest ih =>
    unfold scanKeypoints
    by_cases hc : alreadyCompleted a.ID completed = true
    · simp [hc, ih]
    · by_cases hd : calculateDistance lat lon a.Latitude a.Longitude ≤ 50
      · simp [hc, hd]
      · simp [hc, hd, ih]

end Scan

theorem afterUpdate_frame (s : Store F) (fl : Faults) (now : Time) (e1 : TourExecution F) :
    (afterUpdate s (s.UpdateExecution fl now e1)).carts = s.carts ∧
    (afterUpdate s (s.UpdateExecution fl now e1)).tokens = s.tokens := by
  cases hu : (s.UpdateExecution fl now e1).2 with
  | none => simp [afterUpdate, hu]
  | some s1 =>
    have h := updateExecution_frame hu
    simp [afterUpdate, hu, h.1, h.2.1]

theorem checkoutLoop_carts (env : Env) (touristId : String) (items : List (CartItem F))
    (line : Nat) (s : Store F) (tokens : List TokenProto) :
    (checkoutLoop env touristId items line s tokens).2.carts = s.carts := by
  induction items generalizing line s tokens with
  | nil => rfl
  | cons item rest ih =>
    unfold checkoutLoop
    by_cases hf : env.faults.CreatePurchaseToken line = true
    · simp [Store.CreatePurchaseToken, hf, ih]
    · simp [Store.CreatePurchaseToken, hf, ih]

end Lemmas

/-! ## The branches of `CheckProximity` -/

section ProximityBranches

variable {F : Type} [LE F] [DecidableRel (LE.le : F → F → Prop)] [OfNat F 50]
  (calculateDistance : F → F → F → F → F)

/-- `CheckProximity` past the ownership check when the keypoints cannot be read. -/
theorem checkProximity_no_keypoints (s : Store F) (env : Env) (id : ObjectID)
    (touristId : String) (lat lon : F) (e : TourExecution F)
    (h : s.GetExecution env.faults id = some e) (ho : e.TouristID = touristId)
    (hk : s.GetKeyPointsByTourID env.faults e.TourID = none) :
    CheckProximity calculateDistance s env (some id) touristId lat lon =
      (⟨false, "Failed to get keypoints", false, none, none⟩, s) := by
  have hne : (e.TouristID != touristId) = false := by simp [ho]
  simp only [CheckProximity, h, hne, hk, Bool.false_eq_true, if_false]

/-- `CheckProximity` past the ownership check when the scan finds no keypoint. -/
theorem checkProximity_far (s : Store F) (env : Env) (id : ObjectID)
    (touristId : String) (lat lon : F) (e : TourExecution F) (kps : List (KeyPoint F))
    (h : s.GetExecution env.faults id = some e) (ho : e.TouristID = touristId)
    (hk : s.GetKeyPointsByTourID env.faults e.TourID = some kps)
    (hscan : scanKeypoints calculateDistance lat lon e.CompletedKeypoints kps = none) :
    CheckProximity calculateDistance s env (some id) touristId lat lon =
      (⟨true, "No nearby keypoints", false, none, none⟩,
        afterUpdate s (s.UpdateExecution env.faults env.now e)) := by
  have hne : (e.TouristID != touristId) = false := by simp [ho]
  simp only [CheckProximity, h, hne, hk, hscan, Bool.false_eq_true, if_false]

/-- `CheckProximity` past the ownership check when the scan finds `kp`. -/
theorem checkProximity_near (s : Store F) (env : Env) (id : ObjectID)
    (touristId : String) (lat lon : F) (e : TourExecution F) (kps : List (KeyPoint F))
    (kp : KeyPoint F) (d : F)
    (h : s.GetExecution env.faults id = some e) (ho : e.TouristID = touristId)
    (hk : s.GetKeyPointsByTourID env.faults e.TourID = some kps)
    (hscan : scanKeypoints calculateDistance lat lon e.CompletedKeypoints kps = some (kp, d)) :
    CheckProximity calculateDistance s env (some id) touristId lat lon =
      (⟨true, "Near keypoint", true, some kp, some d⟩,
        afterUpdate s (s.UpdateExecution env.faults env.now
          { e with CompletedKeypoints := e.CompletedKeypoints ++ [⟨kp.ID, env.now⟩] })) := by
  have hne : (e.TouristID != touristId) = false := by simp [ho]
  simp only [CheckProximity, h, hne, hk, hscan, Bool.false_eq_true, if_false]

/-- A response carrying a keypoint comes from the `Near keypoint` branch. -/
theorem checkProximity_nearby_inv (s : Store F) (env : Env) (executionId : Option ObjectID)
    (touristId : String) (lat lon : F) (kp : KeyPoint F)
    (h : (CheckProximity calculateDistance s env executionId touristId lat lon).1.NearbyKeyPoint
      = some kp) :
    ∃ id e kps d, executionId = some id ∧ s.GetExecution env.faults id = some e ∧
      e.TouristID = touristId ∧ s.GetKeyPointsByTourID env.faults e.TourID = some kps ∧
      scanKeypoints calculateDistance lat lon e.CompletedKeypoints kps = some (kp, d) := by
  cases executionId with
  | none => simp [CheckProximity] at h
  | some id =>
    cases hg : s.GetExecution env.faults id with
    | none => simp [CheckProximity, hg] at h
    | some e =>
      by_cases ho : e.TouristID = touristId
      · cases hk : s.GetKeyPointsByTourID env.faults e.TourID with
        | none =>
          rw [checkProximity_no_keypoints calculateDistance s env id touristId lat lon e hg ho hk]
            at h
          simp at h
        | some kps =>
          cases hscan : scanKeypoints calculateDistance lat lon e.CompletedKeypoints kps with
          | none =>
            rw [checkProximity_far calculateDistance s env id touristId lat lon e kps hg ho hk
              hscan] at h
            simp at h
          | some r =>
            obtain ⟨kp1, d⟩ := r
            rw [checkProximity_near calculateDistance s env id touristId lat lon e kps kp1 d hg ho
              hk hscan] at h
            simp only [Option.some.injEq] at h
            subst h
            exact ⟨id, e, kps, d, rfl, hg, ho, hk, hscan⟩
      · have hne : (e.TouristID != touristId) = true := by simpa using ho
        simp [CheckProximity, hg, hne] at h

/-- The same for the flag: `NearKeyPoint = true` comes from the `Near keypoint` branch. -/
theorem checkProximity_flag_inv (s : Store F) (env : Env) (executionId : Option ObjectID)
    (touristId : String) (lat lon : F)
    (h : (CheckProximity calculateDistance s env executionId touristId lat lon).1.NearKeyPoint
      = true) :
    ∃ id e kps kp d, executionId = some id ∧ s.GetExecution env.faults id = some e ∧
      e.TouristID = touristId ∧ s.GetKeyPointsByTourID env.faults e.TourID = some kps ∧
      scanKeypoints calculateDistance lat lon e.CompletedKeypoints kps = some (kp, d) := by
  cases executionId with
  | none => simp [CheckProximity] at h
  | some id =>
    cases hg : s.GetExecution env.faults id with
    | none => simp [CheckProximity, hg] at h
    | some e =>
      by_cases ho : e.TouristID = touristId
      · cases hk : s.GetKeyPointsByTourID env.faults e.TourID with
        | none =>
          rw [checkProximity_no_keypoints calculateDistance s env id touristId lat lon e hg ho hk]
            at h
          simp at h
        | some kps =>
          cases hscan : scanKeypoints calculateDistance lat lon e.CompletedKeypoints kps with
          | none =>
            rw [checkProximity_far calculateDistance s env id touristId lat lon e kps hg ho hk
              hscan] at h
            simp at h
          | some r =>
            obtain ⟨kp1, d⟩ := r
            exact ⟨id, e, kps, kp1, d, rfl, hg, ho, hk, hscan⟩
      · have hne : (e.TouristID != touristId) = true := by simpa using ho
        simp [CheckProximity, hg, hne] at h

/-- Each `CheckProximity` call is a step of `ExecStep`. -/
theorem checkProximity_execStep (ga : Bool) (s : Store F) (env : Env)
    (executionId : Option ObjectID) (touristId : String) (lat lon : F) :
    ExecStep ga s (CheckProximity calculateDistance s env executionId touristId lat lon).2 := by
  cases executionId with
  | none => exact execStep_of_executions_eq ga (by simp [CheckProximity])
  | some id =>
    cases hg : s.GetExecution env.faults id with
    | none => exact execStep_of_executions_eq ga (by simp [CheckProximity, hg])
    | some e =>
      by_cases ho : e.TouristID = touristId
      · cases hk : s.GetKeyPointsByTourID env.faults e.TourID with
        | none =>
          rw [checkProximity_no_keypoints calculateDistance s env id touristId lat lon e hg ho hk]
          exact execStep_refl _ _
        | some kps =>
          cases hscan : scanKeypoints calculateDistance lat lon e.CompletedKeypoints kps with
          | none =>
            rw [checkProximity_far calculateDistance s env id touristId lat lon e kps hg ho hk
              hscan]
            cases hu : (s.UpdateExecution env.faults env.now e).2 with
            | none => simp only [afterUpdate, hu]; exact execStep_refl _ _
            | some s1 =>
              simp only [afterUpdate, hu]
              exact updateExecution_execStep e ga hg rfl rfl rfl (Or.inl rfl) (Or.inl rfl) hu
          | some r =>
            obtain ⟨kp, d⟩ := r
            rw [checkProximity_near calculateDistance s env id touristId lat lon e kps kp d hg ho
              hk hscan]
            cases hu : (s.UpdateExecution env.faults env.now
              { e with CompletedKeypoints := e.CompletedKeypoints ++ [⟨kp.ID, env.now⟩] }).2 with
            | none => simp only [afterUpdate, hu]; exact execStep_refl _ _
            | some s1 =>
              simp only [afterUpdate, hu]
              obtain ⟨pre, post, -, hnc, -, -, -⟩ :=
                scanKeypoints_some calculateDistance lat lon e.CompletedKeypoints kps kp d hscan
              have hsome : ∃ c : CompletedKeypoint,
                  e.CompletedKeypoints ++ [⟨kp.ID, env.now⟩] = e.CompletedKeypoints ++ [c] ∧
                    alreadyCompleted c.KeypointID e.CompletedKeypoints = false :=
                ⟨⟨kp.ID, env.now⟩, rfl, hnc⟩
              exact updateExecution_execStep
                { e with CompletedKeypoints := e.CompletedKeypoints ++ [⟨kp.ID, env.now⟩] }
                ga hg rfl rfl rfl (Or.inl rfl) (Or.inr hsome) hu
      · have hne : (e.TouristID != touristId) = true := by simpa using ho
        exact execStep_of_executions_eq ga (by simp [CheckProximity, hg, hne])

theorem checkProximity_frame (s : Store F) (env : Env) (executionId : Option ObjectID)
    (touristId : String) (lat lon : F) :
    (CheckProximity calculateDistance s env executionId touristId lat lon).2.carts = s.carts ∧
    (CheckProximity calculateDistance s env executionId touristId lat lon).2.tokens
      = s.tokens := by
  simp only [CheckProximity]
  repeat' split
  all_goals first
    | exact ⟨rfl, rfl⟩
    | exact afterUpdate_frame _ _ _ _

end ProximityBranches

/-! ## Effect of the handlers on the execution collection -/

section ExecSteps

variable {F : Type}

theorem startTourExecution_execStep (s : Store F) (env : Env) (touristId : String)
    (tourId : Option ObjectID) (lat lon : F) :
    ExecStep env.faults.GetActiveExecution s
      (StartTourExecution s env touristId tourId lat lon).2 := by
  unfold StartTourExecution
  cases tourId with
  | none => exact execStep_refl _ _
  | some tourID =>
    simp only []
    by_cases hp : s.HasPurchased env.faults touristId tourID = some true
    · simp only [hp, bne_self_eq_false, Bool.false_eq_true, if_false]
      cases hga : s.GetActiveExecution env.faults touristId tourID with
      | some ex => exact execStep_refl _ _
      | none =>
        simp only []
        by_cases hce : env.faults.CreateExecution = true
        · simp only [Store.CreateExecution, hce, if_true]
          exact execStep_refl _ _
        · simp only [Store.CreateExecution, hce, Bool.false_eq_true, if_false]
          refine Or.inr (Or.inl ⟨_, rfl, rfl, rfl, ?_, ?_⟩)
          · unfold Store.HasPurchased at hp
            by_cases hfp : env.faults.HasPurchased = true
            · simp [hfp] at hp
            · simp only [hfp, Bool.false_eq_true, if_false, Option.some.injEq,
                decide_eq_true_eq] at hp
              obtain ⟨tk, htk⟩ := List.exists_mem_of_length_pos hp
              rw [List.mem_filter] at htk
              refine ⟨tk, htk.1, ?_⟩
              simpa using htk.2
          · intro hfalse x hx hcontra
            unfold Store.GetActiveExecution at hga
            simp only [hfalse, Bool.false_eq_true, if_false] at hga
            rw [List.find?_eq_none] at hga
            have := hga x hx
            simp only [] at hcontra
            simp [hcontra.1, hcontra.2.1, hcontra.2.2] at this
    · have hne : (s.HasPurchased env.faults touristId tourID != some true) = true := by
        simpa using hp
      simp only [hne, if_true]
      exact execStep_refl _ _

/-- `CompleteTour` by the owner when the write is rejected. -/
theorem completeTour_owner_fault (s : Store F) (env : Env) (id : ObjectID) (touristId : String)
    (e : TourExecution F) (h : s.GetExecution env.faults id = some e)
    (ho : e.TouristID = touristId) (hf : env.faults.UpdateExecution = true) :
    CompleteTour s env (some id) touristId = (⟨false, "Failed to complete tour", none⟩, s) := by
  have hne : (e.TouristID != touristId) = false := by simp [ho]
  simp [CompleteTour, h, hne, Store.UpdateExecution, hf]

/-- `CompleteTour` by the owner when the write goes through. -/
theorem completeTour_owner_ok (s : Store F) (env : Env) (id : ObjectID) (touristId : String)
    (e : TourExecution F) (h : s.GetExecution env.faults id = some e)
    (ho : e.TouristID = touristId) (hf : env.faults.UpdateExecution = false) :
    ∃ s1, (s.UpdateExecution env.faults env.now
        { e with Status := "completed", CompletedAt := env.now }).2 = some s1 ∧
      CompleteTour s env (some id) touristId =
        (⟨true, "Tour completed successfully",
          some { e with Status := "completed", CompletedAt := env.now,
                        LastActivity := env.now }⟩, s1) := by
  have hne : (e.TouristID != touristId) = false := by simp [ho]
  simp [CompleteTour, h, hne, Store.UpdateExecution, hf]

/-- `AbandonTour` by the owner when the write is rejected. -/
theorem abandonTour_owner_fault (s : Store F) (env : Env) (id : ObjectID) (touristId : String)
    (e : TourExecution F) (h : s.GetExecution env.faults id = some e)
    (ho : e.TouristID = touristId) (hf : env.faults.UpdateExecution = true) :
    AbandonTour s env (some id) touristId = (⟨false, "Failed to abandon tour", none⟩, s) := by
  have hne : (e.TouristID != touristId) = false := by simp [ho]
  simp [AbandonTour, h, hne, Store.UpdateExecution, hf]

/-- `AbandonTour` by the owner when the write goes through. -/
theorem abandonTour_owner_ok (s : Store F) (env : Env) (id : ObjectID) (touristId : String)
    (e : TourExecution F) (h : s.GetExecution env.faults id = some e)
    (ho : e.TouristID = touristId) (hf : env.faults.UpdateExecution = false) :
    ∃ s1, (s.UpdateExecution env.faults env.now
        { e with Status := "abandoned", CompletedAt := env.now }).2 = some s1 ∧
      AbandonTour s env (some id) touristId =
        (⟨true, "Tour abandoned",
          some { e with Status := "abandoned", CompletedAt := env.now,
                        LastActivity := env.now }⟩, s1) := by
  have hne : (e.TouristID != touristId) = false := by simp [ho]
  simp [AbandonTour, h, hne, Store.UpdateExecution, hf]

theorem completeTour_execStep (ga : Bool) (s : Store F) (env : Env)
    (executionId : Option ObjectID) (touristId : String) :
    ExecStep ga s (CompleteTour s env executionId touristId).2 := by
  cases executionId with
  | none => exact execStep_of_executions_eq ga (by simp [CompleteTour])
  | some id =>
    cases hg : s.GetExecution env.faults id with
    | none => exact execStep_of_executions_eq ga (by simp [CompleteTour, hg])
    | some e =>
      by_cases ho : e.TouristID = touristId
      · by_cases hf : env.faults.UpdateExecution = true
        · rw [completeTour_owner_fault s env id touristId e hg ho hf]
          exact execStep_refl _ _
        · obtain ⟨s1, hu, heq⟩ :=
            completeTour_owner_ok s env id touristId e hg ho (by simpa using hf)
          rw [heq]
          exact updateExecution_execStep
            { e with Status := "completed", CompletedAt := env.now }
            ga hg rfl rfl rfl (Or.inr (Or.inl rfl)) (Or.inl rfl) hu
      · have hne : (e.TouristID != touristId) = true := by simpa using ho
        exact execStep_of_executions_eq ga (by simp [CompleteTour, hg, hne])

theorem abandonTour_execStep (ga : Bool) (s : Store F) (env : Env)
    (executionId : Option ObjectID) (touristId : String) :
    ExecStep ga s (AbandonTour s env executionId touristId).2 := by
  cases executionId with
  | none => exact execStep_of_executions_eq ga (by simp [AbandonTour])
  | some id =>
    cases hg : s.GetExecution env.faults id with
    | none => exact execStep_of_executions_eq ga (by simp [AbandonTour, hg])
    | some e =>
      by_cases ho : e.TouristID = touristId
      · by_cases hf : env.faults.UpdateExecution = true
        · rw [abandonTour_owner_fault s env id touristId e hg ho hf]
          exact execStep_refl _ _
        · obtain ⟨s1, hu, heq⟩ :=
            abandonTour_owner_ok s env id touristId e hg ho (by simpa using hf)
          rw [heq]
          exact updateExecution_execStep
            { e with Status := "abandoned", CompletedAt := env.now }
            ga hg rfl rfl rfl (Or.inr (Or.inr rfl)) (Or.inl rfl) hu
      · have hne : (e.TouristID != touristId) = true := by simpa using ho
        exact execStep_of_executions_eq ga (by simp [AbandonTour, hg, hne])

theorem getExecution_store (s : Store F) (env : Env) (executionId : Option ObjectID)
    (touristId : String) : (GetExecution s env executionId touristId).2 = s := by
  unfold GetExecution
  repeat' split
  all_goals rfl

theorem repoPublishTour_frame {s s1 : Store F} {fl : Faults} {now : Time} {id : ObjectID}
    {price : F} (h : s.PublishTour fl now id price = some s1) :
    s1.executions = s.executions ∧ s1.carts = s.carts ∧ s1.tokens = s.tokens := by
  unfold Store.PublishTour at h
  split at h
  · simp at h
  · simp only [Option.some.injEq] at h
    subst h
    exact ⟨rfl, rfl, rfl⟩

theorem repoCreateKeyPoint_frame {s s1 : Store F} {fl : Faults} {kp kp1 : KeyPoint F}
    (h : s.CreateKeyPoint fl kp = some (kp1, s1)) :
    s1.executions = s.executions ∧ s1.carts = s.carts ∧ s1.tokens = s.tokens := by
  unfold Store.CreateKeyPoint at h
  split at h
  · simp at h
  · simp only [Option.some.injEq, Prod.mk.injEq] at h
    obtain ⟨-, rfl⟩ := h
    exact ⟨rfl, rfl, rfl⟩

theorem repoUpdateKeyPoint_frame {s s1 : Store F} {fl : Faults} {kp : KeyPoint F}
    (h : s.UpdateKeyPoint fl kp = some s1) :
    s1.executions = s.executions ∧ s1.carts = s.carts ∧ s1.tokens = s.tokens := by
  unfold Store.UpdateKeyPoint at h
  split at h
  · simp at h
  · simp only [Option.some.injEq] at h
    subst h
    exact ⟨rfl, rfl, rfl⟩

theorem repoDeleteKeyPoint_frame {s s1 : Store F} {fl : Faults} {id : ObjectID}
    (h : s.DeleteKeyPoint fl id = some s1) :
    s1.executions = s.executions ∧ s1.carts = s.carts ∧ s1.tokens = s.tokens := by
  unfold Store.DeleteKeyPoint at h
  split at h
  · simp at h
  · simp only [Option.some.injEq] at h
    subst h
    exact ⟨rfl, rfl, rfl⟩

theorem publishTour_frame (s : Store F) (env : Env) (tourId : Option ObjectID)
    (guideId : String) (price : F) :
    (PublishTour s env tourId guideId price).2.executions = s.executions ∧
    (PublishTour s env tourId guideId price).2.carts = s.carts ∧
    (PublishTour s env tourId guideId price).2.tokens = s.tokens := by
  simp only [PublishTour]
  repeat' split
  all_goals first
    | exact ⟨rfl, rfl, rfl⟩
    | (rename_i hp; exact repoPublishTour_frame hp)

theorem addKeyPoint_frame (s : Store F) (env : Env) (tourId : Option ObjectID)
    (guideId : String) (latitude longitude : F) (name description image : String)
    (order : Int) :
    (AddKeyPoint s env tourId guideId latitude longitude name description image
      order).2.executions = s.executions ∧
    (AddKeyPoint s env tourId guideId latitude longitude name description image
      order).2.carts = s.carts ∧
    (AddKeyPoint s env tourId guideId latitude longitude name description image
      order).2.tokens = s.tokens := by
  simp only [AddKeyPoint]
  repeat' split
  all_goals first
    | exact ⟨rfl, rfl, rfl⟩
    | (rename_i hp; exact repoCreateKeyPoint_frame hp)

theorem updateKeyPoint_frame (s : Store F) (env : Env) (keyPointId tourId : Option ObjectID)
    (guideId : String) (latitude longitude : F) (name description image : String) :
    (UpdateKeyPoint s env keyPointId tourId guideId latitude longitude name description
      image).2.executions = s.executions ∧
    (UpdateKeyPoint s env keyPointId tourId guideId latitude longitude name description
      image).2.carts = s.carts ∧
    (UpdateKeyPoint s env keyPointId tourId guideId latitude longitude name description
      image).2.tokens = s.tokens := by
  simp only [UpdateKeyPoint]
  repeat' split
  all_goals first
    | exact ⟨rfl, rfl, rfl⟩
    | (rename_i hp; exact repoUpdateKeyPoint_frame hp)

theorem deleteKeyPoint_frame (s : Store F) (env : Env) (keyPointId tourId : Option ObjectID)
    (guideId : String) :
    (DeleteKeyPoint s env keyPointId tourId guideId).2.executions = s.executions ∧
    (DeleteKeyPoint s env keyPointId tourId guideId).2.carts = s.carts ∧
    (DeleteKeyPoint s env keyPointId tourId guideId).2.tokens = s.tokens := by
  simp only [DeleteKeyPoint]
  repeat' split
  all_goals first
    | exact ⟨rfl, rfl, rfl⟩
    | (rename_i hp; exact repoDeleteKeyPoint_frame hp)

theorem updateCart_frame {s s1 : Store F} {fl : Faults} {cart : ShoppingCart F}
    (h : s.UpdateCart fl cart = some s1) :
    s1.executions = s.executions ∧ s1.tokens = s.tokens ∧ s1.tours = s.tours ∧
      s1.carts = updateFirst (fun c => c.ID == cart.ID) (fun _ => cart) s.carts := by
  unfold Store.UpdateCart at h
  split at h
  · simp at h
  · simp only [Option.some.injEq] at h
    subst h
    exact ⟨rfl, rfl, rfl, rfl⟩

theorem addToCart_frame [Zero F] [Add F] (s : Store F) (env : Env) (touristId : String)
    (tourId : Option ObjectID) :
    (AddToCart s env touristId tourId).2.executions = s.executions ∧
    (AddToCart s env touristId tourId).2.tokens = s.tokens := by
  cases tourId with
  | none => exact ⟨rfl, rfl⟩
  | some tourID =>
    cases ht : s.GetTourByID env.faults tourID with
    | none => simp [AddToCart, ht]
    | some tour =>
      cases hc : s.GetOrCreateCart env.faults touristId with
      | none => simp only [AddToCart, ht, hc]; split <;> exact ⟨rfl, rfl⟩
      | some r =>
        obtain ⟨cart, s1⟩ := r
        have h1 := getOrCreateCart_executions hc
        simp only [AddToCart, ht, hc]
        split
        · exact ⟨rfl, rfl⟩
        · split
          · exact ⟨h1.1, h1.2.1⟩
          · split
            · exact ⟨h1.1, h1.2.1⟩
            · rename_i hu
              have h2 := updateCart_frame hu
              exact ⟨h2.1.trans h1.1, h2.2.1.trans h1.2.1⟩

theorem removeFromCart_frame [Zero F] [Add F] (s : Store F) (env : Env) (touristId : String)
    (tourId : Option ObjectID) :
    (RemoveFromCart s env touristId tourId).2.executions = s.executions ∧
    (RemoveFromCart s env touristId tourId).2.tokens = s.tokens := by
  cases tourId with
  | none => exact ⟨rfl, rfl⟩
  | some tourID =>
    cases hc : s.GetOrCreateCart env.faults touristId with
    | none => simp [RemoveFromCart, hc]
    | some r =>
      obtain ⟨cart, s1⟩ := r
      have h1 := getOrCreateCart_executions hc
      simp only [RemoveFromCart, hc]
      split
      · exact ⟨h1.1, h1.2.1⟩
      · rename_i hu
        have h2 := updateCart_frame hu
        exact ⟨h2.1.trans h1.1, h2.2.1.trans h1.2.1⟩

theorem getCart_frame [Zero F] (s : Store F) (env : Env) (touristId : String) :
    (GetCart s env touristId).2.executions = s.executions ∧
    (GetCart s env touristId).2.tokens = s.tokens := by
  cases hc : s.GetOrCreateCart env.faults touristId with
  | none => simp [GetCart, hc]
  | some r =>
    obtain ⟨cart, s1⟩ := r
    have h1 := getOrCreateCart_executions hc
    simp only [GetCart, hc]
    exact ⟨h1.1, h1.2.1⟩

theorem checkoutLoop_tokens_mono (env : Env) (touristId : String) (items : List (CartItem F))
    (line : Nat) (s : Store F) (tokens : List TokenProto) :
    ∀ tk ∈ s.tokens, tk ∈ (checkoutLoop env touristId items line s tokens).2.tokens := by
  induction items generalizing line s tokens with
  | nil => intro tk h; exact h
  | cons item rest ih =>
    intro tk h
    unfold checkoutLoop
    by_cases hf : env.faults.CreatePurchaseToken line = true
    · simp only [Store.CreatePurchaseToken, hf, if_true]
      exact ih _ _ _ tk h
    · simp only [Store.CreatePurchaseToken, hf, Bool.false_eq_true, if_false]
      exact ih _ _ _ tk (by simp [h])

theorem clearCart_frame [Zero F] {s s1 : Store F} {fl : Faults} {t : String}
    (h : s.ClearCart fl t = some s1) :
    s1.executions = s.executions ∧ s1.tokens = s.tokens ∧ s1.tours = s.tours ∧
      s1.carts = updateFirst (fun c => c.TouristID == t)
        (fun c => { c with Items := [], TotalPrice := 0 }) s.carts := by
  unfold Store.ClearCart at h
  split at h
  · simp at h
  · simp only [Option.some.injEq] at h
    subst h
    exact ⟨rfl, rfl, rfl, rfl⟩

theorem checkout_frame [Zero F] (s : Store F) (env : Env) (touristId : String) :
    (Checkout s env touristId).2.executions = s.executions ∧
    ∀ tk ∈ s.tokens, tk ∈ (Checkout s env touristId).2.tokens := by
  cases hc : s.GetOrCreateCart env.faults touristId with
  | none => simp [Checkout, hc]
  | some r =>
    obtain ⟨cart, s1⟩ := r
    have h1 := getOrCreateCart_executions hc
    simp only [Checkout, hc]
    split
    · exact ⟨h1.1, fun tk h => by rw [h1.2.1]; exact h⟩
    · have hl := checkoutLoop_executions env touristId cart.Items 0 s1 []
      have hm := checkoutLoop_tokens_mono env touristId cart.Items 0 s1 []
      cases hcl : (checkoutLoop env touristId cart.Items 0 s1 []).2.ClearCart env.faults
          touristId with
      | none =>
        simp only []
        exact ⟨hl.trans h1.1, fun tk h => hm tk (by rw [h1.2.1]; exact h)⟩
      | some s2 =>
        simp only []
        have h2 := clearCart_frame hcl
        exact ⟨h2.1.trans (hl.trans h1.1),
          fun tk h => by rw [h2.2.1]; exact hm tk (by rw [h1.2.1]; exact h)⟩

theorem execStep_distinct {ga : Bool} {s s1 : Store F} (h : ExecStep ga s s1)
    (hd : DistinctCompleted s) : DistinctCompleted s1 := by
  rcases h with h | ⟨e, h, -, hck, -, -⟩ | ⟨pre, post, e, e1, hs, hs1, -, -, -, -, -, hck⟩
  · intro x hx
    rw [h] at hx
    exact hd x hx
  · intro x hx
    rw [h, List.mem_append, List.mem_singleton] at hx
    rcases hx with hx | rfl
    · exact hd x hx
    · simp [completedIds, hck]
  · intro x hx
    rw [hs1] at hx
    have hmem : x ∈ pre ++ e :: post ∨ x = e1 := by
      simp only [List.mem_append, List.mem_cons] at hx ⊢
      tauto
    rcases hmem with hx | rfl
    · exact hd x (hs ▸ hx)
    · have he : (completedIds e).Nodup := hd e (by rw [hs]; simp)
      rcases hck with hck | ⟨c, hck, hnc⟩
      · simpa [completedIds, hck] using he
      · have hnot : c.KeypointID ∉ completedIds e := by
          intro hin
          have := (alreadyCompleted_iff c.KeypointID e.CompletedKeypoints).2 hin
          simp [hnc] at this
        simp only [completedIds, hck, List.map_append, List.map_cons, List.map_nil]
        rw [List.nodup_append]
        refine ⟨he, by simp, ?_⟩
        intro a ha hb
        rw [List.mem_singleton] at hb
        subst hb
        exact hnot ha

theorem startTourExecution_frame (s : Store F) (env : Env) (touristId : String)
    (tourId : Option ObjectID) (lat lon : F) :
    (StartTourExecution s env touristId tourId lat lon).2.carts = s.carts ∧
    (StartTourExecution s env touristId tourId lat lon).2.tokens = s.tokens := by
  cases tourId with
  | none => exact ⟨rfl, rfl⟩
  | some tourID =>
    simp only [StartTourExecution]
    split
    · exact ⟨rfl, rfl⟩
    · cases s.GetActiveExecution env.faults touristId tourID with
      | some ex => exact ⟨rfl, rfl⟩
      | none =>
        by_cases hc : env.faults.CreateExecution = true
        · simp [Store.CreateExecution, hc]
        · simp [Store.CreateExecution, hc]

theorem completeTour_frame (s : Store F) (env : Env) (executionId : Option ObjectID)
    (touristId : String) :
    (CompleteTour s env executionId touristId).2.carts = s.carts ∧
    (CompleteTour s env executionId touristId).2.tokens = s.tokens := by
  simp only [CompleteTour]
  repeat' split
  all_goals first
    | exact ⟨rfl, rfl⟩
    | (rename_i hp
       have h := updateExecution_frame (congrArg Prod.snd hp)
       exact ⟨h.1, h.2.1⟩)

theorem abandonTour_frame (s : Store F) (env : Env) (executionId : Option ObjectID)
    (touristId : String) :
    (AbandonTour s env executionId touristId).2.carts = s.carts ∧
    (AbandonTour s env executionId touristId).2.tokens = s.tokens := by
  simp only [AbandonTour]
  repeat' split
  all_goals first
    | exact ⟨rfl, rfl⟩
    | (rename_i hp
       have h := updateExecution_frame (congrArg Prod.snd hp)
       exact ⟨h.1, h.2.1⟩)

theorem execStep_allPurchased {ga : Bool} {s s1 : Store F} (h : ExecStep ga s s1)
    (hm : ∀ tk ∈ s.tokens, tk ∈ s1.tokens) (hd : AllPurchased s) : AllPurchased s1 := by
  have lift : ∀ e : TourExecution F,
      (∃ tk ∈ s.tokens, tk.TouristID = e.TouristID ∧ tk.TourID = e.TourID) →
      ∃ tk ∈ s1.tokens, tk.TouristID = e.TouristID ∧ tk.TourID = e.TourID := by
    rintro e ⟨tk, h1, h2⟩
    exact ⟨tk, hm tk h1, h2⟩
  rcases h with h | ⟨e, h, -, -, htk, -⟩ | ⟨pre, post, e, e1, hs, hs1, -, -, ht, hto, -, -⟩
  · intro x hx
    rw [h] at hx
    exact lift x (hd x hx)
  · intro x hx
    rw [h, List.mem_append, List.mem_singleton] at hx
    rcases hx with hx | rfl
    · exact lift x (hd x hx)
    · exact lift x htk
  · intro x hx
    rw [hs1] at hx
    have hmem : x ∈ pre ++ e :: post ∨ x = e1 := by
      simp only [List.mem_append, List.mem_cons] at hx ⊢
      tauto
    rcases hmem with hx | rfl
    · exact lift x (hd x (hs ▸ hx))
    · have he := hd e (by rw [hs]; simp)
      rw [← ht, ← hto] at he
      exact lift x he

theorem execStep_oneActive {s s1 : Store F} (h : ExecStep false s s1)
    (hd : AtMostOneActive s) : AtMostOneActive s1 := by
  intro t u
  have hdtu := hd t u
  unfold activeFor at hdtu ⊢
  rcases h with h | ⟨e, h, hst, -, -, hnone⟩ | ⟨pre, post, e, e1, hs, hs1, -, -, ht, hto, hst, -⟩
  · rw [h]
    exact hdtu
  · rw [h, List.filter_append]
    by_cases hpair : e.TouristID = t ∧ e.TourID = u
    · have hempty : s.executions.filter
          (fun e => e.TouristID == t && e.TourID == u && e.Status == "active") = [] := by
        rw [List.filter_eq_nil_iff]
        intro x hx hp
        simp only [Bool.and_eq_true, beq_iff_eq] at hp
        exact hnone rfl x hx ⟨hp.1.1.trans hpair.1.symm, hp.1.2.trans hpair.2.symm, hp.2⟩
      rw [hempty]
      simp only [List.nil_append]
      exact (List.length_filter_le _ _).trans (by simp)
    · have hempty : [e].filter
          (fun e => e.TouristID == t && e.TourID == u && e.Status == "active") = [] := by
        rw [List.filter_eq_nil_iff]
        intro x hx hp
        rw [List.mem_singleton] at hx
        subst hx
        simp only [Bool.and_eq_true, beq_iff_eq] at hp
        exact hpair hp.1
      rw [hempty]
      simpa using hdtu
  · rw [hs] at hdtu
    rw [hs1]
    simp only [List.filter_append, List.length_append, List.filter_cons] at hdtu ⊢
    by_cases hp1 : (e1.TouristID == t && e1.TourID == u && e1.Status == "active") = true
    · have hact : e1.Status = "active" := by
        simp only [Bool.and_eq_true, beq_iff_eq] at hp1
        exact hp1.2
      have hsame : e1.Status = e.Status := by
        rcases hst with h1 | h1 | h1
        · exact h1
        · rw [hact] at h1; exact absurd h1 (by decide)
        · rw [hact] at h1; exact absurd h1 (by decide)
      have hp : (e.TouristID == t && e.TourID == u && e.Status == "active") = true := by
        rw [← ht, ← hto, ← hsame]
        exact hp1
      simp only [hp1, hp, if_true] at hdtu ⊢
      exact hdtu
    · simp only [hp1, Bool.false_eq_true, if_false]
      split at hdtu
      · simp only [List.length_cons] at hdtu
        omega
      · exact hdtu

/-- Across a step an execution found under an id stays found under it, keeps
its owner, and its status stays or becomes `completed` or `abandoned`. -/
theorem execStep_lookup {ga : Bool} {s s1 : Store F} (h : ExecStep ga s s1) (id : ObjectID)
    (e : TourExecution F) (hf : s.executions.find? (fun x => x.ID == id) = some e) :
    ∃ e1, s1.executions.find? (fun x => x.ID == id) = some e1 ∧
      e1.TouristID = e.TouristID ∧ e1.TourID = e.TourID ∧
      (e1.Status = e.Status ∨ e1.Status = "completed" ∨ e1.Status = "abandoned") := by
  rcases h with h | ⟨x, h, -, -, -, -⟩ | ⟨pre, post, x, x1, hs, hs1, hpre, hid, ht, hto, hst, -⟩
  · exact ⟨e, by rw [h]; exact hf, rfl, rfl, Or.inl rfl⟩
  · refine ⟨e, ?_, rfl, rfl, Or.inl rfl⟩
    rw [h, List.find?_append, hf]
    rfl
  · rw [hs, List.find?_append] at hf
    rw [hs1, List.find?_append]
    cases hp : pre.find? (fun x => x.ID == id) with
    | some y =>
      rw [hp] at hf
      have hye : y = e := by simpa [Option.or] using hf
      subst hye
      exact ⟨y, by simp [Option.or], rfl, rfl, Or.inl rfl⟩
    | none =>
      rw [hp] at hf
      have hf1 : (x :: post).find? (fun x => x.ID == id) = some e := by
        simpa [Option.or] using hf
      have goal1 : ∀ r : Option (TourExecution F),
          (Option.or (none : Option (TourExecution F)) r) = r := by
        intro r; cases r <;> rfl
      rw [goal1]
      by_cases hx : x.ID = id
      · have hb : (x.ID == id) = true := by simpa using hx
        have hb1 : (x1.ID == id) = true := by rw [hid]; exact hb
        have hex : x = e := by
          simpa [List.find?, hb] using hf1
        subst hex
        exact ⟨x1, by simp [List.find?, hb1], ht, hto, hst⟩
      · have hb : (x.ID == id) = false := by simpa using hx
        have hb1 : (x1.ID == id) = false := by rw [hid]; exact hb
        refine ⟨e, ?_, rfl, rfl, Or.inl rfl⟩
        simp only [List.find?, hb] at hf1
        simp only [List.find?, hb1]
        exact hf1

end ExecSteps

section StepLemmas

variable {F : Type} [Zero F] [Add F] [LE F] [DecidableRel (LE.le : F → F → Prop)] [OfNat F 50]
  (calculateDistance : F → F → F → F → F)

/-- Every request is a step of `ExecStep`. -/
theorem step_execStep (s : Store F) (env : Env) (c : Call F) :
    ExecStep env.faults.GetActiveExecution s (step calculateDistance s env c) := by
  cases c with
  | publishTour a b c => exact execStep_of_executions_eq _ (publishTour_frame s env a b c).1
  | addKeyPoint a b c d e f g h =>
    exact execStep_of_executions_eq _ (addKeyPoint_frame s env a b c d e f g h).1
  | updateKeyPoint a b c d e f g h =>
    exact execStep_of_executions_eq _ (updateKeyPoint_frame s env a b c d e f g h).1
  | deleteKeyPoint a b c => exact execStep_of_executions_eq _ (deleteKeyPoint_frame s env a b c).1
  | addToCart a b => exact execStep_of_executions_eq _ (addToCart_frame s env a b).1
  | removeFromCart a b => exact execStep_of_executions_eq _ (removeFromCart_frame s env a b).1
  | getCart a => exact execStep_of_executions_eq _ (getCart_frame s env a).1
  | checkout a => exact execStep_of_executions_eq _ (checkout_frame s env a).1
  | startTourExecution a b c d => exact startTourExecution_execStep s env a b c d
  | checkProximity a b c d => exact checkProximity_execStep calculateDistance _ s env a b c d
  | completeTour a b => exact completeTour_execStep _ s env a b
  | abandonTour a b => exact abandonTour_execStep _ s env a b
  | getExecution a b =>
    exact execStep_of_executions_eq _ (by simp [step, getExecution_store])

theorem run_distinct (s : Store F) (trace : List (Env × Call F)) (hd : DistinctCompleted s) :
    DistinctCompleted (run calculateDistance s trace) := by
  induction trace generalizing s with
  | nil => exact hd
  | cons c rest ih =>
    exact ih _ (execStep_distinct (step_execStep calculateDistance s c.1 c.2) hd)

theorem step_tokens_mono (s : Store F) (env : Env) (c : Call F) :
    ∀ tk ∈ s.tokens, tk ∈ (step calculateDistance s env c).tokens := by
  have of_eq : ∀ s1 : Store F, s1.tokens = s.tokens → ∀ tk ∈ s.tokens, tk ∈ s1.tokens := by
    intro s1 h tk htk
    rw [h]
    exact htk
  cases c with
  | publishTour a b c => exact of_eq _ (publishTour_frame s env a b c).2.2
  | addKeyPoint a b c d e f g h => exact of_eq _ (addKeyPoint_frame s env a b c d e f g h).2.2
  | updateKeyPoint a b c d e f g h =>
    exact of_eq _ (updateKeyPoint_frame s env a b c d e f g h).2.2
  | deleteKeyPoint a b c => exact of_eq _ (deleteKeyPoint_frame s env a b c).2.2
  | addToCart a b => exact of_eq _ (addToCart_frame s env a b).2
  | removeFromCart a b => exact of_eq _ (removeFromCart_frame s env a b).2
  | getCart a => exact of_eq _ (getCart_frame s env a).2
  | checkout a => exact (checkout_frame s env a).2
  | startTourExecution a b c d => exact of_eq _ (startTourExecution_frame s env a b c d).2
  | checkProximity a b c d => exact of_eq _ (checkProximity_frame calculateDistance s env a b c d).2
  | completeTour a b => exact of_eq _ (completeTour_frame s env a b).2
  | abandonTour a b => exact of_eq _ (abandonTour_frame s env a b).2
  | getExecution a b => exact of_eq _ (by simp [step, getExecution_store])

theorem run_allPurchased (s : Store F) (trace : List (Env × Call F)) (hd : AllPurchased s) :
    AllPurchased (run calculateDistance s trace) := by
  induction trace generalizing s with
  | nil => exact hd
  | cons c rest ih =>
    exact ih _ (execStep_allPurchased (step_execStep calculateDistance s c.1 c.2)
      (step_tokens_mono calculateDistance s c.1 c.2) hd)

theorem run_oneActive (s : Store F) (trace : List (Env × Call F))
    (hok : ∀ c ∈ trace, c.1.faults.GetActiveExecution = false) (hd : AtMostOneActive s) :
    AtMostOneActive (run calculateDistance s trace) := by
  induction trace generalizing s with
  | nil => exact hd
  | cons c rest ih =>
    have hc : c.1.faults.GetActiveExecution = false := hok c (by simp)
    have hstep := step_execStep calculateDistance s c.1 c.2
    rw [hc] at hstep
    exact ih _ (fun c1 h1 => hok c1 (List.mem_cons_of_mem _ h1)) (execStep_oneActive hstep hd)

end StepLemmas

/-! ## Proximity advancement -/

section Proximity

variable {F : Type} [LE F] [DecidableRel (LE.le : F → F → Prop)] [OfNat F 50]
  (calculateDistance : F → F → F → F → F)

/-- What a `CheckProximity` call past the ownership check leaves stored under
the execution's id. -/
theorem checkProximity_writeback (s : Store F) (env : Env) (id : ObjectID)
    (touristId : String) (lat lon : F) (e : TourExecution F)
    (h : s.GetExecution env.faults id = some e) (ho : e.TouristID = touristId) :
    ∃ e1, (CheckProximity calculateDistance s env (some id) touristId lat lon).2.GetExecution
        env.faults id = some e1 ∧
      (e1.CompletedKeypoints = e.CompletedKeypoints ∨
        ∃ c, e1.CompletedKeypoints = e.CompletedKeypoints ++ [c]) ∧
      (env.faults.UpdateExecution = false →
        ((CheckProximity calculateDistance s env (some id) touristId lat lon).1.NearKeyPoint = true ∧
          e1.CompletedKeypoints.length = e.CompletedKeypoints.length + 1 ∧
          ∃ kp, (CheckProximity calculateDistance s env (some id) touristId lat lon).1.NearbyKeyPoint
              = some kp ∧
            e1.CompletedKeypoints = e.CompletedKeypoints ++ [⟨kp.ID, env.now⟩]) ∨
        ((CheckProximity calculateDistance s env (some id) touristId lat lon).1.NearKeyPoint = false ∧
          e1.CompletedKeypoints = e.CompletedKeypoints)) := by
  obtain ⟨-, -, heid⟩ := getExecution_some h
  cases hk : s.GetKeyPointsByTourID env.faults e.TourID with
  | none =>
    rw [checkProximity_no_keypoints calculateDistance s env id touristId lat lon e h ho hk]
    exact ⟨e, h, Or.inl rfl, fun _ => Or.inr ⟨rfl, rfl⟩⟩
  | some kps =>
    cases hscan : scanKeypoints calculateDistance lat lon e.CompletedKeypoints kps with
    | none =>
      rw [checkProximity_far calculateDistance s env id touristId lat lon e kps h ho hk hscan]
      cases hu : (s.UpdateExecution env.faults env.now e).2 with
      | none =>
        simp only [afterUpdate, hu]
        exact ⟨e, h, Or.inl rfl, fun _ => by simp⟩
      | some s1 =>
        simp only [afterUpdate, hu]
        exact ⟨_, getExecution_updateExecution h heid hu, Or.inl (by simp [setExecution]),
          fun _ => by simp [setExecution]⟩
    | some r =>
      obtain ⟨kp, d⟩ := r
      rw [checkProximity_near calculateDistance s env id touristId lat lon e kps kp d h ho hk hscan]
      cases hu : (s.UpdateExecution env.faults env.now
        { e with CompletedKeypoints := e.CompletedKeypoints ++ [⟨kp.ID, env.now⟩] }).2 with
      | none =>
        have hfu : env.faults.UpdateExecution = true := by
          unfold Store.UpdateExecution at hu
          by_contra hc
          simp [hc] at hu
        simp only [afterUpdate, hu]
        exact ⟨e, h, Or.inl rfl, fun hc => by simp [hfu] at hc⟩
      | some s1 =>
        simp only [afterUpdate, hu]
        exact ⟨_, getExecution_updateExecution h (by simpa using heid) hu,
          Or.inr ⟨⟨kp.ID, env.now⟩, by simp [setExecution]⟩, fun _ => by simp [setExecution]⟩

/-- C1: a `CheckProximity` call that passes the existence and ownership checks
leaves under the execution's id a record whose `CompletedKeypoints` is the old
list or the old list with one entry appended at the end, whatever repository
call fails; and when the write-back goes through, the list is the old one
extended by the returned keypoint if the response has `NearKeyPoint = true`,
and the old one if it has `NearKeyPoint = false`. -/
theorem checkProximity_appends_at_most_one (s : Store F) (env : Env) (id : ObjectID)
    (touristId : String) (lat lon : F) (e : TourExecution F)
    (h : s.GetExecution env.faults id = some e) (ho : e.TouristID = touristId) :
    ∃ e1, (CheckProximity calculateDistance s env (some id) touristId lat lon).2.GetExecution
        env.faults id = some e1 ∧
      (e1.CompletedKeypoints = e.CompletedKeypoints ∨
        ∃ c, e1.CompletedKeypoints = e.CompletedKeypoints ++ [c]) ∧
      (env.faults.UpdateExecution = false →
        ((CheckProximity calculateDistance s env (some id) touristId lat lon).1.NearKeyPoint = true ∧
          e1.CompletedKeypoints.length = e.CompletedKeypoints.length + 1 ∧
          ∃ kp, (CheckProximity calculateDistance s env (some id) touristId lat lon).1.NearbyKeyPoint
              = some kp ∧
            e1.CompletedKeypoints = e.CompletedKeypoints ++ [⟨kp.ID, env.now⟩]) ∨
        ((CheckProximity calculateDistance s env (some id) touristId lat lon).1.NearKeyPoint = false ∧
          e1.CompletedKeypoints = e.CompletedKeypoints)) :=
  checkProximity_writeback calculateDistance s env id touristId lat lon e h ho

/-- Witness of C1 on the worked scenario: tourist `ana` reports a position
within range of keypoints 11 and 12 at once. -/
theorem checkProximity_appends_at_most_one_witness :
    ∃ e1, (CheckProximity gridDistance demoStore demoEnv (some 21) "ana" 0 25).2.GetExecution
        demoEnv.faults 21 = some e1 ∧
      (e1.CompletedKeypoints = [] ∨ ∃ c, e1.CompletedKeypoints = [] ++ [c]) ∧
      (demoEnv.faults.UpdateExecution = false →
        ((CheckProximity gridDistance demoStore demoEnv (some 21) "ana" 0 25).1.NearKeyPoint = true ∧
          e1.CompletedKeypoints.length = ([] : List CompletedKeypoint).length + 1 ∧
          ∃ kp, (CheckProximity gridDistance demoStore demoEnv (some 21) "ana" 0 25).1.NearbyKeyPoint
              = some kp ∧
            e1.CompletedKeypoints = [] ++ [⟨kp.ID, demoEnv.now⟩]) ∨
        ((CheckProximity gridDistance demoStore demoEnv (some 21) "ana" 0 25).1.NearKeyPoint = false ∧
          e1.CompletedKeypoints = [])) :=
  checkProximity_appends_at_most_one gridDistance demoStore demoEnv 21 "ana" 0 25
    ⟨21, "ana", 1, "active", 7, 0, 7, 0, 0, []⟩ (by decide) (by decide)

end Proximity

theorem qualifies_iff {F : Type} [LE F] [OfNat F 50] (calculateDistance : F → F → F → F → F)
    (lat lon : F) (e : TourExecution F) (kp : KeyPoint F) :
    Qualifies calculateDistance lat lon e kp ↔
      (alreadyCompleted kp.ID e.CompletedKeypoints = false ∧
        calculateDistance lat lon kp.Latitude kp.Longitude ≤ 50) := by
  unfold Qualifies completedIds
  rw [← alreadyCompleted_iff]
  simp

section FirstMatch

variable {F : Type} [LE F] [DecidableRel (LE.le : F → F → Prop)] [OfNat F 50]
  (calculateDistance : F → F → F → F → F)

/-- C3: for a `CheckProximity` call that passes the existence and ownership
checks and reads the tour's keypoints (the stored keypoints of the execution's
tour, in stored order), the response has `NearKeyPoint = false` exactly when no
keypoint qualifies (uncompleted and at distance at most 50); and when it has
`NearKeyPoint = true`, the keypoint returned, with its distance, is the first
qualifying keypoint of the list: it qualifies, no keypoint before it does, and
it is the one appended to the stored list when the write-back goes through. -/
theorem checkProximity_first_qualifying (s : Store F) (env : Env) (id : ObjectID)
    (touristId : String) (lat lon : F) (e : TourExecution F)
    (h : s.GetExecution env.faults id = some e) (ho : e.TouristID = touristId)
    (hk : env.faults.GetKeyPointsByTourID = false) :
    ((CheckProximity calculateDistance s env (some id) touristId lat lon).1.NearKeyPoint = false ↔
      ∀ x ∈ s.keypoints.filter (fun kp => kp.TourID == e.TourID),
        ¬ Qualifies calculateDistance lat lon e x) ∧
    ((CheckProximity calculateDistance s env (some id) touristId lat lon).1.NearKeyPoint = true →
      ∃ kp pre post,
        (CheckProximity calculateDistance s env (some id) touristId lat lon).1.NearbyKeyPoint
          = some kp ∧
        (CheckProximity calculateDistance s env (some id) touristId lat lon).1.Distance
          = some (calculateDistance lat lon kp.Latitude kp.Longitude) ∧
        s.keypoints.filter (fun kp => kp.TourID == e.TourID) = pre ++ kp :: post ∧
        Qualifies calculateDistance lat lon e kp ∧
        (∀ x ∈ pre, ¬ Qualifies calculateDistance lat lon e x) ∧
        (env.faults.UpdateExecution = false →
          ∃ e1, (CheckProximity calculateDistance s env (some id) touristId lat lon).2.GetExecution
              env.faults id = some e1 ∧
            e1.CompletedKeypoints = e.CompletedKeypoints ++ [⟨kp.ID, env.now⟩])) := by
  have hkps : s.GetKeyPointsByTourID env.faults e.TourID =
      some (s.keypoints.filter (fun kp => kp.TourID == e.TourID)) := by
    simp [Store.GetKeyPointsByTourID, hk]
  cases hscan : scanKeypoints calculateDistance lat lon e.CompletedKeypoints
      (s.keypoints.filter (fun kp => kp.TourID == e.TourID)) with
  | none =>
    rw [checkProximity_far calculateDistance s env id touristId lat lon e _ h ho hkps hscan]
    refine ⟨⟨fun _ x hx hq => ?_, fun _ => rfl⟩, fun hc => by simp at hc⟩
    exact (scanKeypoints_none calculateDistance lat lon e.CompletedKeypoints _).1 hscan x hx
      ((qualifies_iff calculateDistance lat lon e x).1 hq)
  | some r =>
    obtain ⟨kp, d⟩ := r
    obtain ⟨pre, post, hsplit, hnc, hd, hle, hpre⟩ :=
      scanKeypoints_some calculateDistance lat lon e.CompletedKeypoints _ kp d hscan
    have hq : Qualifies calculateDistance lat lon e kp :=
      (qualifies_iff calculateDistance lat lon e kp).2 ⟨hnc, hd ▸ hle⟩
    obtain ⟨e1, hg1, -, hcase⟩ :=
      checkProximity_writeback calculateDistance s env id touristId lat lon e h ho
    rw [checkProximity_near calculateDistance s env id touristId lat lon e _ kp d h ho hkps
      hscan] at hg1 hcase ⊢
    refine ⟨⟨fun hc => by simp at hc, fun hall => ?_⟩, fun _ => ?_⟩
    · exact absurd hq (hall kp (by rw [hsplit]; simp))
    · refine ⟨kp, pre, post, rfl, by rw [hd], hsplit, hq, ?_, ?_⟩
      · intro x hx hqx
        exact hpre x hx ((qualifies_iff calculateDistance lat lon e x).1 hqx)
      · intro hf
        rcases hcase hf with ⟨-, -, kp1, hk1, hck⟩ | ⟨hfalse, -⟩
        · simp only [Option.some.injEq] at hk1
          subst hk1
          exact ⟨e1, hg1, hck⟩
        · simp at hfalse

/-- Witness of C3 on the worked scenario: at position (0, 25) keypoint 11 (at
distance 25) is returned although the later keypoint 12 is nearer (distance 5);
at distance exactly 50 keypoint 11 is still returned, at distance 51 nothing is. -/
theorem checkProximity_first_qualifying_witness :
    (((CheckProximity gridDistance demoStore demoEnv (some 21) "ana" 0 25).1.NearKeyPoint = false ↔
      ∀ x ∈ demoStore.keypoints.filter (fun kp => kp.TourID == 1),
        ¬ Qualifies gridDistance 0 25 ⟨21, "ana", 1, "active", 7, 0, 7, 0, 0, []⟩ x) ∧
    ((CheckProximity gridDistance demoStore demoEnv (some 21) "ana" 0 25).1.NearKeyPoint = true →
      ∃ kp pre post,
        (CheckProximity gridDistance demoStore demoEnv (some 21) "ana" 0 25).1.NearbyKeyPoint
          = some kp ∧
        (CheckProximity gridDistance demoStore demoEnv (some 21) "ana" 0 25).1.Distance
          = some (gridDistance 0 25 kp.Latitude kp.Longitude) ∧
        demoStore.keypoints.filter (fun kp => kp.TourID == 1) = pre ++ kp :: post ∧
        Qualifies gridDistance 0 25 ⟨21, "ana", 1, "active", 7, 0, 7, 0, 0, []⟩ kp ∧
        (∀ x ∈ pre, ¬ Qualifies gridDistance 0 25 ⟨21, "ana", 1, "active", 7, 0, 7, 0, 0, []⟩ x) ∧
        (demoEnv.faults.UpdateExecution = false →
          ∃ e1, (CheckProximity gridDistance demoStore demoEnv (some 21) "ana" 0 25).2.GetExecution
              demoEnv.faults 21 = some e1 ∧
            e1.CompletedKeypoints = [] ++ [⟨kp.ID, demoEnv.now⟩]))) ∧
    (CheckProximity gridDistance demoStore demoEnv (some 21) "ana" 0 25).1 =
      ⟨true, "Near keypoint", true, some ⟨11, 1, 0, 0, "gate", "", "", 1⟩, some 25⟩ ∧
    gridDistance 0 25 0 30 = 5 ∧
    (CheckProximity gridDistance demoStore demoEnv (some 21) "ana" 0 (-50)).1 =
      ⟨true, "Near keypoint", true, some ⟨11, 1, 0, 0, "gate", "", "", 1⟩, some 50⟩ ∧
    (CheckProximity gridDistance demoStore demoEnv (some 21) "ana" 0 (-51)).1 =
      ⟨true, "No nearby keypoints", false, none, none⟩ :=
  ⟨checkProximity_first_qualifying gridDistance demoStore demoEnv 21 "ana" 0 25
      ⟨21, "ana", 1, "active", 7, 0, 7, 0, 0, []⟩ (by decide) (by decide) (by decide),
    by decide, by decide, by decide, by decide⟩

end FirstMatch

section Distinctness

variable {F : Type} [Zero F] [Add F] [LE F] [DecidableRel (LE.le : F → F → Prop)] [OfNat F 50]
  (calculateDistance : F → F → F → F → F)

/-- C2: `CheckProximity` never re-completes a keypoint.  Starting from a store
whose executions list no keypoint id twice (in particular from executions just
created by `StartTourExecution`), every store reached by any sequence of
requests keeps that property; the keypoint a call returns is not among the
completed ids of the stored execution, and what the call leaves stored is the
old list or the old list followed by that keypoint's id; and a second report,
at the same position, after a call that returned `K` and wrote it back, does
not return a keypoint with the id of `K`. -/
theorem checkProximity_never_recompletes (s0 : Store F) (trace : List (Env × Call F))
    (h0 : DistinctCompleted s0) :
    DistinctCompleted (run calculateDistance s0 trace) ∧
    (∀ (s : Store F) (env : Env) (executionId : Option ObjectID) (touristId : String)
      (lat lon : F) (kp : KeyPoint F),
      (CheckProximity calculateDistance s env executionId touristId lat lon).1.NearbyKeyPoint
        = some kp →
      ∃ id e, executionId = some id ∧ s.GetExecution env.faults id = some e ∧
        kp.ID ∉ completedIds e ∧
        ∃ e1, (CheckProximity calculateDistance s env executionId touristId lat lon).2.GetExecution
            env.faults id = some e1 ∧
          (e1.CompletedKeypoints = e.CompletedKeypoints ∨
            e1.CompletedKeypoints = e.CompletedKeypoints ++ [⟨kp.ID, env.now⟩])) ∧
    (∀ (s : Store F) (env1 env2 : Env) (id : ObjectID) (touristId : String) (lat lon : F)
      (K K2 : KeyPoint F),
      env1.faults.UpdateExecution = false →
      (CheckProximity calculateDistance s env1 (some id) touristId lat lon).1.NearbyKeyPoint
        = some K →
      (CheckProximity calculateDistance
        (CheckProximity calculateDistance s env1 (some id) touristId lat lon).2
        env2 (some id) touristId lat lon).1.NearbyKeyPoint = some K2 →
      K2.ID ≠ K.ID) := by
  have key : ∀ (s : Store F) (env : Env) (executionId : Option ObjectID) (touristId : String)
      (lat lon : F) (kp : KeyPoint F),
      (CheckProximity calculateDistance s env executionId touristId lat lon).1.NearbyKeyPoint
        = some kp →
      ∃ id e, executionId = some id ∧ s.GetExecution env.faults id = some e ∧
        e.TouristID = touristId ∧ kp.ID ∉ completedIds e ∧
        ∃ e1, (CheckProximity calculateDistance s env executionId touristId lat lon).2.GetExecution
            env.faults id = some e1 ∧
          (e1.CompletedKeypoints = e.CompletedKeypoints ∨
            e1.CompletedKeypoints = e.CompletedKeypoints ++ [⟨kp.ID, env.now⟩]) ∧
          (env.faults.UpdateExecution = false →
            e1.CompletedKeypoints = e.CompletedKeypoints ++ [⟨kp.ID, env.now⟩]) := by
    intro s env executionId touristId lat lon kp hkp
    obtain ⟨id, e, kps, d, rfl, hg, ho, hk, hscan⟩ :=
      checkProximity_nearby_inv calculateDistance s env executionId touristId lat lon kp hkp
    obtain ⟨pre, post, -, hnc, -, -, -⟩ :=
      scanKeypoints_some calculateDistance lat lon e.CompletedKeypoints kps kp d hscan
    have hnot : kp.ID ∉ completedIds e := by
      intro hin
      have := (alreadyCompleted_iff kp.ID e.CompletedKeypoints).2 hin
      simp [hnc] at this
    obtain ⟨e1, hg1, -, hcase⟩ :=
      checkProximity_writeback calculateDistance s env id touristId lat lon e hg ho
    refine ⟨id, e, rfl, hg, ho, hnot, e1, hg1, ?_, ?_⟩
    · by_cases hf : env.faults.UpdateExecution = true
      · left
        rw [checkProximity_near calculateDistance s env id touristId lat lon e kps kp d hg ho
          hk hscan] at hg1
        simp only [afterUpdate, Store.UpdateExecution, hf, if_true] at hg1
        rw [hg] at hg1
        simp only [Option.some.injEq] at hg1
        rw [hg1]
      · rcases hcase (by simpa using hf) with ⟨-, -, kp1, hk1, hck⟩ | ⟨hfalse, -⟩
        · rw [hkp] at hk1
          simp only [Option.some.injEq] at hk1
          subst hk1
          exact Or.inr hck
        · rw [checkProximity_near calculateDistance s env id touristId lat lon e kps kp d hg ho
            hk hscan] at hfalse
          simp at hfalse
    · intro hf
      rcases hcase hf with ⟨-, -, kp1, hk1, hck⟩ | ⟨hfalse, -⟩
      · rw [hkp] at hk1
        simp only [Option.some.injEq] at hk1
        subst hk1
        exact hck
      · rw [checkProximity_near calculateDistance s env id touristId lat lon e kps kp d hg ho
          hk hscan] at hfalse
        simp at hfalse
  refine ⟨run_distinct calculateDistance s0 trace h0, ?_, ?_⟩
  · intro s env executionId touristId lat lon kp hkp
    obtain ⟨id, e, h1, h2, -, h3, e1, h4, h5, -⟩ :=
      key s env executionId touristId lat lon kp hkp
    exact ⟨id, e, h1, h2, h3, e1, h4, h5⟩
  · intro s env1 env2 id touristId lat lon K K2 hf hK hK2 heq
    obtain ⟨id1, e, hid1, hg, -, -, e1, hg1, -, hck⟩ :=
      key s env1 (some id) touristId lat lon K hK
    obtain ⟨id2, e2, hid2, hg2, -, hnot2, -⟩ :=
      key _ env2 (some id) touristId lat lon K2 hK2
    simp only [Option.some.injEq] at hid1 hid2
    subst hid1
    subst hid2
    obtain ⟨-, hfind1, -⟩ := getExecution_some hg1
    obtain ⟨-, hfind2, -⟩ := getExecution_some hg2
    rw [hfind1] at hfind2
    simp only [Option.some.injEq] at hfind2
    subst hfind2
    apply hnot2
    simp [completedIds, hck hf, heq]

/-- Witness of C2: the walk of tourist `ana`, started from a store without
executions. -/
theorem checkProximity_never_recompletes_witness :
    DistinctCompleted boughtStore ∧ DistinctCompleted (run gridDistance boughtStore walkTrace) :=
  ⟨by simp [DistinctCompleted, boughtStore],
    (checkProximity_never_recompletes gridDistance boughtStore walkTrace
      (by simp [DistinctCompleted, boughtStore])).1⟩

end Distinctness

/-! ## Starting an execution -/

section Start

variable {F : Type}

theorem hasPurchased_of_token (s : Store F) (fl : Faults) (touristId : String)
    (tourID : ObjectID) (hf : fl.HasPurchased = false)
    (ht : ∃ tk ∈ s.tokens, tk.TouristID = touristId ∧ tk.TourID = tourID) :
    s.HasPurchased fl touristId tourID = some true := by
  obtain ⟨tk, hmem, h1, h2⟩ := ht
  simp only [Store.HasPurchased, hf, Bool.false_eq_true, if_false, Option.some.injEq,
    decide_eq_true_eq]
  apply List.length_pos_of_mem
  rw [List.mem_filter]
  exact ⟨hmem, by simp [h1, h2]⟩

theorem hasPurchased_no_token (s : Store F) (fl : Faults) (touristId : String)
    (tourID : ObjectID)
    (ht : ¬ ∃ tk ∈ s.tokens, tk.TouristID = touristId ∧ tk.TourID = tourID) :
    s.HasPurchased fl touristId tourID ≠ some true := by
  unfold Store.HasPurchased
  split
  · simp
  · simp only [ne_eq, Option.some.injEq, decide_eq_true_eq]
    intro hpos
    obtain ⟨tk, htk⟩ := List.exists_mem_of_length_pos hpos
    rw [List.mem_filter] at htk
    exact ht ⟨tk, htk.1, by simpa using htk.2⟩

/-- C4: with a purchase token for the pair and the repository calls of both
requests succeeding, two consecutive `StartTourExecution` calls for the same
tourist and tour both succeed and return the same execution (hence the same
id), and the second call leaves the store as the first one left it: it creates
no execution record. -/
theorem startTourExecution_idempotent (s : Store F) (env1 env2 : Env) (touristId : String)
    (tourID : ObjectID) (lat1 lon1 lat2 lon2 : F)
    (ht : ∃ tk ∈ s.tokens, tk.TouristID = touristId ∧ tk.TourID = tourID)
    (hp1 : env1.faults.HasPurchased = false) (ha1 : env1.faults.GetActiveExecution = false)
    (hc1 : env1.faults.CreateExecution = false)
    (hp2 : env2.faults.HasPurchased = false) (ha2 : env2.faults.GetActiveExecution = false) :
    (StartTourExecution s env1 touristId (some tourID) lat1 lon1).1.Success = true ∧
    (StartTourExecution (StartTourExecution s env1 touristId (some tourID) lat1 lon1).2 env2
      touristId (some tourID) lat2 lon2).1.Success = true ∧
    (∃ e, (StartTourExecution s env1 touristId (some tourID) lat1 lon1).1.Execution = some e ∧
      (StartTourExecution (StartTourExecution s env1 touristId (some tourID) lat1 lon1).2 env2
        touristId (some tourID) lat2 lon2).1.Execution = some e) ∧
    (StartTourExecution (StartTourExecution s env1 touristId (some tourID) lat1 lon1).2 env2
      touristId (some tourID) lat2 lon2).2 =
      (StartTourExecution s env1 touristId (some tourID) lat1 lon1).2 := by
  have hpur1 := hasPurchased_of_token s env1.faults touristId tourID hp1 ht
  cases hga : s.GetActiveExecution env1.faults touristId tourID with
  | some ex =>
    have hga2 : s.GetActiveExecution env2.faults touristId tourID = some ex := by
      simp only [Store.GetActiveExecution, ha1, ha2, Bool.false_eq_true, if_false] at hga ⊢
      exact hga
    have hpur2 := hasPurchased_of_token s env2.faults touristId tourID hp2 ht
    have e1 : StartTourExecution s env1 touristId (some tourID) lat1 lon1 =
        (⟨true, "Continuing existing tour execution", some ex⟩, s) := by
      simp [StartTourExecution, hpur1, hga]
    have e2 : StartTourExecution s env2 touristId (some tourID) lat2 lon2 =
        (⟨true, "Continuing existing tour execution", some ex⟩, s) := by
      simp [StartTourExecution, hpur2, hga2]
    rw [e1]
    simp only [e2]
    exact ⟨trivial, trivial, ⟨ex, rfl, rfl⟩, trivial⟩
  | none =>
    have hnone : s.executions.find? (fun e => e.TouristID == touristId && e.TourID == tourID
        && e.Status == "active") = none := by
      simpa [Store.GetActiveExecution, ha1] using hga
    have e1 : StartTourExecution s env1 touristId (some tourID) lat1 lon1 =
        (⟨true, "Tour execution started",
            some ⟨s.nextID, touristId, tourID, "active", env1.now, 0, env1.now, lat1, lon1, []⟩⟩,
          { s with
            executions := s.executions ++
              [⟨s.nextID, touristId, tourID, "active", env1.now, 0, env1.now, lat1, lon1, []⟩],
            nextID := s.nextID + 1 }) := by
      simp [StartTourExecution, hpur1, hga, Store.CreateExecution, hc1]
    rw [e1]
    have hpur2 : Store.HasPurchased { s with
        executions := s.executions ++
          [⟨s.nextID, touristId, tourID, "active", env1.now, 0, env1.now, lat1, lon1, []⟩],
        nextID := s.nextID + 1 } env2.faults touristId tourID = some true :=
      hasPurchased_of_token _ env2.faults touristId tourID hp2 ht
    have hga2 : Store.GetActiveExecution { s with
        executions := s.executions ++
          [⟨s.nextID, touristId, tourID, "active", env1.now, 0, env1.now, lat1, lon1, []⟩],
        nextID := s.nextID + 1 } env2.faults touristId tourID =
        some ⟨s.nextID, touristId, tourID, "active", env1.now, 0, env1.now, lat1, lon1, []⟩ := by
      simp only [Store.GetActiveExecution, ha2, Bool.false_eq_true, if_false]
      rw [List.find?_append, hnone]
      simp
    have e2 : StartTourExecution { s with
        executions := s.executions ++
          [⟨s.nextID, touristId, tourID, "active", env1.now, 0, env1.now, lat1, lon1, []⟩],
        nextID := s.nextID + 1 } env2 touristId (some tourID) lat2 lon2 =
        (⟨true, "Continuing existing tour execution",
            some ⟨s.nextID, touristId, tourID, "active", env1.now, 0, env1.now, lat1, lon1, []⟩⟩,
          { s with
            executions := s.executions ++
              [⟨s.nextID, touristId, tourID, "active", env1.now, 0, env1.now, lat1, lon1, []⟩],
            nextID := s.nextID + 1 }) := by
      simp [StartTourExecution, hpur2, hga2]
    simp only [e2]
    exact ⟨trivial, trivial, ⟨_, rfl, rfl⟩, trivial⟩

/-- Witness of C4: tourist `ana` starts the bought tour twice; both calls
return execution 100 and only one record exists afterwards. -/
theorem startTourExecution_idempotent_witness :
    (∃ tk ∈ boughtStore.tokens, tk.TouristID = "ana" ∧ tk.TourID = 1) ∧
    ((StartTourExecution boughtStore demoEnv "ana" (some 1) 0 0).1.Success = true ∧
    (StartTourExecution (StartTourExecution boughtStore demoEnv "ana" (some 1) 0 0).2 demoEnv
      "ana" (some 1) 3 4).1.Success = true ∧
    (∃ e, (StartTourExecution boughtStore demoEnv "ana" (some 1) 0 0).1.Execution = some e ∧
      (StartTourExecution (StartTourExecution boughtStore demoEnv "ana" (some 1) 0 0).2 demoEnv
        "ana" (some 1) 3 4).1.Execution = some e) ∧
    (StartTourExecution (StartTourExecution boughtStore demoEnv "ana" (some 1) 0 0).2 demoEnv
      "ana" (some 1) 3 4).2 =
      (StartTourExecution boughtStore demoEnv "ana" (some 1) 0 0).2) ∧
    ((StartTourExecution boughtStore demoEnv "ana" (some 1) 0 0).2.executions.map
      (fun e => e.ID)) = [100] :=
  ⟨by decide,
    startTourExecution_idempotent boughtStore demoEnv demoEnv "ana" 1 0 0 3 4 (by decide)
      rfl rfl rfl rfl rfl,
    by decide⟩

end Start

section Gating

variable {F : Type} [Zero F] [Add F] [LE F] [DecidableRel (LE.le : F → F → Prop)] [OfNat F 50]
  (calculateDistance : F → F → F → F → F)

/-- C5: `StartTourExecution` is gated by purchase.  When the token ledger holds
no token for the (tourist, tour) pair the call answers `success = false` with
the not-purchased message and leaves the store, hence the execution
collection, unchanged, whatever repository call fails; and over any sequence
of requests, started from a store in which every execution is for a purchased
pair (for instance one with no execution), every stored execution is for a
pair that holds a token. -/
theorem startTourExecution_requires_purchase (s : Store F) (env : Env) (touristId : String)
    (tourID : ObjectID) (lat lon : F)
    (hno : ¬ ∃ tk ∈ s.tokens, tk.TouristID = touristId ∧ tk.TourID = tourID)
    (s0 : Store F) (trace : List (Env × Call F)) (h0 : AllPurchased s0) :
    (StartTourExecution s env touristId (some tourID) lat lon).1.Success = false ∧
    (StartTourExecution s env touristId (some tourID) lat lon).1.Message =
      "Tour not purchased. Please buy the tour first." ∧
    (StartTourExecution s env touristId (some tourID) lat lon).1.Execution = none ∧
    (StartTourExecution s env touristId (some tourID) lat lon).2 = s ∧
    AllPurchased (run calculateDistance s0 trace) := by
  have hp := hasPurchased_no_token s env.faults touristId tourID hno
  have hne : (s.HasPurchased env.faults touristId tourID != some true) = true := by
    simpa using hp
  have e1 : StartTourExecution s env touristId (some tourID) lat lon =
      (⟨false, "Tour not purchased. Please buy the tour first.", none⟩, s) := by
    simp only [StartTourExecution, hne, if_true]
  rw [e1]
  exact ⟨rfl, rfl, rfl, rfl, run_allPurchased calculateDistance s0 trace h0⟩

/-- Witness of C5: tourist `bob` holds no token for tour 1 and is refused;
the walk of `ana`, who holds one, is the trace. -/
theorem startTourExecution_requires_purchase_witness :
    (¬ ∃ tk ∈ boughtStore.tokens, tk.TouristID = "bob" ∧ tk.TourID = 1) ∧
    AllPurchased boughtStore ∧
    ((StartTourExecution boughtStore demoEnv "bob" (some 1) 0 0).1.Success = false ∧
    (StartTourExecution boughtStore demoEnv "bob" (some 1) 0 0).1.Message =
      "Tour not purchased. Please buy the tour first." ∧
    (StartTourExecution boughtStore demoEnv "bob" (some 1) 0 0).1.Execution = none ∧
    (StartTourExecution boughtStore demoEnv "bob" (some 1) 0 0).2 = boughtStore ∧
    AllPurchased (run gridDistance boughtStore walkTrace)) :=
  ⟨by decide, by simp [AllPurchased, boughtStore],
    startTourExecution_requires_purchase gridDistance boughtStore demoEnv "bob" 1 0 0
      (by decide) boughtStore walkTrace (by simp [AllPurchased, boughtStore])⟩

/-- C6: at most one active execution per (tourist, tour).  From a store with at
most one active execution per pair (in particular from an empty execution
collection), every store reached by a sequence of requests whose
`GetActiveExecution` calls do not fail has at most one record with status
`active` for each (tourist id, tour id) pair. -/
theorem at_most_one_active_execution (s0 : Store F) (trace : List (Env × Call F))
    (h0 : AtMostOneActive s0)
    (hok : ∀ c ∈ trace, c.1.faults.GetActiveExecution = false) :
    ∀ (touristId : String) (tourID : ObjectID),
      ((run calculateDistance s0 trace).executions.filter
        (fun e => e.TouristID == touristId && e.TourID == tourID &&
          e.Status == "active")).length ≤ 1 :=
  run_oneActive calculateDistance s0 trace hok h0

/-- Witness of C6: the walk of `ana` from the empty execution collection; she
starts three times and ends with one completed and one active execution. -/
theorem at_most_one_active_execution_witness :
    boughtStore.executions = [] ∧ AtMostOneActive boughtStore ∧
    (∀ c ∈ walkTrace, c.1.faults.GetActiveExecution = false) ∧
    (∀ (touristId : String) (tourID : ObjectID),
      ((run gridDistance boughtStore walkTrace).executions.filter
        (fun e => e.TouristID == touristId && e.TourID == tourID &&
          e.Status == "active")).length ≤ 1) ∧
    (run gridDistance boughtStore walkTrace).executions.map (fun e => (e.ID, e.Status)) =
      [(100, "completed"), (101, "active")] :=
  ⟨rfl, by simp [AtMostOneActive, activeFor, boughtStore], by decide,
    at_most_one_active_execution gridDistance boughtStore walkTrace
      (by simp [AtMostOneActive, activeFor, boughtStore]) (by decide),
    by decide⟩

/-- Why C6 asks for `GetActiveExecution` not to fail: when the lookup of the
second start returns an error the handler falls through to `CreateExecution`
and a second active execution for the same pair is stored. -/
theorem failed_lookup_duplicates_active :
    (run gridDistance boughtStore
      [(demoEnv, .startTourExecution "ana" (some 1) 0 0),
       (lookupFaultEnv, .startTourExecution "ana" (some 1) 0 0)]).executions.map
      (fun e => (e.ID, e.TouristID, e.TourID, e.Status))
      = [(100, "ana", 1, "active"), (101, "ana", 1, "active")] := by
  decide

/-- C7, counterexample: after the walk of `ana` execution 100 is `completed`
with `completedAt = 9`; `AbandonTour` by its owner at time 12 then answers
`success = true` and the stored record is `abandoned` with `completedAt = 12`;
a following `CompleteTour` at time 12 succeeds too and makes it `completed`. -/
theorem terminal_status_not_final_counterexample :
    ((run gridDistance boughtStore walkTrace).GetExecution Faults.ok 100).map
      (fun e => (e.TouristID, e.Status, e.CompletedAt)) = some ("ana", "completed", 9) ∧
    (AbandonTour (run gridDistance boughtStore walkTrace) laterEnv (some 100) "ana").1.Success
      = true ∧
    ((AbandonTour (run gridDistance boughtStore walkTrace) laterEnv (some 100)
      "ana").2.GetExecution Faults.ok 100).map (fun e => (e.Status, e.CompletedAt))
      = some ("abandoned", 12) ∧
    (CompleteTour (AbandonTour (run gridDistance boughtStore walkTrace) laterEnv (some 100)
      "ana").2 laterEnv (some 100) "ana").1.Success = true ∧
    ((CompleteTour (AbandonTour (run gridDistance boughtStore walkTrace) laterEnv (some 100)
      "ana").2 laterEnv (some 100) "ana").2.GetExecution Faults.ok 100).map
      (fun e => (e.Status, e.CompletedAt)) = some ("completed", 12) := by
  decide

/-- C7, amended: under every request an execution found under an id stays
found under it with the same owner, and its status either stays as it is or
becomes `completed` or `abandoned`; in particular it never becomes `active`
again.  The two terminal states are not final: `CompleteTour` and `AbandonTour`
called by the owner on an existing execution of any status, with the read and
the write succeeding at a non-zero time, answer `success = true` and leave the
record with status `completed`, respectively `abandoned`, and `completedAt`
set to the time of the call. -/
theorem status_transitions (s : Store F) (env : Env) (c : Call F) (id : ObjectID)
    (e : TourExecution F) (h : s.GetExecution Faults.ok id = some e) :
    (∃ e1, (step calculateDistance s env c).GetExecution Faults.ok id = some e1 ∧
      e1.TouristID = e.TouristID ∧
      (e1.Status = e.Status ∨ e1.Status = "completed" ∨ e1.Status = "abandoned") ∧
      (e1.Status = "active" → e.Status = "active")) ∧
    (∀ env1 : Env, env1.faults.GetExecution = false → env1.faults.UpdateExecution = false →
      env1.now ≠ 0 →
      ((CompleteTour s env1 (some id) e.TouristID).1.Success = true ∧
        ∃ e2, (CompleteTour s env1 (some id) e.TouristID).2.GetExecution Faults.ok id = some e2 ∧
          e2.Status = "completed" ∧ e2.CompletedAt = env1.now) ∧
      ((AbandonTour s env1 (some id) e.TouristID).1.Success = true ∧
        ∃ e2, (AbandonTour s env1 (some id) e.TouristID).2.GetExecution Faults.ok id = some e2 ∧
          e2.Status = "abandoned" ∧ e2.CompletedAt = env1.now)) := by
  obtain ⟨-, hfind, -⟩ := getExecution_some h
  constructor
  · obtain ⟨e1, hf1, ht, -, hst⟩ :=
      execStep_lookup (step_execStep calculateDistance s env c) id e hfind
    refine ⟨e1, by simpa [Store.GetExecution, Faults.ok] using hf1, ht, hst, ?_⟩
    intro hact
    rcases hst with h1 | h1 | h1
    · rw [← h1]; exact hact
    · rw [hact] at h1; exact absurd h1 (by decide)
    · rw [hact] at h1; exact absurd h1 (by decide)
  · intro env1 hg hu hnow
    have hread : ∀ fl : Faults, fl.GetExecution = false → ∀ s1 : Store F,
        s1.GetExecution fl id = s1.GetExecution Faults.ok id := by
      intro fl hfl s1
      simp [Store.GetExecution, hfl, Faults.ok]
    have h1 : s.GetExecution env1.faults id = some e := by rw [hread _ hg]; exact h
    constructor
    · obtain ⟨s1, hu1, heq⟩ := completeTour_owner_ok s env1 id e.TouristID e h1 rfl hu
      have hback := getExecution_updateExecution h1 (by simpa using (getExecution_some h1).2.2) hu1
      rw [heq]
      refine ⟨rfl, _, by rw [← hread _ hg]; exact hback, by simp [setExecution], ?_⟩
      simp [setExecution, hnow]
    · obtain ⟨s1, hu1, heq⟩ := abandonTour_owner_ok s env1 id e.TouristID e h1 rfl hu
      have hback := getExecution_updateExecution h1 (by simpa using (getExecution_some h1).2.2) hu1
      rw [heq]
      refine ⟨rfl, _, by rw [← hread _ hg]; exact hback, by simp [setExecution], ?_⟩
      simp [setExecution, hnow]

/-- Witness of C7 amended: the completed execution 100 of `ana` under a
`CheckProximity` request. -/
theorem status_transitions_witness :
    (run gridDistance boughtStore walkTrace).GetExecution Faults.ok 100 =
      some ⟨100, "ana", 1, "completed", 9, 9, 9, 0, 0, [⟨11, 9⟩, ⟨12, 9⟩]⟩ ∧
    (∃ e1, (step gridDistance (run gridDistance boughtStore walkTrace) laterEnv
        (.checkProximity (some 100) "ana" 0 25)).GetExecution Faults.ok 100 = some e1 ∧
      e1.TouristID = "ana" ∧
      (e1.Status = "completed" ∨ e1.Status = "completed" ∨ e1.Status = "abandoned") ∧
      (e1.Status = "active" → "completed" = "active")) :=
  ⟨by decide,
    (status_transitions gridDistance (run gridDistance boughtStore walkTrace) laterEnv
      (.checkProximity (some 100) "ana" 0 25) 100
      ⟨100, "ana", 1, "completed", 9, 9, 9, 0, 0, [⟨11, 9⟩, ⟨12, 9⟩]⟩ (by decide)).1⟩

end Gating

/-! ## Existence and ownership checks -/

/-- The two handlers with the merged guard answer `Unauthorized` for a missing
tour, whatever caller id is supplied. -/
theorem keypoint_edit_missing_tour {F : Type} (s : Store F) (env : Env) (keypointID tourID : ObjectID)
    (caller : String) (lat lon : F) (name description image : String)
    (ht : s.GetTourByID env.faults tourID = none) :
    UpdateKeyPoint s env (some keypointID) (some tourID) caller lat lon name description image
      = (⟨false, "Unauthorized", none⟩, s) ∧
    DeleteKeyPoint s env (some keypointID) (some tourID) caller
      = (⟨false, "Unauthorized"⟩, s) := by
  simp [UpdateKeyPoint, DeleteKeyPoint, ownershipFails, ht]

section Guards

variable {F : Type} [LE F] [DecidableRel (LE.le : F → F → Prop)] [OfNat F 50]
  (calculateDistance : F → F → F → F → F)

/-- The six handlers with separate checks answer not-found for a missing tour
or execution, whatever caller id is supplied. -/
theorem not_found_before_unauthorized (s : Store F) (env : Env) (id : ObjectID)
    (caller : String) (price lat lon : F) (name description image : String) (order : Int)
    (ht : s.GetTourByID env.faults id = none) (he : s.GetExecution env.faults id = none) :
    (PublishTour s env (some id) caller price).1.Message = "Tour not found" ∧
    (AddKeyPoint s env (some id) caller lat lon name description image order).1.Message
      = "Tour not found" ∧
    (CheckProximity calculateDistance s env (some id) caller lat lon).1.Message
      = "Execution not found" ∧
    (CompleteTour s env (some id) caller).1.Message = "Execution not found" ∧
    (AbandonTour s env (some id) caller).1.Message = "Execution not found" ∧
    (GetExecution s env (some id) caller).1.Message = "Execution not found" := by
  simp [PublishTour, AddKeyPoint, CheckProximity, CompleteTour, AbandonTour, GetExecution, ht, he]

/-- C8, the code at the failing input: the worked store holds no tour 99, yet
`UpdateKeyPoint` and `DeleteKeyPoint` for tour 99 answer `Unauthorized`, while
`AddKeyPoint` and `PublishTour` for the same tour answer `Tour not found`. -/
theorem missing_tour_reported_unauthorized :
    demoStore.GetTourByID demoEnv.faults 99 = none ∧
    (UpdateKeyPoint demoStore demoEnv (some 11) (some 99) "guide" 0 0 "gate" "" "").1
      = ⟨false, "Unauthorized", none⟩ ∧
    (DeleteKeyPoint demoStore demoEnv (some 11) (some 99) "guide").1
      = ⟨false, "Unauthorized"⟩ ∧
    (AddKeyPoint demoStore demoEnv (some 99) "guide" 0 0 "gate" "" "" 1).1
      = ⟨false, "Tour not found", none⟩ ∧
    (PublishTour demoStore demoEnv (some 99) "guide" 10).1 = ⟨false, "Tour not found", none⟩ := by
  decide

/-- C9: only the owning tourist can act on an execution.  For an existing
execution and a request whose tourist id differs from the execution's,
`CheckProximity`, `CompleteTour`, `AbandonTour` and `GetExecution` answer
`success = false` with the message `Unauthorized`, carry no execution and no
keypoint, and leave the whole store, hence the stored execution, unchanged. -/
theorem only_owner_acts (s : Store F) (env : Env) (id : ObjectID) (touristId : String)
    (lat lon : F) (e : TourExecution F)
    (h : s.GetExecution env.faults id = some e) (hne : e.TouristID ≠ touristId) :
    CheckProximity calculateDistance s env (some id) touristId lat lon
      = (⟨false, "Unauthorized", false, none, none⟩, s) ∧
    CompleteTour s env (some id) touristId = (⟨false, "Unauthorized", none⟩, s) ∧
    AbandonTour s env (some id) touristId = (⟨false, "Unauthorized", none⟩, s) ∧
    GetExecution s env (some id) touristId = (⟨false, "Unauthorized", none⟩, s) := by
  have hb : (e.TouristID != touristId) = true := by simpa using hne
  simp [CheckProximity, CompleteTour, AbandonTour, GetExecution, h, hb]

/-- Witness of C9: tourist `bob` acts on execution 21 of `ana`, standing at
keypoint 11. -/
theorem only_owner_acts_witness :
    demoStore.GetExecution demoEnv.faults 21 = some ⟨21, "ana", 1, "active", 7, 0, 7, 0, 0, []⟩ ∧
    (CheckProximity gridDistance demoStore demoEnv (some 21) "bob" 0 0
      = (⟨false, "Unauthorized", false, none, none⟩, demoStore) ∧
    CompleteTour demoStore demoEnv (some 21) "bob" = (⟨false, "Unauthorized", none⟩, demoStore) ∧
    AbandonTour demoStore demoEnv (some 21) "bob" = (⟨false, "Unauthorized", none⟩, demoStore) ∧
    GetExecution demoStore demoEnv (some 21) "bob"
      = (⟨false, "Unauthorized", none⟩, demoStore)) :=
  ⟨by decide,
    only_owner_acts gridDistance demoStore demoEnv 21 "bob" 0 0
      ⟨21, "ana", 1, "active", 7, 0, 7, 0, 0, []⟩ (by decide) (by decide)⟩

end Guards

/-! ## The cart total -/

/-- The loop of `RemoveFromCart` appends to the running items the lines with
another tour id, in their order. -/
theorem removeLoop_items {F : Type} [Add F] (tourID : ObjectID) (items newItems : List (CartItem F)) (newTotal : F) :
    (removeLoop tourID items newItems newTotal).1 =
      newItems ++ items.filter (fun item => item.TourID != tourID) := by
  induction items generalizing newItems newTotal with
  | nil => simp [removeLoop]
  | cons item rest ih =>
    unfold removeLoop
    by_cases hi : (item.TourID != tourID) = true
    · simp [hi, ih]
    · simp [hi, ih]

section CartTotal

variable {F : Type} [Zero F] [Add F]

theorem updateFirst_mem {α : Type} (p : α → Bool) (f : α → α) (l : List α) (x : α)
    (hx : x ∈ updateFirst p f l) : x ∈ l ∨ ∃ y ∈ l, x = f y := by
  induction l with
  | nil => simp [updateFirst] at hx
  | cons a t ih =>
    unfold updateFirst at hx
    split at hx
    · rcases List.mem_cons.1 hx with rfl | hx
      · exact Or.inr ⟨a, by simp, rfl⟩
      · exact Or.inl (List.mem_cons_of_mem _ hx)
    · rcases List.mem_cons.1 hx with rfl | hx
      · exact Or.inl (by simp)
      · rcases ih hx with h | ⟨y, hy, rfl⟩
        · exact Or.inl (List.mem_cons_of_mem _ h)
        · exact Or.inr ⟨y, List.mem_cons_of_mem _ hy, rfl⟩

theorem sumPrices_append (items : List (CartItem F)) (item : CartItem F) :
    sumPrices (items ++ [item]) = sumPrices items + item.Price := by
  simp [sumPrices, List.foldl_append]

/-- The loop of `RemoveFromCart` keeps the running total equal to the sum of
the running items. -/
theorem removeLoop_total (tourID : ObjectID) (items newItems : List (CartItem F)) (newTotal : F)
    (h : newTotal = sumPrices newItems) :
    (removeLoop tourID items newItems newTotal).2 =
      sumPrices (removeLoop tourID items newItems newTotal).1 := by
  induction items generalizing newItems newTotal with
  | nil => exact h
  | cons item rest ih =>
    unfold removeLoop
    split
    · exact ih _ _ (by rw [sumPrices_append, h])
    · exact ih _ _ h

theorem getOrCreateCart_totals {s s1 : Store F} {fl : Faults} {t : String}
    {cart : ShoppingCart F} (h : s.GetOrCreateCart fl t = some (cart, s1))
    (hd : CartTotals s) : CartTotals s1 ∧ cart.TotalPrice = sumPrices cart.Items := by
  unfold Store.GetOrCreateCart at h
  split at h
  · simp at h
  · split at h
    · rename_i c hc
      simp only [Option.some.injEq, Prod.mk.injEq] at h
      obtain ⟨rfl, rfl⟩ := h
      exact ⟨hd, hd _ (List.mem_of_find?_eq_some hc)⟩
    · simp only [Option.some.injEq, Prod.mk.injEq] at h
      obtain ⟨rfl, rfl⟩ := h
      refine ⟨?_, by simp [sumPrices]⟩
      intro c hc
      simp only [List.mem_append, List.mem_singleton] at hc
      rcases hc with hc | rfl
      · exact hd c hc
      · simp [sumPrices]

theorem updateCart_totals {s s1 : Store F} {fl : Faults} {cart : ShoppingCart F}
    (h : s.UpdateCart fl cart = some s1) (hd : CartTotals s)
    (hc : cart.TotalPrice = sumPrices cart.Items) : CartTotals s1 := by
  intro c hmem
  rw [(updateCart_frame h).2.2.2] at hmem
  rcases updateFirst_mem _ _ _ _ hmem with h1 | ⟨y, -, rfl⟩
  · exact hd c h1
  · exact hc

theorem addToCart_totals (s : Store F) (env : Env) (touristId : String)
    (tourId : Option ObjectID) (hd : CartTotals s) :
    CartTotals (AddToCart s env touristId tourId).2 ∧
    ∀ cart, (AddToCart s env touristId tourId).1.Cart = some cart →
      cart.TotalPrice = sumPrices cart.Items := by
  cases tourId with
  | none => exact ⟨hd, fun _ h => by simp [AddToCart] at h⟩
  | some tourID =>
    cases ht : s.GetTourByID env.faults tourID with
    | none => simp only [AddToCart, ht]; exact ⟨hd, fun _ h => by simp at h⟩
    | some tour =>
      cases hc : s.GetOrCreateCart env.faults touristId with
      | none =>
        simp only [AddToCart, ht, hc]
        split <;> exact ⟨hd, fun _ h => by simp at h⟩
      | some r =>
        obtain ⟨cart, s1⟩ := r
        obtain ⟨hd1, hcart⟩ := getOrCreateCart_totals hc hd
        have hnew : cart.TotalPrice + tour.Price =
            sumPrices (cart.Items ++ [⟨tourID, tour.Name, tour.Price⟩]) := by
          rw [sumPrices_append, hcart]
        simp only [AddToCart, ht, hc]
        split
        · exact ⟨hd, fun _ h => by simp at h⟩
        · split
          · exact ⟨hd1, fun _ h => by simp at h⟩
          · split
            · exact ⟨hd1, fun _ h => by simp at h⟩
            · rename_i hu
              refine ⟨updateCart_totals hu hd1 hnew, ?_⟩
              intro c hceq
              simp only [Option.some.injEq] at hceq
              subst hceq
              exact hnew

theorem removeFromCart_totals (s : Store F) (env : Env) (touristId : String)
    (tourId : Option ObjectID) (hd : CartTotals s) :
    CartTotals (RemoveFromCart s env touristId tourId).2 := by
  cases tourId with
  | none => exact hd
  | some tourID =>
    cases hc : s.GetOrCreateCart env.faults touristId with
    | none => simp only [RemoveFromCart, hc]; exact hd
    | some r =>
      obtain ⟨cart, s1⟩ := r
      obtain ⟨hd1, -⟩ := getOrCreateCart_totals hc hd
      simp only [RemoveFromCart, hc]
      split
      · exact hd1
      · rename_i hu
        exact updateCart_totals hu hd1 (removeLoop_total tourID cart.Items [] 0 rfl)

theorem getCart_totals (s : Store F) (env : Env) (touristId : String) (hd : CartTotals s) :
    CartTotals (GetCart s env touristId).2 := by
  cases hc : s.GetOrCreateCart env.faults touristId with
  | none => simp only [GetCart, hc]; exact hd
  | some r =>
    obtain ⟨cart, s1⟩ := r
    simp only [GetCart, hc]
    exact (getOrCreateCart_totals hc hd).1

theorem checkout_totals (s : Store F) (env : Env) (touristId : String) (hd : CartTotals s) :
    CartTotals (Checkout s env touristId).2 := by
  cases hc : s.GetOrCreateCart env.faults touristId with
  | none => simp only [Checkout, hc]; exact hd
  | some r =>
    obtain ⟨cart, s1⟩ := r
    obtain ⟨hd1, -⟩ := getOrCreateCart_totals hc hd
    simp only [Checkout, hc]
    split
    · exact hd1
    · have hl := checkoutLoop_carts env touristId cart.Items 0 s1 []
      have hd2 : CartTotals (checkoutLoop env touristId cart.Items 0 s1 []).2 := by
        intro c hmem
        rw [hl] at hmem
        exact hd1 c hmem
      cases hcl : (checkoutLoop env touristId cart.Items 0 s1 []).2.ClearCart env.faults
          touristId with
      | none => exact hd2
      | some s2 =>
        simp only []
        intro c hmem
        rw [(clearCart_frame hcl).2.2.2] at hmem
        rcases updateFirst_mem _ _ _ _ hmem with h1 | ⟨y, -, rfl⟩
        · exact hd2 c h1
        · simp [sumPrices]

end CartTotal

section CartInvariant

variable {F : Type} [Zero F] [Add F] [LE F] [DecidableRel (LE.le : F → F → Prop)] [OfNat F 50]
  (calculateDistance : F → F → F → F → F)

theorem step_cartTotals (s : Store F) (env : Env) (c : Call F) (hd : CartTotals s) :
    CartTotals (step calculateDistance s env c) := by
  have of_eq : ∀ s1 : Store F, s1.carts = s.carts → CartTotals s1 := by
    intro s1 h x hx
    rw [h] at hx
    exact hd x hx
  cases c with
  | publishTour a b c => exact of_eq _ (publishTour_frame s env a b c).2.1
  | addKeyPoint a b c d e f g h => exact of_eq _ (addKeyPoint_frame s env a b c d e f g h).2.1
  | updateKeyPoint a b c d e f g h =>
    exact of_eq _ (updateKeyPoint_frame s env a b c d e f g h).2.1
  | deleteKeyPoint a b c => exact of_eq _ (deleteKeyPoint_frame s env a b c).2.1
  | addToCart a b => exact (addToCart_totals s env a b hd).1
  | removeFromCart a b => exact removeFromCart_totals s env a b hd
  | getCart a => exact getCart_totals s env a hd
  | checkout a => exact checkout_totals s env a hd
  | startTourExecution a b c d => exact of_eq _ (startTourExecution_frame s env a b c d).1
  | checkProximity a b c d => exact of_eq _ (checkProximity_frame calculateDistance s env a b c d).1
  | completeTour a b => exact of_eq _ (completeTour_frame s env a b).1
  | abandonTour a b => exact of_eq _ (abandonTour_frame s env a b).1
  | getExecution a b => exact of_eq _ (by simp [step, getExecution_store])

theorem run_cartTotals (s : Store F) (trace : List (Env × Call F)) (hd : CartTotals s) :
    CartTotals (run calculateDistance s trace) := by
  induction trace generalizing s with
  | nil => exact hd
  | cons c rest ih => exact ih _ (step_cartTotals calculateDistance s c.1 c.2 hd)

/-- C10: the cart total invariant.  From a store whose carts have a total equal
to the sum of their line prices (in particular one with no cart yet, where
carts are created empty with total `0`), after any sequence of requests and
whatever repository call fails, every stored cart's `TotalPrice` equals the sum
of the prices of its lines, taken in list order starting from `0`; and the cart
a successful `AddToCart` returns, whose total is the previous total plus the new
price, satisfies the same equality. -/
theorem cart_total_invariant (s0 : Store F) (trace : List (Env × Call F))
    (h0 : ∀ c ∈ s0.carts, c.TotalPrice = sumPrices c.Items) :
    (∀ c ∈ (run calculateDistance s0 trace).carts,
      c.TotalPrice = c.Items.foldl (fun acc item => acc + item.Price) 0) ∧
    (∀ (env : Env) (touristId : String) (tourId : Option ObjectID) (cart : ShoppingCart F),
      (AddToCart (run calculateDistance s0 trace) env touristId tourId).1.Cart = some cart →
      cart.TotalPrice = cart.Items.foldl (fun acc item => acc + item.Price) 0) := by
  have hrun := run_cartTotals calculateDistance s0 trace h0
  exact ⟨hrun, fun env touristId tourId cart hc =>
    (addToCart_totals (run calculateDistance s0 trace) env touristId tourId hrun).2 cart hc⟩

/-- Witness of C10: tourist `ana` adds tours 1 and 2, removes tour 1, adds it
again and checks out, starting without a cart; before the checkout her cart
holds the lines 2 and 1 with total 15. -/
theorem cart_total_invariant_witness :
    boughtStore.carts = [] ∧
    ((∀ c ∈ (run gridDistance boughtStore cartTrace).carts,
      c.TotalPrice = c.Items.foldl (fun acc item => acc + item.Price) 0) ∧
    (∀ (env : Env) (touristId : String) (tourId : Option ObjectID) (cart : ShoppingCart Int),
      (AddToCart (run gridDistance boughtStore cartTrace) env touristId tourId).1.Cart
        = some cart →
      cart.TotalPrice = cart.Items.foldl (fun acc item => acc + item.Price) 0)) ∧
    (run gridDistance boughtStore (cartTrace.take 4)).carts.map
      (fun c => (c.Items.map (fun i => (i.TourID, i.Price)), c.TotalPrice))
      = [([(2, 5), (1, 10)], 15)] :=
  ⟨rfl,
    cart_total_invariant gridDistance boughtStore cartTrace (by simp [boughtStore, demoStore]),
    by decide⟩

end CartInvariant

/-! ## Cart lines -/

theorem inCart_iff {F : Type} (tourID : ObjectID) (items : List (CartItem F)) :
    inCart tourID items = true ↔ tourID ∈ lineIds items := by
  induction items with
  | nil => simp [inCart, lineIds]
  | cons item rest ih =>
    unfold inCart
    by_cases hi : item.TourID = tourID
    · simp [hi, lineIds]
    · have hi1 : ¬ tourID = item.TourID := fun h => hi h.symm
      simp only [lineIds] at ih
      simp [hi, hi1, lineIds, ih]

section CartPredicate

variable {F : Type} [Zero F] [Add F]

/-- A property of carts that holds of a new empty cart and is kept by the three
cart updates of the handlers is kept, for every stored cart, by `AddToCart`,
`RemoveFromCart`, `GetCart` and `Checkout`. -/
theorem cart_handlers_preserve (P : ShoppingCart F → Prop)
    (hempty : ∀ (id : ObjectID) (t : String), P ⟨id, t, [], 0⟩)
    (hadd : ∀ (cart : ShoppingCart F) (tourID : ObjectID) (name : String) (price : F),
      P cart → inCart tourID cart.Items = false →
      P { cart with Items := cart.Items ++ [⟨tourID, name, price⟩],
                    TotalPrice := cart.TotalPrice + price })
    (hrem : ∀ (cart : ShoppingCart F) (tourID : ObjectID), P cart →
      P { cart with Items := (removeLoop tourID cart.Items [] 0).1,
                    TotalPrice := (removeLoop tourID cart.Items [] 0).2 })
    (hclear : ∀ c : ShoppingCart F, P c → P { c with Items := [], TotalPrice := 0 })
    (s : Store F) (env : Env) (touristId : String) (tourId : Option ObjectID)
    (hd : ∀ c ∈ s.carts, P c) :
    (∀ c ∈ (AddToCart s env touristId tourId).2.carts, P c) ∧
    (∀ c ∈ (RemoveFromCart s env touristId tourId).2.carts, P c) ∧
    (∀ c ∈ (GetCart s env touristId).2.carts, P c) ∧
    (∀ c ∈ (Checkout s env touristId).2.carts, P c) := by
  have hget : ∀ (cart : ShoppingCart F) (s1 : Store F),
      s.GetOrCreateCart env.faults touristId = some (cart, s1) →
      (∀ c ∈ s1.carts, P c) ∧ P cart := by
    intro cart s1 h
    unfold Store.GetOrCreateCart at h
    split at h
    · simp at h
    · split at h
      · rename_i c hc
        simp only [Option.some.injEq, Prod.mk.injEq] at h
        obtain ⟨rfl, rfl⟩ := h
        exact ⟨hd, hd _ (List.mem_of_find?_eq_some hc)⟩
      · simp only [Option.some.injEq, Prod.mk.injEq] at h
        obtain ⟨rfl, rfl⟩ := h
        refine ⟨?_, hempty _ _⟩
        intro c hc
        simp only [List.mem_append, List.mem_singleton] at hc
        rcases hc with hc | rfl
        · exact hd c hc
        · exact hempty _ _
  have hupd : ∀ (s1 s2 : Store F) (cart : ShoppingCart F),
      s1.UpdateCart env.faults cart = some s2 → (∀ c ∈ s1.carts, P c) → P cart →
      ∀ c ∈ s2.carts, P c := by
    intro s1 s2 cart h h1 hc c hmem
    rw [(updateCart_frame h).2.2.2] at hmem
    rcases updateFirst_mem _ _ _ _ hmem with h2 | ⟨y, -, rfl⟩
    · exact h1 c h2
    · exact hc
  refine ⟨?_, ?_, ?_, ?_⟩
  · cases tourId with
    | none => exact hd
    | some tourID =>
      cases ht : s.GetTourByID env.faults tourID with
      | none => simp only [AddToCart, ht]; exact hd
      | some tour =>
        cases hc : s.GetOrCreateCart env.faults touristId with
        | none => simp only [AddToCart, ht, hc]; split <;> exact hd
        | some r =>
          obtain ⟨cart, s1⟩ := r
          obtain ⟨hd1, hcart⟩ := hget cart s1 hc
          simp only [AddToCart, ht, hc]
          split
          · exact hd
          · split
            · exact hd1
            · rename_i hin
              split
              · exact hd1
              · rename_i hu
                exact hupd _ _ _ hu hd1
                  (hadd cart tourID tour.Name tour.Price hcart (by simpa using hin))
  · cases tourId with
    | none => exact hd
    | some tourID =>
      cases hc : s.GetOrCreateCart env.faults touristId with
      | none => simp only [RemoveFromCart, hc]; exact hd
      | some r =>
        obtain ⟨cart, s1⟩ := r
        obtain ⟨hd1, hcart⟩ := hget cart s1 hc
        simp only [RemoveFromCart, hc]
        split
        · exact hd1
        · rename_i hu
          exact hupd _ _ _ hu hd1 (hrem cart tourID hcart)
  · cases hc : s.GetOrCreateCart env.faults touristId with
    | none => simp only [GetCart, hc]; exact hd
    | some r =>
      obtain ⟨cart, s1⟩ := r
      simp only [GetCart, hc]
      exact (hget cart s1 hc).1
  · cases hc : s.GetOrCreateCart env.faults touristId with
    | none => simp only [Checkout, hc]; exact hd
    | some r =>
      obtain ⟨cart, s1⟩ := r
      obtain ⟨hd1, -⟩ := hget cart s1 hc
      simp only [Checkout, hc]
      split
      · exact hd1
      · have hl := checkoutLoop_carts env touristId cart.Items 0 s1 []
        have hd2 : ∀ c ∈ (checkoutLoop env touristId cart.Items 0 s1 []).2.carts, P c := by
          intro c hmem
          rw [hl] at hmem
          exact hd1 c hmem
        cases hcl : (checkoutLoop env touristId cart.Items 0 s1 []).2.ClearCart env.faults
            touristId with
        | none => exact hd2
        | some s2 =>
          simp only []
          intro c hmem
          rw [(clearCart_frame hcl).2.2.2] at hmem
          rcases updateFirst_mem _ _ _ _ hmem with h1 | ⟨y, hy, rfl⟩
          · exact hd2 c h1
          · exact hclear y (hd2 y hy)

end CartPredicate

section CartUniqueness

variable {F : Type} [Zero F] [Add F] [LE F] [DecidableRel (LE.le : F → F → Prop)] [OfNat F 50]
  (calculateDistance : F → F → F → F → F)

theorem unique_add {F : Type} [Add F] (cart : ShoppingCart F) (tourID : ObjectID)
    (name : String) (price : F) (h : (lineIds cart.Items).Nodup)
    (hin : inCart tourID cart.Items = false) :
    (lineIds (cart.Items ++ [⟨tourID, name, price⟩])).Nodup := by
  have hnot : tourID ∉ lineIds cart.Items := by
    intro hmem
    have := (inCart_iff tourID cart.Items).2 hmem
    simp [hin] at this
  simp only [lineIds, List.map_append, List.map_cons, List.map_nil] at h hnot ⊢
  rw [List.nodup_append]
  refine ⟨h, by simp, ?_⟩
  intro a ha hb
  rw [List.mem_singleton] at hb
  subst hb
  exact hnot ha

theorem unique_remove {F : Type} [Zero F] [Add F] (cart : ShoppingCart F) (tourID : ObjectID)
    (h : (lineIds cart.Items).Nodup) :
    (lineIds (removeLoop tourID cart.Items [] 0).1).Nodup := by
  rw [removeLoop_items]
  simp only [List.nil_append, lineIds] at h ⊢
  exact (List.filter_sublist _).map _ |>.nodup h

theorem step_cartUnique (s : Store F) (env : Env) (c : Call F) (hd : CartUnique s) :
    CartUnique (step calculateDistance s env c) := by
  have of_eq : ∀ s1 : Store F, s1.carts = s.carts → CartUnique s1 := by
    intro s1 h x hx
    rw [h] at hx
    exact hd x hx
  have hcart := fun (t : String) (tourId : Option ObjectID) =>
    cart_handlers_preserve (fun c : ShoppingCart F => (lineIds c.Items).Nodup)
      (fun _ _ => by simp [lineIds])
      (fun cart tourID name price h hin => unique_add cart tourID name price h hin)
      (fun cart tourID h => unique_remove cart tourID h)
      (fun _ _ => by simp [lineIds]) s env t tourId hd
  cases c with
  | publishTour a b c => exact of_eq _ (publishTour_frame s env a b c).2.1
  | addKeyPoint a b c d e f g h => exact of_eq _ (addKeyPoint_frame s env a b c d e f g h).2.1
  | updateKeyPoint a b c d e f g h =>
    exact of_eq _ (updateKeyPoint_frame s env a b c d e f g h).2.1
  | deleteKeyPoint a b c => exact of_eq _ (deleteKeyPoint_frame s env a b c).2.1
  | addToCart a b => exact (hcart a b).1
  | removeFromCart a b => exact (hcart a b).2.1
  | getCart a => exact (hcart a none).2.2.1
  | checkout a => exact (hcart a none).2.2.2
  | startTourExecution a b c d => exact of_eq _ (startTourExecution_frame s env a b c d).1
  | checkProximity a b c d => exact of_eq _ (checkProximity_frame calculateDistance s env a b c d).1
  | completeTour a b => exact of_eq _ (completeTour_frame s env a b).1
  | abandonTour a b => exact of_eq _ (abandonTour_frame s env a b).1
  | getExecution a b => exact of_eq _ (by simp [step, getExecution_store])

theorem run_cartUnique (s : Store F) (trace : List (Env × Call F)) (hd : CartUnique s) :
    CartUnique (run calculateDistance s trace) := by
  induction trace generalizing s with
  | nil => exact hd
  | cons c rest ih => exact ih _ (step_cartUnique calculateDistance s c.1 c.2 hd)

/-- C11: the cart uniqueness invariant.  From a store in which no cart has
two lines with the same tour id (in particular one with no cart yet, where
carts are created empty), after any sequence of requests and whatever
repository call fails, each tour id appears in at most one line of every
stored cart. -/
theorem cart_uniqueness_invariant (s0 : Store F) (trace : List (Env × Call F))
    (h0 : CartUnique s0) :
    ∀ c ∈ (run calculateDistance s0 trace).carts,
      (c.Items.map (fun item => item.TourID)).Nodup :=
  run_cartUnique calculateDistance s0 trace h0

/-- Witness of C11: tourist `ana` adds tours 1 and 2, adds tour 1 a second
time (refused), removes tour 1 and adds it again; her cart then holds the
lines 2 and 1. -/
theorem cart_uniqueness_invariant_witness :
    boughtStore.carts = [] ∧ CartUnique boughtStore ∧
    (∀ c ∈ (run gridDistance boughtStore
        [(demoEnv, .addToCart "ana" (some 1)), (demoEnv, .addToCart "ana" (some 2)),
         (demoEnv, .addToCart "ana" (some 1)), (demoEnv, .removeFromCart "ana" (some 1)),
         (demoEnv, .addToCart "ana" (some 1))]).carts,
      (c.Items.map (fun item => item.TourID)).Nodup) ∧
    (run gridDistance boughtStore
        [(demoEnv, .addToCart "ana" (some 1)), (demoEnv, .addToCart "ana" (some 2)),
         (demoEnv, .addToCart "ana" (some 1)), (demoEnv, .removeFromCart "ana" (some 1)),
         (demoEnv, .addToCart "ana" (some 1))]).carts.map
      (fun c => c.Items.map (fun item => item.TourID)) = [[2, 1]] :=
  ⟨rfl, by simp [CartUnique, boughtStore, demoStore],
    cart_uniqueness_invariant gridDistance boughtStore _
      (by simp [CartUnique, boughtStore, demoStore]),
    by decide⟩

end CartUniqueness

/-! ## Reading a cart back -/

section CartReadBack

variable {F : Type}

/-- With distinct document ids, replacing the document that has the id of the
tourist's cart by a cart of the same id and tourist makes it the tourist's
cart. -/
theorem find_tourist_updateFirst (l : List (ShoppingCart F)) (t : String)
    (cart cart1 : ShoppingCart F) (hn : (l.map (fun c => c.ID)).Nodup)
    (hf : l.find? (fun c => c.TouristID == t) = some cart)
    (hid : cart1.ID = cart.ID) (ht : cart1.TouristID = t) :
    (updateFirst (fun c => c.ID == cart1.ID) (fun _ => cart1) l).find?
      (fun c => c.TouristID == t) = some cart1 := by
  induction l with
  | nil => simp at hf
  | cons a rest ih =>
    have hmem : cart ∈ a :: rest := List.mem_of_find?_eq_some hf
    simp only [List.map_cons, List.nodup_cons] at hn
    by_cases ha : a.ID = cart.ID
    · have hac : a = cart := by
        rcases List.mem_cons.1 hmem with h | h
        · exact h.symm
        · exact absurd (List.mem_map.2 ⟨cart, h, ha.symm⟩) hn.1
      have hb : (a.ID == cart1.ID) = true := by simp [hid, ha]
      simp [updateFirst, hb, List.find?, ht]
    · have hb : (a.ID == cart1.ID) = false := by simpa [hid] using ha
      have hne : ¬ a = cart := fun h => ha (by rw [h])
      have hat : (a.TouristID == t) = false := by
        by_contra hc
        have hc1 : (a.TouristID == t) = true := by simpa using hc
        simp only [List.find?, hc1, Option.some.injEq] at hf
        exact hne hf
      have hrest : rest.find? (fun c => c.TouristID == t) = some cart := by
        simpa [List.find?, hat] using hf
      simp only [updateFirst, hb, Bool.false_eq_true, if_false, List.find?, hat]
      exact ih hn.2 hrest

/-- What `GetOrCreateCart` returns is the tourist's stored cart afterwards; the
store changes only when the tourist had no cart, by one empty cart. -/
theorem getOrCreateCart_spec [Zero F] {s s1 : Store F} {fl : Faults} {t : String}
    {cart : ShoppingCart F} (h : s.GetOrCreateCart fl t = some (cart, s1))
    (hw : CartIdsFresh s) :
    s1.cartOf t = some cart ∧ CartIdsFresh s1 ∧ cart.TouristID = t ∧
      cart.Items = s.linesOf t ∧ s1.tokens = s.tokens ∧
      (cart.Items ≠ [] → s1 = s) := by
  unfold Store.GetOrCreateCart at h
  split at h
  · simp at h
  · split at h
    · rename_i c hc
      simp only [Option.some.injEq, Prod.mk.injEq] at h
      obtain ⟨rfl, rfl⟩ := h
      have ht : c.TouristID = t := by simpa using List.find?_some hc
      exact ⟨hc, hw, ht, by simp [Store.linesOf, Store.cartOf, hc], rfl, fun _ => rfl⟩
    · rename_i hc
      simp only [Option.some.injEq, Prod.mk.injEq] at h
      obtain ⟨rfl, rfl⟩ := h
      refine ⟨?_, ⟨?_, ?_⟩, rfl, by simp [Store.linesOf, Store.cartOf, hc], rfl,
        fun hne => absurd rfl hne⟩
      · simp only [Store.cartOf]
        rw [List.find?_append, hc]
        simp
      · simp only [List.map_append, List.map_cons, List.map_nil]
        rw [List.nodup_append]
        refine ⟨hw.1, by simp, ?_⟩
        intro a ha hb
        rw [List.mem_singleton] at hb
        obtain ⟨c, hcm, rfl⟩ := List.mem_map.1 ha
        have h2 : c.ID < s.nextID := hw.2 c hcm
        exact Nat.ne_of_lt h2 hb
      · intro c hcm
        simp only [List.mem_append, List.mem_singleton] at hcm
        rcases hcm with hcm | rfl
        · exact Nat.lt_succ_of_lt (hw.2 c hcm)
        · exact Nat.lt_succ_self _

/-- After a successful `UpdateCart` of a cart with the id and tourist of the
tourist's stored cart, the written cart is the tourist's stored cart. -/
theorem cartOf_updateCart {s1 s2 : Store F} {fl : Faults} {t : String}
    {cart : ShoppingCart F} (cart1 : ShoppingCart F)
    (hu : s1.UpdateCart fl cart1 = some s2) (hw : CartIdsFresh s1)
    (hc : s1.cartOf t = some cart) (hid : cart1.ID = cart.ID) (ht : cart1.TouristID = t) :
    s2.cartOf t = some cart1 ∧ s2.tokens = s1.tokens := by
  have hf := updateCart_frame hu
  refine ⟨?_, hf.2.1⟩
  simp only [Store.cartOf, hf.2.2.2]
  exact find_tourist_updateFirst s1.carts t cart cart1 hw.1 hc hid ht

theorem getOrCreateCart_ok [Zero F] (s : Store F) (fl : Faults) (t : String)
    (hg : fl.GetOrCreateCart = false) :
    ∃ cart s1, s.GetOrCreateCart fl t = some (cart, s1) := by
  unfold Store.GetOrCreateCart
  simp only [hg, Bool.false_eq_true, if_false]
  split
  · exact ⟨_, _, rfl⟩
  · exact ⟨_, _, rfl⟩

theorem updateCart_ok (s : Store F) (fl : Faults) (cart : ShoppingCart F)
    (hu : fl.UpdateCart = false) : ∃ s2, s.UpdateCart fl cart = some s2 := by
  unfold Store.UpdateCart
  simp [hu]

end CartReadBack

section CartOutcome

variable {F : Type} [Zero F] [Add F]

/-- C12: for an existing tour, with the cart reads and writes succeeding and
the cart documents having distinct ids, `AddToCart` answers `success = false`
if and only if the tour is not published or its id is already a line of the
tourist's cart; on failure the store, hence the stored cart, is unchanged;
on success the cart returned and stored for the tourist has the old line list
followed by one line carrying the tour's id, name and current price. -/
theorem addToCart_outcome (s : Store F) (env : Env) (touristId : String) (tourID : ObjectID)
    (tour : Tour F) (ht : s.GetTourByID env.faults tourID = some tour)
    (hg : env.faults.GetOrCreateCart = false) (hu : env.faults.UpdateCart = false)
    (hw : CartIdsFresh s) :
    ((AddToCart s env touristId (some tourID)).1.Success = false ↔
      (tour.IsPublished = false ∨ tourID ∈ lineIds (s.linesOf touristId))) ∧
    ((AddToCart s env touristId (some tourID)).1.Success = false →
      (AddToCart s env touristId (some tourID)).2 = s) ∧
    ((AddToCart s env touristId (some tourID)).1.Success = true →
      ∃ cart1, (AddToCart s env touristId (some tourID)).1.Cart = some cart1 ∧
        (AddToCart s env touristId (some tourID)).2.cartOf touristId = some cart1 ∧
        cart1.Items = s.linesOf touristId ++ [⟨tourID, tour.Name, tour.Price⟩]) := by
  by_cases hpub : tour.IsPublished = true
  · obtain ⟨cart, s1, hc⟩ := getOrCreateCart_ok s env.faults touristId hg
    obtain ⟨hcart, hw1, hct, hitems, -, hsame⟩ := getOrCreateCart_spec hc hw
    by_cases hin : inCart tourID cart.Items = true
    · have hmem : tourID ∈ lineIds (s.linesOf touristId) := by
        rw [← hitems]; exact (inCart_iff tourID cart.Items).1 hin
      have hne : cart.Items ≠ [] := by
        intro h0
        rw [h0] at hin
        simp [inCart] at hin
      have e1 : AddToCart s env touristId (some tourID) =
          (⟨false, "Tour already in cart", none⟩, s1) := by
        simp [AddToCart, ht, hpub, hc, hin]
      rw [e1]
      exact ⟨⟨fun _ => Or.inr hmem, fun _ => rfl⟩, fun _ => hsame hne, fun h => by simp at h⟩
    · have hnin : tourID ∉ lineIds (s.linesOf touristId) := by
        rw [← hitems]
        intro hm
        exact hin ((inCart_iff tourID cart.Items).2 hm)
      obtain ⟨s2, hupd⟩ := updateCart_ok s1 env.faults
        { cart with Items := cart.Items ++ [⟨tourID, tour.Name, tour.Price⟩],
                    TotalPrice := cart.TotalPrice + tour.Price } hu
      have hback := cartOf_updateCart
        { cart with Items := cart.Items ++ [⟨tourID, tour.Name, tour.Price⟩],
                    TotalPrice := cart.TotalPrice + tour.Price } hupd hw1 hcart rfl hct
      have e1 : AddToCart s env touristId (some tourID) =
          (⟨true, "Tour added to cart",
            some { cart with Items := cart.Items ++ [⟨tourID, tour.Name, tour.Price⟩],
                             TotalPrice := cart.TotalPrice + tour.Price }⟩, s2) := by
        simp [AddToCart, ht, hpub, hc, hin, hupd]
      rw [e1]
      refine ⟨⟨fun h => by simp at h, fun h => ?_⟩, fun h => by simp at h,
        fun _ => ⟨_, rfl, hback.1, by simp [hitems]⟩⟩
      rcases h with h | h
      · simp [hpub] at h
      · exact absurd h hnin
  · have hpub1 : tour.IsPublished = false := by simpa using hpub
    have e1 : AddToCart s env touristId (some tourID) =
        (⟨false, "Cannot add unpublished tour to cart", none⟩, s) := by
      simp [AddToCart, ht, hpub1]
    rw [e1]
    exact ⟨⟨fun _ => Or.inl hpub1, fun _ => rfl⟩, fun _ => rfl, fun h => by simp at h⟩

/-- Witness of C12: on the worked store tourist `ana` adds the published
tour 1 to her (new) cart; a second add of tour 1 and an add of the draft
tour 3 are refused. -/
theorem addToCart_outcome_witness :
    CartIdsFresh boughtStore ∧
    (((AddToCart boughtStore demoEnv "ana" (some 1)).1.Success = false ↔
      ((⟨1, "guide", "Old town", "", "easy", [], "published", 10, true, 5, 1⟩ :
          Tour Int).IsPublished = false ∨ 1 ∈ lineIds (boughtStore.linesOf "ana"))) ∧
    ((AddToCart boughtStore demoEnv "ana" (some 1)).1.Success = false →
      (AddToCart boughtStore demoEnv "ana" (some 1)).2 = boughtStore) ∧
    ((AddToCart boughtStore demoEnv "ana" (some 1)).1.Success = true →
      ∃ cart1, (AddToCart boughtStore demoEnv "ana" (some 1)).1.Cart = some cart1 ∧
        (AddToCart boughtStore demoEnv "ana" (some 1)).2.cartOf "ana" = some cart1 ∧
        cart1.Items = boughtStore.linesOf "ana" ++ [⟨1, "Old town", 10⟩])) ∧
    (AddToCart boughtStore demoEnv "ana" (some 1)).1 =
      ⟨true, "Tour added to cart", some ⟨100, "ana", [⟨1, "Old town", 10⟩], 10⟩⟩ ∧
    (AddToCart (AddToCart boughtStore demoEnv "ana" (some 1)).2 demoEnv "ana" (some 1)).1 =
      ⟨false, "Tour already in cart", none⟩ ∧
    (AddToCart boughtStore demoEnv "ana" (some 3)).1 =
      ⟨false, "Cannot add unpublished tour to cart", none⟩ :=
  ⟨by simp [CartIdsFresh, boughtStore, demoStore],
    addToCart_outcome boughtStore demoEnv "ana" 1
      ⟨1, "guide", "Old town", "", "easy", [], "published", 10, true, 5, 1⟩
      (by decide) rfl rfl (by simp [CartIdsFresh, boughtStore, demoStore]),
    by decide, by decide, by decide⟩

/-- C13: with the cart documents having distinct ids, a successful
`RemoveFromCart` returns and stores for the tourist a cart whose lines are
exactly the previous lines with another tour id, in their original order, and
whose `TotalPrice` is the sum of the remaining prices recomputed from `0`. -/
theorem removeFromCart_outcome (s : Store F) (env : Env) (touristId : String)
    (tourID : ObjectID) (hw : CartIdsFresh s)
    (hsucc : (RemoveFromCart s env touristId (some tourID)).1.Success = true) :
    ∃ cart1, (RemoveFromCart s env touristId (some tourID)).1.Cart = some cart1 ∧
      (RemoveFromCart s env touristId (some tourID)).2.cartOf touristId = some cart1 ∧
      cart1.Items = (s.linesOf touristId).filter (fun item => item.TourID != tourID) ∧
      cart1.TotalPrice =
        ((s.linesOf touristId).filter (fun item => item.TourID != tourID)).foldl
          (fun acc item => acc + item.Price) 0 := by
  cases hc : s.GetOrCreateCart env.faults touristId with
  | none => simp [RemoveFromCart, hc] at hsucc
  | some r =>
    obtain ⟨cart, s1⟩ := r
    obtain ⟨hcart, hw1, hct, hitems, -, -⟩ := getOrCreateCart_spec hc hw
    cases hupd : s1.UpdateCart env.faults
        { cart with Items := (removeLoop tourID cart.Items [] 0).1,
                    TotalPrice := (removeLoop tourID cart.Items [] 0).2 } with
    | none => simp [RemoveFromCart, hc, hupd] at hsucc
    | some s2 =>
      have hback := cartOf_updateCart
        { cart with Items := (removeLoop tourID cart.Items [] 0).1,
                    TotalPrice := (removeLoop tourID cart.Items [] 0).2 } hupd hw1 hcart rfl hct
      have e1 : RemoveFromCart s env touristId (some tourID) =
          (⟨true, "Tour removed from cart",
            some { cart with Items := (removeLoop tourID cart.Items [] 0).1,
                             TotalPrice := (removeLoop tourID cart.Items [] 0).2 }⟩, s2) := by
        simp [RemoveFromCart, hc, hupd]
      rw [e1]
      have hi : (removeLoop tourID cart.Items [] 0).1 =
          (s.linesOf touristId).filter (fun item => item.TourID != tourID) := by
        rw [removeLoop_items, hitems]
        simp
      refine ⟨_, rfl, hback.1, hi, ?_⟩
      have htot := removeLoop_total tourID cart.Items [] (0 : F) rfl
      simp only [] at htot ⊢
      rw [htot, hi]
      rfl

/-- Witness of C13: from an empty cart, add tour 1 (price 10), add tour 2
(price 5), remove tour 1: the cart holds the single line of tour 2 and its
total is exactly 5. -/
theorem removeFromCart_outcome_witness :
    (run gridDistance boughtStore
      [(demoEnv, .addToCart "ana" (some 1)), (demoEnv, .addToCart "ana" (some 2))]).linesOf "ana"
      = [⟨1, "Old town", 10⟩, ⟨2, "Harbour", 5⟩] ∧
    (∃ cart1, (RemoveFromCart (run gridDistance boughtStore
        [(demoEnv, .addToCart "ana" (some 1)), (demoEnv, .addToCart "ana" (some 2))])
        demoEnv "ana" (some 1)).1.Cart = some cart1 ∧
      (RemoveFromCart (run gridDistance boughtStore
        [(demoEnv, .addToCart "ana" (some 1)), (demoEnv, .addToCart "ana" (some 2))])
        demoEnv "ana" (some 1)).2.cartOf "ana" = some cart1 ∧
      cart1.Items = ((run gridDistance boughtStore
        [(demoEnv, .addToCart "ana" (some 1)), (demoEnv, .addToCart "ana" (some 2))]).linesOf
          "ana").filter (fun item => item.TourID != 1) ∧
      cart1.TotalPrice = (((run gridDistance boughtStore
        [(demoEnv, .addToCart "ana" (some 1)), (demoEnv, .addToCart "ana" (some 2))]).linesOf
          "ana").filter (fun item => item.TourID != 1)).foldl
          (fun acc item => acc + item.Price) 0) ∧
    (RemoveFromCart (run gridDistance boughtStore
        [(demoEnv, .addToCart "ana" (some 1)), (demoEnv, .addToCart "ana" (some 2))])
        demoEnv "ana" (some 1)).2.cartOf "ana" = some ⟨100, "ana", [⟨2, "Harbour", 5⟩], 5⟩ :=
  ⟨by decide,
    removeFromCart_outcome (run gridDistance boughtStore
        [(demoEnv, .addToCart "ana" (some 1)), (demoEnv, .addToCart "ana" (some 2))])
      demoEnv "ana" 1 (by unfold CartIdsFresh; decide) (by decide),
    by decide⟩

end CartOutcome

/-! ## Checkout -/

section CheckoutOutcome

variable {F : Type}

/-- The loop of `Checkout` appends to the response one token per line whose
write succeeds, in cart order, and stores one purchase token for each of them
and for no other line. -/
theorem checkoutLoop_spec (env : Env) (touristId : String) (items : List (CartItem F))
    (line : Nat) (s : Store F) (tokens : List TokenProto) :
    (checkoutLoop env touristId items line s tokens).1 =
      tokens ++ (issuedLines env items line).map
        (fun p => (⟨p.2.TourID, env.uuid p.1, env.now⟩ : TokenProto)) ∧
    ∃ new : List PurchaseToken,
      (checkoutLoop env touristId items line s tokens).2.tokens = s.tokens ++ new ∧
      new.map (fun tk => (tk.TouristID, tk.TourID, tk.Token, tk.PurchasedAt)) =
        (issuedLines env items line).map
          (fun p => (touristId, p.2.TourID, env.uuid p.1, env.now)) := by
  induction items generalizing line s tokens with
  | nil => exact ⟨by simp [checkoutLoop, issuedLines], [], by simp [checkoutLoop], by simp [issuedLines]⟩
  | cons item rest ih =>
    unfold checkoutLoop
    by_cases hf : env.faults.CreatePurchaseToken line = true
    · simp only [Store.CreatePurchaseToken, hf, if_true]
      obtain ⟨h1, new, h2, h3⟩ := ih (line + 1) s tokens
      have hiss : issuedLines env (item :: rest) line = issuedLines env rest (line + 1) := by
        simp [issuedLines, List.enumFrom_cons, List.filter_cons, hf]
      rw [hiss]
      exact ⟨h1, new, h2, h3⟩
    · have hf1 : env.faults.CreatePurchaseToken line = false := by simpa using hf
      simp only [Store.CreatePurchaseToken, hf1, Bool.false_eq_true, if_false]
      obtain ⟨h1, new, h2, h3⟩ := ih (line + 1)
        { s with
          tokens := s.tokens ++ [⟨s.nextID, touristId, item.TourID, env.uuid line, env.now⟩],
          nextID := s.nextID + 1 }
        (tokens ++ [⟨item.TourID, env.uuid line, env.now⟩])
      have hiss : issuedLines env (item :: rest) line =
          (line, item) :: issuedLines env rest (line + 1) := by
        simp [issuedLines, List.enumFrom_cons, List.filter_cons, hf1]
      rw [hiss]
      refine ⟨by rw [h1]; simp, ⟨s.nextID, touristId, item.TourID, env.uuid line, env.now⟩ :: new,
        by rw [h2]; simp, by simp [h3]⟩

theorem getOrCreateCart_existing [Zero F] (s : Store F) (fl : Faults) (t : String)
    (cart : ShoppingCart F) (hc : s.cartOf t = some cart) (hg : fl.GetOrCreateCart = false) :
    s.GetOrCreateCart fl t = some (cart, s) := by
  unfold Store.cartOf at hc
  simp [Store.GetOrCreateCart, hg, hc]

/-- C14: `Checkout` is best-effort per line.  For a tourist whose stored cart
is not empty, with the cart read and the clearing of the cart succeeding and
whatever token writes fail, `Checkout` answers `success = true` with exactly
one token per line whose write succeeded, in cart order and carrying that
line's tour id; the ledger grows by one purchase token for each of these lines
and by none for a failed line; the message and the count report the number of
tokens issued; and the tourist's cart is left empty with total `0`. -/
theorem checkout_best_effort [Zero F] (s : Store F) (env : Env) (touristId : String)
    (hg : env.faults.GetOrCreateCart = false) (hcl : env.faults.ClearCart = false)
    (hne : s.linesOf touristId ≠ []) :
    (Checkout s env touristId).1.Success = true ∧
    (Checkout s env touristId).1.Tokens =
      (issuedLines env (s.linesOf touristId) 0).map
        (fun p => (⟨p.2.TourID, env.uuid p.1, env.now⟩ : TokenProto)) ∧
    (Checkout s env touristId).1.Issued = (issuedLines env (s.linesOf touristId) 0).length ∧
    (Checkout s env touristId).1.Message = "Successfully purchased " ++
      toString (issuedLines env (s.linesOf touristId) 0).length ++ " tours" ∧
    (∃ new : List PurchaseToken,
      (Checkout s env touristId).2.tokens = s.tokens ++ new ∧
      new.map (fun tk => (tk.TouristID, tk.TourID, tk.Token, tk.PurchasedAt)) =
        (issuedLines env (s.linesOf touristId) 0).map
          (fun p => (touristId, p.2.TourID, env.uuid p.1, env.now))) ∧
    (∃ c, (Checkout s env touristId).2.cartOf touristId = some c ∧ c.Items = [] ∧
      c.TotalPrice = 0) := by
  cases hcart : s.cartOf touristId with
  | none => simp [Store.linesOf, hcart] at hne
  | some cart =>
    have hlines : s.linesOf touristId = cart.Items := by simp [Store.linesOf, hcart]
    rw [hlines] at hne ⊢
    have hget := getOrCreateCart_existing s env.faults touristId cart hcart hg
    have hlen : (cart.Items.length == 0) = false := by
      cases hitems : cart.Items with
      | nil => exact absurd hitems hne
      | cons a l => simp
    obtain ⟨h1, new, h2, h3⟩ := checkoutLoop_spec env touristId cart.Items 0 s []
    have hcarts := checkoutLoop_carts env touristId cart.Items 0 s []
    have e1 : Checkout s env touristId =
        (⟨true, "Successfully purchased " ++
            toString (checkoutLoop env touristId cart.Items 0 s []).1.length ++ " tours",
            (checkoutLoop env touristId cart.Items 0 s []).1.length,
            (checkoutLoop env touristId cart.Items 0 s []).1⟩,
          { (checkoutLoop env touristId cart.Items 0 s []).2 with
            carts := updateFirst (fun c => c.TouristID == touristId)
              (fun c => { c with Items := [], TotalPrice := 0 })
              (checkoutLoop env touristId cart.Items 0 s []).2.carts }) := by
      simp [Checkout, hget, hlen, Store.ClearCart, hcl]
    rw [e1]
    simp only [List.nil_append] at h1
    refine ⟨rfl, h1, by simp [h1], by simp [h1], ⟨new, h2, h3⟩, ?_⟩
    refine ⟨{ cart with Items := [], TotalPrice := 0 }, ?_, rfl, rfl⟩
    simp only [Store.cartOf, hcarts]
    have ht : cart.TouristID = touristId := by
      unfold Store.cartOf at hcart
      simpa using List.find?_some hcart
    exact find_updateFirst _ _ _ _ hcart (by simp [ht])

/-- Witness of C14: a cart with the three lines 1, 2, 4 whose second token
write fails: two tokens are issued (for tours 1 and 4), the message reports
2, the ledger grows by these two tokens and the cart is cleared. -/
theorem checkout_best_effort_witness :
    ((run gridDistance shopStore threeAdds).linesOf "ana").map (fun i => i.TourID) = [1, 2, 4] ∧
    ((Checkout (run gridDistance shopStore threeAdds) secondWriteFails "ana").1.Success = true ∧
    (Checkout (run gridDistance shopStore threeAdds) secondWriteFails "ana").1.Tokens =
      (issuedLines secondWriteFails ((run gridDistance shopStore threeAdds).linesOf "ana") 0).map
        (fun p => (⟨p.2.TourID, secondWriteFails.uuid p.1, secondWriteFails.now⟩ : TokenProto)) ∧
    (Checkout (run gridDistance shopStore threeAdds) secondWriteFails "ana").1.Issued =
      (issuedLines secondWriteFails
        ((run gridDistance shopStore threeAdds).linesOf "ana") 0).length ∧
    (Checkout (run gridDistance shopStore threeAdds) secondWriteFails "ana").1.Message =
      "Successfully purchased " ++
      toString (issuedLines secondWriteFails
        ((run gridDistance shopStore threeAdds).linesOf "ana") 0).length ++ " tours" ∧
    (∃ new : List PurchaseToken,
      (Checkout (run gridDistance shopStore threeAdds) secondWriteFails "ana").2.tokens =
        (run gridDistance shopStore threeAdds).tokens ++ new ∧
      new.map (fun tk => (tk.TouristID, tk.TourID, tk.Token, tk.PurchasedAt)) =
        (issuedLines secondWriteFails
          ((run gridDistance shopStore threeAdds).linesOf "ana") 0).map
          (fun p => ("ana", p.2.TourID, secondWriteFails.uuid p.1, secondWriteFails.now))) ∧
    (∃ c, (Checkout (run gridDistance shopStore threeAdds) secondWriteFails "ana").2.cartOf "ana"
        = some c ∧ c.Items = [] ∧ c.TotalPrice = 0)) ∧
    (Checkout (run gridDistance shopStore threeAdds) secondWriteFails "ana").1 =
      ⟨true, "Successfully purchased 2 tours", 2, [⟨1, "a", 9⟩, ⟨4, "c", 9⟩]⟩ ∧
    (Checkout (run gridDistance shopStore threeAdds) secondWriteFails "ana").2.tokens.map
      (fun tk => (tk.TouristID, tk.TourID, tk.Token)) =
      [("ana", 1, "tok"), ("ana", 1, "a"), ("ana", 4, "c")] ∧
    (Checkout (run gridDistance shopStore threeAdds) secondWriteFails "ana").2.cartOf "ana" =
      some ⟨100, "ana", [], 0⟩ :=
  ⟨by decide,
    checkout_best_effort (run gridDistance shopStore threeAdds) secondWriteFails "ana" rfl rfl
      (by decide),
    by decide, by decide, by decide⟩

end CheckoutOutcome

/-! ## Swallowed errors and finished walks -/

section Advance

variable {F : Type} [LE F] [DecidableRel (LE.le : F → F → Prop)] [OfNat F 50]
  (calculateDistance : F → F → F → F → F)

/-- What a `CheckProximity` call past the ownership check answers and leaves
stored: the status is kept; either nothing is near and the list is kept, or a
keypoint is returned and the list is extended by it, unless the write failed,
in which case the list is kept. -/
theorem checkProximity_stored (s : Store F) (env : Env) (id : ObjectID)
    (touristId : String) (lat lon : F) (e : TourExecution F)
    (h : s.GetExecution env.faults id = some e) (ho : e.TouristID = touristId) :
    ∃ e1, (CheckProximity calculateDistance s env (some id) touristId lat lon).2.GetExecution
        env.faults id = some e1 ∧ e1.Status = e.Status ∧
      (((CheckProximity calculateDistance s env (some id) touristId lat lon).1.NearKeyPoint = false ∧
          e1.CompletedKeypoints = e.CompletedKeypoints) ∨
        ((CheckProximity calculateDistance s env (some id) touristId lat lon).1.Success = true ∧
          (CheckProximity calculateDistance s env (some id) touristId lat lon).1.NearKeyPoint = true ∧
          ∃ kp, (CheckProximity calculateDistance s env (some id) touristId lat lon).1.NearbyKeyPoint
              = some kp ∧
            (env.faults.UpdateExecution = true →
              e1.CompletedKeypoints = e.CompletedKeypoints) ∧
            (env.faults.UpdateExecution = false →
              e1.CompletedKeypoints = e.CompletedKeypoints ++ [⟨kp.ID, env.now⟩]))) := by
  obtain ⟨-, -, heid⟩ := getExecution_some h
  cases hk : s.GetKeyPointsByTourID env.faults e.TourID with
  | none =>
    rw [checkProximity_no_keypoints calculateDistance s env id touristId lat lon e h ho hk]
    exact ⟨e, h, rfl, Or.inl ⟨rfl, rfl⟩⟩
  | some kps =>
    cases hscan : scanKeypoints calculateDistance lat lon e.CompletedKeypoints kps with
    | none =>
      rw [checkProximity_far calculateDistance s env id touristId lat lon e kps h ho hk hscan]
      cases hu : (s.UpdateExecution env.faults env.now e).2 with
      | none =>
        simp only [afterUpdate, hu]
        exact ⟨e, h, rfl, Or.inl (by simp)⟩
      | some s1 =>
        simp only [afterUpdate, hu]
        exact ⟨_, getExecution_updateExecution h heid hu, by simp [setExecution],
          Or.inl (by simp [setExecution])⟩
    | some r =>
      obtain ⟨kp, d⟩ := r
      rw [checkProximity_near calculateDistance s env id touristId lat lon e kps kp d h ho hk hscan]
      cases hu : (s.UpdateExecution env.faults env.now
        { e with CompletedKeypoints := e.CompletedKeypoints ++ [⟨kp.ID, env.now⟩] }).2 with
      | none =>
        have hfu : env.faults.UpdateExecution = true := by
          unfold Store.UpdateExecution at hu
          by_contra hc
          simp [hc] at hu
        simp only [afterUpdate, hu]
        exact ⟨e, h, rfl, Or.inr (by simp [hfu])⟩
      | some s1 =>
        have hfu : env.faults.UpdateExecution = false := by
          unfold Store.UpdateExecution at hu
          by_contra hc
          simp [hc] at hu
        simp only [afterUpdate, hu]
        exact ⟨_, getExecution_updateExecution h (by simpa using heid) hu,
          by simp [setExecution], Or.inr (by simp [setExecution, hfu])⟩

/-- Past the checks and with the keypoints read, `NearKeyPoint = true` exactly
when some stored keypoint of the tour qualifies. -/
theorem checkProximity_near_iff (s : Store F) (env : Env) (id : ObjectID)
    (touristId : String) (lat lon : F) (e : TourExecution F)
    (h : s.GetExecution env.faults id = some e) (ho : e.TouristID = touristId)
    (hk : env.faults.GetKeyPointsByTourID = false) :
    (CheckProximity calculateDistance s env (some id) touristId lat lon).1.NearKeyPoint = true ↔
      ∃ x ∈ s.keypoints.filter (fun kp => kp.TourID == e.TourID),
        Qualifies calculateDistance lat lon e x := by
  have hkps : s.GetKeyPointsByTourID env.faults e.TourID =
      some (s.keypoints.filter (fun kp => kp.TourID == e.TourID)) := by
    simp [Store.GetKeyPointsByTourID, hk]
  cases hscan : scanKeypoints calculateDistance lat lon e.CompletedKeypoints
      (s.keypoints.filter (fun kp => kp.TourID == e.TourID)) with
  | none =>
    rw [checkProximity_far calculateDistance s env id touristId lat lon e _ h ho hkps hscan]
    refine ⟨fun hc => by simp at hc, fun hex => ?_⟩
    obtain ⟨x, hx, hq⟩ := hex
    exact absurd ((qualifies_iff calculateDistance lat lon e x).1 hq)
      ((scanKeypoints_none calculateDistance lat lon e.CompletedKeypoints _).1 hscan x hx)
  | some r =>
    obtain ⟨kp, d⟩ := r
    obtain ⟨pre, post, hsplit, hnc, hd, hle, -⟩ :=
      scanKeypoints_some calculateDistance lat lon e.CompletedKeypoints _ kp d hscan
    rw [checkProximity_near calculateDistance s env id touristId lat lon e _ kp d h ho hkps hscan]
    refine ⟨fun _ => ⟨kp, by rw [hsplit]; simp, ?_⟩, fun _ => rfl⟩
    exact (qualifies_iff calculateDistance lat lon e kp).2 ⟨hnc, hd ▸ hle⟩

/-- C18, the code at the failing inputs.  With `UpdateExecution` failing,
`CheckProximity` at keypoint 11 answers `success = true`, `NearKeyPoint = true`
and returns keypoint 11 while the store is unchanged (nothing is completed);
`CompleteTour`, which makes the same repository call, answers
`success = false`.  With `ClearCart` failing, `Checkout` of the three-line cart
answers `success = true` with three tokens and the cart keeps its three lines. -/
theorem swallowed_persistence_failures :
    (CheckProximity gridDistance demoStore writeFaultEnv (some 21) "ana" 0 0).1 =
      ⟨true, "Near keypoint", true, some ⟨11, 1, 0, 0, "gate", "", "", 1⟩, some 0⟩ ∧
    (CheckProximity gridDistance demoStore writeFaultEnv (some 21) "ana" 0 0).2 = demoStore ∧
    (CompleteTour demoStore writeFaultEnv (some 21) "ana").1 =
      ⟨false, "Failed to complete tour", none⟩ ∧
    (Checkout (run gridDistance shopStore threeAdds) clearFaultEnv "ana").1.Success = true ∧
    (Checkout (run gridDistance shopStore threeAdds) clearFaultEnv "ana").1.Message =
      "Successfully purchased 3 tours" ∧
    ((Checkout (run gridDistance shopStore threeAdds) clearFaultEnv "ana").2.linesOf "ana").map
      (fun i => i.TourID) = [1, 2, 4] := by
  decide

/-- C19, counterexample: after the walk of `ana` execution 100 is `completed`
with keypoints 11 and 12; a report by `ana` at keypoint 13 then answers
`NearKeyPoint = true`, returns keypoint 13 and appends it, the status staying
`completed`. -/
theorem finished_walk_resumed_counterexample :
    ((run gridDistance boughtStore walkTrace).GetExecution Faults.ok 100).map
      (fun e => (e.TouristID, e.Status, completedIds e)) = some ("ana", "completed", [11, 12]) ∧
    (CheckProximity gridDistance (run gridDistance boughtStore walkTrace) laterEnv (some 100)
      "ana" 0 1000).1 =
      ⟨true, "Near keypoint", true, some ⟨13, 1, 0, 1000, "tower", "", "", 3⟩, some 0⟩ ∧
    ((CheckProximity gridDistance (run gridDistance boughtStore walkTrace) laterEnv (some 100)
      "ana" 0 1000).2.GetExecution Faults.ok 100).map
      (fun e => (e.Status, completedIds e)) = some ("completed", [11, 12, 13]) := by
  decide

/-- C19, amended: `CheckProximity` does not look at the status.  For an
execution whose status is `completed` or `abandoned`, a call by its owner that
reads the keypoints answers `NearKeyPoint = true` exactly when some stored
keypoint of the tour is uncompleted and within 50; the record left under the
id keeps its status; when nothing is near its list is unchanged, and when a
keypoint is near and the write goes through the list is extended by the
returned keypoint. -/
theorem finished_walk_still_advances (s : Store F) (env : Env) (id : ObjectID)
    (touristId : String) (lat lon : F) (e : TourExecution F)
    (h : s.GetExecution env.faults id = some e) (ho : e.TouristID = touristId)
    (hk : env.faults.GetKeyPointsByTourID = false)
    (hst : e.Status = "completed" ∨ e.Status = "abandoned") :
    ((CheckProximity calculateDistance s env (some id) touristId lat lon).1.NearKeyPoint = true ↔
      ∃ x ∈ s.keypoints.filter (fun kp => kp.TourID == e.TourID),
        Qualifies calculateDistance lat lon e x) ∧
    ∃ e1, (CheckProximity calculateDistance s env (some id) touristId lat lon).2.GetExecution
        env.faults id = some e1 ∧
      (e1.Status = "completed" ∨ e1.Status = "abandoned") ∧ e1.Status = e.Status ∧
      ((CheckProximity calculateDistance s env (some id) touristId lat lon).1.NearKeyPoint = false →
        e1.CompletedKeypoints = e.CompletedKeypoints) ∧
      ((CheckProximity calculateDistance s env (some id) touristId lat lon).1.NearKeyPoint = true →
        env.faults.UpdateExecution = false →
        ∃ kp, (CheckProximity calculateDistance s env (some id) touristId lat lon).1.NearbyKeyPoint
            = some kp ∧
          e1.CompletedKeypoints = e.CompletedKeypoints ++ [⟨kp.ID, env.now⟩]) := by
  refine ⟨checkProximity_near_iff calculateDistance s env id touristId lat lon e h ho hk, ?_⟩
  obtain ⟨e1, hg1, hs1, hcase⟩ :=
    checkProximity_stored calculateDistance s env id touristId lat lon e h ho
  refine ⟨e1, hg1, by rw [hs1]; exact hst, hs1, ?_, ?_⟩
  · intro hfalse
    rcases hcase with ⟨-, hck⟩ | ⟨-, htrue, -⟩
    · exact hck
    · rw [hfalse] at htrue
      exact absurd htrue (by decide)
  · intro htrue hf
    rcases hcase with ⟨hfalse, -⟩ | ⟨-, -, kp, hkp, -, hck⟩
    · rw [htrue] at hfalse
      exact absurd hfalse (by decide)
    · exact ⟨kp, hkp, hck hf⟩

/-- Witness of C19 amended: the completed execution 100 of `ana` and a report
at keypoint 13. -/
theorem finished_walk_still_advances_witness :
    (run gridDistance boughtStore walkTrace).GetExecution laterEnv.faults 100 =
      some ⟨100, "ana", 1, "completed", 9, 9, 9, 0, 0, [⟨11, 9⟩, ⟨12, 9⟩]⟩ ∧
    ((CheckProximity gridDistance (run gridDistance boughtStore walkTrace) laterEnv (some 100)
        "ana" 0 1000).1.NearKeyPoint = true ↔
      ∃ x ∈ (run gridDistance boughtStore walkTrace).keypoints.filter (fun kp => kp.TourID == 1),
        Qualifies gridDistance 0 1000
          ⟨100, "ana", 1, "completed", 9, 9, 9, 0, 0, [⟨11, 9⟩, ⟨12, 9⟩]⟩ x) :=
  ⟨by decide,
    (finished_walk_still_advances gridDistance (run gridDistance boughtStore walkTrace) laterEnv
      100 "ana" 0 1000 ⟨100, "ana", 1, "completed", 9, 9, 9, 0, 0, [⟨11, 9⟩, ⟨12, 9⟩]⟩
      (by decide) rfl rfl (Or.inl rfl)).1⟩

end Advance

/-! ## The haversine distance over the reals -/

theorem haversineTerm_symm (lat1 lon1 lat2 lon2 : ℝ) :
    haversineTerm realMath lat1 lon1 lat2 lon2 = haversineTerm realMath lat2 lon2 lat1 lon1 := by
  have h1 : (lat2 - lat1) * Real.pi / 180 / 2 = -((lat1 - lat2) * Real.pi / 180 / 2) := by ring
  have h2 : (lon2 - lon1) * Real.pi / 180 / 2 = -((lon1 - lon2) * Real.pi / 180 / 2) := by ring
  simp only [haversineTerm, realMath]
  rw [h1, h2, Real.sin_neg, Real.sin_neg]
  ring

theorem haversineTerm_self (lat lon : ℝ) : haversineTerm realMath lat lon lat lon = 0 := by
  simp [haversineTerm, realMath]

theorem calculateDistance_same (lat lon : ℝ) : calculateDistance realMath lat lon lat lon = 0 := by
  simp only [calculateDistance, haversineTerm_self]
  have h : (⟨1, 0⟩ : ℂ) = 1 := by apply Complex.ext <;> simp
  simp [realMath, h]

/-- In exact real arithmetic the haversine term lies in `[0, 1]`.  This is a
fact of the formula only: the `float64` evaluation can exceed `1` by rounding. -/
theorem haversineTerm_bounds (lat1 lon1 lat2 lon2 : ℝ) :
    0 ≤ haversineTerm realMath lat1 lon1 lat2 lon2 ∧
      haversineTerm realMath lat1 lon1 lat2 lon2 ≤ 1 := by
  simp only [haversineTerm, realMath]
  set p1 := lat1 * Real.pi / 180 with hp1
  set p2 := lat2 * Real.pi / 180 with hp2
  set x := (lat2 - lat1) * Real.pi / 180 / 2 with hx
  set y := (lon2 - lon1) * Real.pi / 180 / 2 with hy
  have hx2 : p2 - p1 = 2 * x := by rw [hp1, hp2, hx]; ring
  have hc : Real.cos (p2 - p1) = 1 - 2 * Real.sin x ^ 2 := by
    rw [hx2, Real.cos_two_mul, Real.cos_sq']; ring
  have hc' : Real.cos (p2 - p1) = Real.cos p2 * Real.cos p1 + Real.sin p2 * Real.sin p1 :=
    Real.cos_sub p2 p1
  have s1 := Real.sin_sq_add_cos_sq p1
  have s2 := Real.sin_sq_add_cos_sq p2
  have sy := Real.sin_sq_add_cos_sq y
  constructor
  · nlinarith [sq_nonneg (Real.sin p1 - Real.sin p2), sq_nonneg (Real.cos p1 - Real.cos p2), sq_nonneg (Real.cos p1 + Real.cos p2), sq_nonneg (Real.sin y), sq_nonneg (Real.cos y), mul_nonneg (sq_nonneg (Real.sin y)) (sq_nonneg (Real.cos p1 + Real.cos p2)), mul_nonneg (sq_nonneg (Real.cos y)) (sq_nonneg (Real.cos p1 - Real.cos p2))]
  · nlinarith [sq_nonneg (Real.sin p1 + Real.sin p2), sq_nonneg (Real.cos p1 - Real.cos p2), sq_nonneg (Real.cos p1 + Real.cos p2), sq_nonneg (Real.sin y), sq_nonneg (Real.cos y), mul_nonneg (sq_nonneg (Real.sin y)) (sq_nonneg (Real.cos p1 - Real.cos p2)), mul_nonneg (sq_nonneg (Real.cos y)) (sq_nonneg (Real.cos p1 + Real.cos p2))]

theorem atan2_nonneg_le (x y : ℝ) (hx : 0 ≤ x) (hy : 0 ≤ y) :
    0 ≤ realMath.Atan2 y x ∧ realMath.Atan2 y x ≤ Real.pi / 2 := by
  simp only [realMath]
  exact ⟨Complex.arg_nonneg_iff.2 hy, Complex.arg_le_pi_div_two_iff.2 (Or.inl hx)⟩

/-- In exact real arithmetic the haversine term of two antipodal points,
latitudes `lat` and `-lat` and longitudes 180 degrees apart, is exactly `1`, the
upper end of the domain of `Sqrt (1 - a)`: there any rounding upwards of the
`float64` term leaves that domain. -/
theorem haversineTerm_antipodal (lat lon : ℝ) :
    haversineTerm realMath lat lon (-lat) (lon + 180) = 1 := by
  have h1 : (-lat - lat) * Real.pi / 180 / 2 = -(lat * Real.pi / 180) := by ring
  have h2 : (lon + 180 - lon) * Real.pi / 180 / 2 = Real.pi / 2 := by ring
  have h3 : -lat * Real.pi / 180 = -(lat * Real.pi / 180) := by ring
  simp only [haversineTerm, realMath]
  rw [h1, h2, h3, Real.sin_neg, Real.cos_neg, Real.sin_pi_div_two]
  have := Real.sin_sq_add_cos_sq (lat * Real.pi / 180)
  nlinarith

/-- In exact real arithmetic the distance lies in `[0, π * 6371000]`.  This is
a fact of the formula only: the `float64` evaluation returns `NaN` where its
haversine term exceeds `1`. -/
theorem calculateDistance_range (lat1 lon1 lat2 lon2 : ℝ) :
    0 ≤ calculateDistance realMath lat1 lon1 lat2 lon2 ∧
      calculateDistance realMath lat1 lon1 lat2 lon2 ≤ Real.pi * 6371000 := by
  have h := atan2_nonneg_le
    (realMath.Sqrt (1 - haversineTerm realMath lat1 lon1 lat2 lon2))
    (realMath.Sqrt (haversineTerm realMath lat1 lon1 lat2 lon2))
    (Real.sqrt_nonneg _) (Real.sqrt_nonneg _)
  simp only [calculateDistance]
  constructor
  · nlinarith [h.1]
  · nlinarith [h.2]

theorem atan2_abs (t : ℝ) (ht : |t| ≤ Real.pi / 2) :
    realMath.Atan2 (realMath.Sqrt (Real.sin t * Real.sin t))
      (realMath.Sqrt (1 - Real.sin t * Real.sin t)) = |t| := by
  have hpi := Real.pi_pos
  have h0 : 0 ≤ |t| := abs_nonneg t
  have hcos : 0 ≤ Real.cos |t| :=
    Real.cos_nonneg_of_neg_pi_div_two_le_of_le (by linarith) ht
  have hsin : 0 ≤ Real.sin |t| := Real.sin_nonneg_of_nonneg_of_le_pi h0 (by linarith)
  have e1 : Real.sin t * Real.sin t = Real.sin |t| * Real.sin |t| := by
    rcases abs_cases t with ⟨h, -⟩ | ⟨h, -⟩
    · rw [h]
    · rw [h, Real.sin_neg]; ring
  have e2 : 1 - Real.sin |t| * Real.sin |t| = Real.cos |t| * Real.cos |t| := by
    have := Real.sin_sq_add_cos_sq |t|
    nlinarith
  simp only [realMath]
  rw [e1, e2, Real.sqrt_mul_self hsin, Real.sqrt_mul_self hcos]
  have e3 : (⟨Real.cos |t|, Real.sin |t|⟩ : ℂ) =
      Complex.cos (|t| : ℝ) + Complex.sin (|t| : ℝ) * Complex.I := by
    apply Complex.ext <;> simp [← Complex.ofReal_cos, ← Complex.ofReal_sin]
  rw [e3, Complex.arg_cos_add_sin_mul_I]
  exact ⟨by linarith, by linarith⟩

theorem calculateDistance_meridian (lat1 lat2 lon : ℝ) (hd : |lat2 - lat1| ≤ 180) :
    calculateDistance realMath lat1 lon lat2 lon = 6371000 * |lat2 - lat1| * Real.pi / 180 := by
  have hpi := Real.pi_pos
  have ha : haversineTerm realMath lat1 lon lat2 lon =
      Real.sin ((lat2 - lat1) * Real.pi / 180 / 2) * Real.sin ((lat2 - lat1) * Real.pi / 180 / 2) := by
    simp [haversineTerm, realMath]
  have habs : |(lat2 - lat1) * Real.pi / 180 / 2| = |lat2 - lat1| * Real.pi / 180 / 2 := by
    rw [abs_div, abs_div, abs_mul, abs_of_pos hpi]
    norm_num
  have hle : |(lat2 - lat1) * Real.pi / 180 / 2| ≤ Real.pi / 2 := by
    rw [habs]
    have : |lat2 - lat1| * Real.pi ≤ 180 * Real.pi := mul_le_mul_of_nonneg_right hd hpi.le
    linarith
  simp only [calculateDistance]
  rw [ha, atan2_abs _ hle, habs]
  ring

/-- C15: `calculateDistance` is symmetric: over the reals, the distance from
`(lat1, lon1)` to `(lat2, lon2)` equals the distance from `(lat2, lon2)` to
`(lat1, lon1)`. -/
theorem calculateDistance_symmetric (lat1 lon1 lat2 lon2 : ℝ) :
    calculateDistance realMath lat1 lon1 lat2 lon2 =
      calculateDistance realMath lat2 lon2 lat1 lon1 := by
  simp only [calculateDistance]
  rw [haversineTerm_symm]

/-- C16: `calculateDistance` of a point to itself is zero, over the reals; so
a report exactly at the coordinate of a keypoint is within the threshold of 50,
and the keypoint qualifies whenever it is not yet completed. -/
theorem calculateDistance_self_zero (lat lon : ℝ) :
    calculateDistance realMath lat lon lat lon = 0 ∧
    calculateDistance realMath lat lon lat lon ≤ 50 ∧
    ∀ (e : TourExecution ℝ) (kp : KeyPoint ℝ), kp.ID ∉ completedIds e →
      Qualifies (calculateDistance realMath) kp.Latitude kp.Longitude e kp := by
  refine ⟨calculateDistance_same lat lon, ?_, ?_⟩
  · rw [calculateDistance_same]
    norm_num
  · intro e kp hkp
    refine ⟨hkp, ?_⟩
    rw [calculateDistance_same]
    norm_num

/-- C17: on a meridian the distance is the arc length.  Over the reals, for
equal longitudes and a latitude difference `d` degrees with `|d| ≤ 180`,
`calculateDistance` equals `6371000 * |d| * π / 180`; a gap of 0.00045 degrees
is within 0.1 of 50, a gap of 0.00044 degrees is at most 50 and a gap of
0.00046 degrees is more than 50; so `CheckProximity` (past its checks, reading
the keypoints) reports `NearKeyPoint = true` when an uncompleted keypoint of the
tour is 0.00044 degrees north on the same meridian, and `NearKeyPoint = false`
when all keypoints of the tour are 0.00046 degrees north on it. -/
theorem meridian_threshold (lat lon d : ℝ) (hd : |d| ≤ 180) :
    calculateDistance realMath lat lon (lat + d) lon = 6371000 * |d| * Real.pi / 180 ∧
    |calculateDistance realMath lat lon (lat + 0.00045) lon - 50| < 0.1 ∧
    calculateDistance realMath lat lon (lat + 0.00044) lon ≤ 50 ∧
    50 < calculateDistance realMath lat lon (lat + 0.00046) lon ∧
    (∀ (s : Store ℝ) (env : Env) (id : ObjectID) (touristId : String) (e : TourExecution ℝ)
      (kp : KeyPoint ℝ),
      s.GetExecution env.faults id = some e → e.TouristID = touristId →
      env.faults.GetKeyPointsByTourID = false →
      kp ∈ s.keypoints.filter (fun k => k.TourID == e.TourID) → kp.ID ∉ completedIds e →
      kp.Latitude = lat + 0.00044 → kp.Longitude = lon →
      (CheckProximity (calculateDistance realMath) s env (some id) touristId lat lon).1.NearKeyPoint
        = true) ∧
    (∀ (s : Store ℝ) (env : Env) (id : ObjectID) (touristId : String) (e : TourExecution ℝ),
      s.GetExecution env.faults id = some e → e.TouristID = touristId →
      env.faults.GetKeyPointsByTourID = false →
      (∀ kp ∈ s.keypoints.filter (fun k => k.TourID == e.TourID),
        kp.Latitude = lat + 0.00046 ∧ kp.Longitude = lon) →
      (CheckProximity (calculateDistance realMath) s env (some id) touristId lat lon).1.NearKeyPoint
        = false) := by
  have hpi1 := Real.pi_gt_d4
  have hpi2 := Real.pi_lt_d4
  have formula : ∀ g : ℝ, |g| ≤ 180 →
      calculateDistance realMath lat lon (lat + g) lon = 6371000 * |g| * Real.pi / 180 := by
    intro g hg
    have h := calculateDistance_meridian lat (lat + g) lon (by simpa using hg)
    simpa using h
  have h45 : calculateDistance realMath lat lon (lat + 0.00045) lon =
      6371000 * 0.00045 * Real.pi / 180 := by
    rw [formula 0.00045 (by rw [abs_of_pos] <;> norm_num), abs_of_pos (by norm_num)]
  have h44 : calculateDistance realMath lat lon (lat + 0.00044) lon =
      6371000 * 0.00044 * Real.pi / 180 := by
    rw [formula 0.00044 (by rw [abs_of_pos] <;> norm_num), abs_of_pos (by norm_num)]
  have h46 : calculateDistance realMath lat lon (lat + 0.00046) lon =
      6371000 * 0.00046 * Real.pi / 180 := by
    rw [formula 0.00046 (by rw [abs_of_pos] <;> norm_num), abs_of_pos (by norm_num)]
  have le44 : calculateDistance realMath lat lon (lat + 0.00044) lon ≤ 50 := by
    rw [h44]; nlinarith
  have gt46 : 50 < calculateDistance realMath lat lon (lat + 0.00046) lon := by
    rw [h46]; nlinarith
  refine ⟨formula d hd, ?_, le44, gt46, ?_, ?_⟩
  · rw [h45, abs_lt]
    constructor <;> nlinarith
  · intro s env id touristId e kp hg ho hk hmem hnc hlat hlon
    rw [checkProximity_near_iff (calculateDistance realMath) s env id touristId lat lon e hg ho hk]
    refine ⟨kp, hmem, hnc, ?_⟩
    rw [hlat, hlon]
    exact le44
  · intro s env id touristId e hg ho hk hall
    have hiff :=
      checkProximity_near_iff (calculateDistance realMath) s env id touristId lat lon e hg ho hk
    cases hn : (CheckProximity (calculateDistance realMath) s env (some id) touristId lat
        lon).1.NearKeyPoint with
    | false => rfl
    | true =>
      obtain ⟨x, hx, -, hq⟩ := hiff.1 hn
      obtain ⟨h1, h2⟩ := hall x hx
      rw [h1, h2] at hq
      exact absurd hq (not_le.2 gt46)

/-- Witness of C17: a quarter meridian, 90 degrees of latitude from the
equator, is `6371000 * 90 * π / 180` metres long. -/
theorem meridian_threshold_witness :
    |(90 : ℝ)| ≤ 180 ∧
    calculateDistance realMath 0 0 (0 + 90) 0 = 6371000 * |(90 : ℝ)| * Real.pi / 180 :=
  ⟨by rw [abs_of_pos] <;> norm_num, (meridian_threshold 0 0 90 (by rw [abs_of_pos] <;> norm_num)).1⟩

/-! ## Freshness of the cart document ids -/

section Counter

variable {F : Type}

theorem fresh_of_kept (s s1 : Store F)
    (h1 : s1.carts.map (fun c => c.ID) = s.carts.map (fun c => c.ID))
    (h2 : s.nextID ≤ s1.nextID) (hw : CartIdsFresh s) : CartIdsFresh s1 := by
  refine ⟨by rw [h1]; exact hw.1, ?_⟩
  intro c hc
  have hm : c.ID ∈ s1.carts.map (fun c => c.ID) := List.mem_map.2 ⟨c, hc, rfl⟩
  rw [h1] at hm
  obtain ⟨c0, hc0, hid⟩ := List.mem_map.1 hm
  have h3 : c0.ID < s.nextID := hw.2 c0 hc0
  have hid1 : c0.ID = c.ID := hid
  exact hid1 ▸ Nat.lt_of_lt_of_le h3 h2

theorem map_id_updateFirst (p : ShoppingCart F → Bool) (f : ShoppingCart F → ShoppingCart F)
    (l : List (ShoppingCart F)) (hf : ∀ c, p c = true → (f c).ID = c.ID) :
    (updateFirst p f l).map (fun c => c.ID) = l.map (fun c => c.ID) := by
  induction l with
  | nil => rfl
  | cons a t ih =>
    unfold updateFirst
    by_cases ha : p a = true
    · simp [ha, hf a ha]
    · simp [ha, ih]

theorem repoPublishTour_nextID {s s1 : Store F} {fl : Faults} {now : Time} {id : ObjectID}
    {price : F} (h : s.PublishTour fl now id price = some s1) : s.nextID ≤ s1.nextID := by
  unfold Store.PublishTour at h
  split at h
  · simp at h
  · simp only [Option.some.injEq] at h
    subst h
    exact Nat.le_refl _

theorem repoCreateKeyPoint_nextID {s s1 : Store F} {fl : Faults} {kp kp1 : KeyPoint F}
    (h : s.CreateKeyPoint fl kp = some (kp1, s1)) : s.nextID ≤ s1.nextID := by
  unfold Store.CreateKeyPoint at h
  split at h
  · simp at h
  · simp only [Option.some.injEq, Prod.mk.injEq] at h
    obtain ⟨-, rfl⟩ := h
    exact Nat.le_succ _

theorem repoUpdateKeyPoint_nextID {s s1 : Store F} {fl : Faults} {kp : KeyPoint F}
    (h : s.UpdateKeyPoint fl kp = some s1) : s.nextID ≤ s1.nextID := by
  unfold Store.UpdateKeyPoint at h
  split at h
  · simp at h
  · simp only [Option.some.injEq] at h
    subst h
    exact Nat.le_refl _

theorem repoDeleteKeyPoint_nextID {s s1 : Store F} {fl : Faults} {id : ObjectID}
    (h : s.DeleteKeyPoint fl id = some s1) : s.nextID ≤ s1.nextID := by
  unfold Store.DeleteKeyPoint at h
  split at h
  · simp at h
  · simp only [Option.some.injEq] at h
    subst h
    exact Nat.le_refl _

theorem repoCreateExecution_nextID {s s1 : Store F} {fl : Faults} {now : Time}
    {e e1 : TourExecution F} (h : s.CreateExecution fl now e = some (e1, s1)) :
    s.nextID ≤ s1.nextID := by
  unfold Store.CreateExecution at h
  split at h
  · simp at h
  · simp only [Option.some.injEq, Prod.mk.injEq] at h
    obtain ⟨-, rfl⟩ := h
    exact Nat.le_succ _

theorem repoUpdateExecution_nextID {s s1 : Store F} {fl : Faults} {now : Time}
    {e : TourExecution F} (h : (s.UpdateExecution fl now e).2 = some s1) :
    s.nextID ≤ s1.nextID := by
  unfold Store.UpdateExecution at h
  split at h
  · simp at h
  · simp only [Option.some.injEq] at h
    subst h
    exact Nat.le_refl _

theorem afterUpdate_nextID (s : Store F) (fl : Faults) (now : Time) (e : TourExecution F) :
    s.nextID ≤ (afterUpdate s (s.UpdateExecution fl now e)).nextID := by
  cases hu : (s.UpdateExecution fl now e).2 with
  | none => simp [afterUpdate, hu]
  | some s1 => simpa [afterUpdate, hu] using repoUpdateExecution_nextID hu

theorem publishTour_nextID (s : Store F) (env : Env) (tourId : Option ObjectID)
    (guideId : String) (price : F) :
    s.nextID ≤ (PublishTour s env tourId guideId price).2.nextID := by
  simp only [PublishTour]
  repeat' split
  all_goals first
    | exact Nat.le_refl _
    | (rename_i hp; exact repoPublishTour_nextID hp)

theorem addKeyPoint_nextID (s : Store F) (env : Env) (tourId : Option ObjectID)
    (guideId : String) (latitude longitude : F) (name description image : String)
    (order : Int) :
    s.nextID ≤ (AddKeyPoint s env tourId guideId latitude longitude name description image
      order).2.nextID := by
  simp only [AddKeyPoint]
  repeat' split
  all_goals first
    | exact Nat.le_refl _
    | (rename_i hp; exact repoCreateKeyPoint_nextID hp)

theorem updateKeyPoint_nextID (s : Store F) (env : Env) (keyPointId tourId : Option ObjectID)
    (guideId : String) (latitude longitude : F) (name description image : String) :
    s.nextID ≤ (UpdateKeyPoint s env keyPointId tourId guideId latitude longitude name
      description image).2.nextID := by
  simp only [UpdateKeyPoint]
  repeat' split
  all_goals first
    | exact Nat.le_refl _
    | (rename_i hp; exact repoUpdateKeyPoint_nextID hp)

theorem deleteKeyPoint_nextID (s : Store F) (env : Env) (keyPointId tourId : Option ObjectID)
    (guideId : String) :
    s.nextID ≤ (DeleteKeyPoint s env keyPointId tourId guideId).2.nextID := by
  simp only [DeleteKeyPoint]
  repeat' split
  all_goals first
    | exact Nat.le_refl _
    | (rename_i hp; exact repoDeleteKeyPoint_nextID hp)

theorem startTourExecution_nextID (s : Store F) (env : Env) (touristId : String)
    (tourId : Option ObjectID) (lat lon : F) :
    s.nextID ≤ (StartTourExecution s env touristId tourId lat lon).2.nextID := by
  simp only [StartTourExecution]
  repeat' split
  all_goals first
    | exact Nat.le_refl _
    | (rename_i hp; exact repoCreateExecution_nextID hp)

theorem completeTour_nextID (s : Store F) (env : Env) (executionId : Option ObjectID)
    (touristId : String) : s.nextID ≤ (CompleteTour s env executionId touristId).2.nextID := by
  simp only [CompleteTour]
  repeat' split
  all_goals first
    | exact Nat.le_refl _
    | (rename_i hp; exact repoUpdateExecution_nextID (congrArg Prod.snd hp))

theorem abandonTour_nextID (s : Store F) (env : Env) (executionId : Option ObjectID)
    (touristId : String) : s.nextID ≤ (AbandonTour s env executionId touristId).2.nextID := by
  simp only [AbandonTour]
  repeat' split
  all_goals first
    | exact Nat.le_refl _
    | (rename_i hp; exact repoUpdateExecution_nextID (congrArg Prod.snd hp))

theorem checkProximity_nextID [LE F] [DecidableRel (LE.le : F → F → Prop)] [OfNat F 50]
    (calculateDistance : F → F → F → F → F) (s : Store F) (env : Env)
    (executionId : Option ObjectID) (touristId : String) (lat lon : F) :
    s.nextID ≤ (CheckProximity calculateDistance s env executionId touristId lat lon).2.nextID := by
  simp only [CheckProximity]
  repeat' split
  all_goals first
    | exact Nat.le_refl _
    | exact afterUpdate_nextID _ _ _ _

theorem updateCart_fresh {s1 s2 : Store F} {fl : Faults} {cart1 : ShoppingCart F}
    (h : s1.UpdateCart fl cart1 = some s2) (hw : CartIdsFresh s1) : CartIdsFresh s2 := by
  unfold Store.UpdateCart at h
  split at h
  · simp at h
  · simp only [Option.some.injEq] at h
    subst h
    exact fresh_of_kept s1 _
      (map_id_updateFirst _ _ _ (fun c hc => by simpa using (beq_iff_eq.1 hc).symm))
      (Nat.le_refl _) hw

theorem clearCart_fresh [Zero F] {s1 s2 : Store F} {fl : Faults} {t : String}
    (h : s1.ClearCart fl t = some s2) (hw : CartIdsFresh s1) : CartIdsFresh s2 := by
  unfold Store.ClearCart at h
  split at h
  · simp at h
  · simp only [Option.some.injEq] at h
    subst h
    exact fresh_of_kept s1 _ (map_id_updateFirst _ _ _ (fun c _ => rfl)) (Nat.le_refl _) hw

theorem checkoutLoop_nextID (env : Env) (touristId : String) (items : List (CartItem F))
    (line : Nat) (s : Store F) (tokens : List TokenProto) :
    s.nextID ≤ (checkoutLoop env touristId items line s tokens).2.nextID := by
  induction items generalizing line s tokens with
  | nil => exact Nat.le_refl _
  | cons item rest ih =>
    unfold checkoutLoop
    by_cases hf : env.faults.CreatePurchaseToken line = true
    · simp only [Store.CreatePurchaseToken, hf, if_true]
      exact ih _ _ _
    · simp only [Store.CreatePurchaseToken, hf, Bool.false_eq_true, if_false]
      have h := ih (line + 1)
        { s with
          tokens := s.tokens ++ [⟨s.nextID, touristId, item.TourID, env.uuid line, env.now⟩],
          nextID := s.nextID + 1 }
        (tokens ++ [⟨item.TourID, env.uuid line, env.now⟩])
      exact Nat.le_trans (Nat.le_succ _) h

theorem cart_handlers_fresh [Zero F] [Add F] (s : Store F) (env : Env) (touristId : String)
    (tourId : Option ObjectID) (hw : CartIdsFresh s) :
    CartIdsFresh (AddToCart s env touristId tourId).2 ∧
    CartIdsFresh (RemoveFromCart s env touristId tourId).2 ∧
    CartIdsFresh (GetCart s env touristId).2 ∧
    CartIdsFresh (Checkout s env touristId).2 := by
  refine ⟨?_, ?_, ?_, ?_⟩
  · cases tourId with
    | none => exact hw
    | some tourID =>
      cases ht : s.GetTourByID env.faults tourID with
      | none => simp only [AddToCart, ht]; exact hw
      | some tour =>
        cases hc : s.GetOrCreateCart env.faults touristId with
        | none => simp only [AddToCart, ht, hc]; split <;> exact hw
        | some r =>
          obtain ⟨cart, s1⟩ := r
          have hw1 := (getOrCreateCart_spec hc hw).2.1
          simp only [AddToCart, ht, hc]
          split
          · exact hw
          · split
            · exact hw1
            · split
              · exact hw1
              · rename_i hu
                exact updateCart_fresh hu hw1
  · cases tourId with
    | none => exact hw
    | some tourID =>
      cases hc : s.GetOrCreateCart env.faults touristId with
      | none => simp only [RemoveFromCart, hc]; exact hw
      | some r =>
        obtain ⟨cart, s1⟩ := r
        have hw1 := (getOrCreateCart_spec hc hw).2.1
        simp only [RemoveFromCart, hc]
        split
        · exact hw1
        · rename_i hu
          exact updateCart_fresh hu hw1
  · cases hc : s.GetOrCreateCart env.faults touristId with
    | none => simp only [GetCart, hc]; exact hw
    | some r =>
      obtain ⟨cart, s1⟩ := r
      simp only [GetCart, hc]
      exact (getOrCreateCart_spec hc hw).2.1
  · cases hc : s.GetOrCreateCart env.faults touristId with
    | none => simp only [Checkout, hc]; exact hw
    | some r =>
      obtain ⟨cart, s1⟩ := r
      have hw1 := (getOrCreateCart_spec hc hw).2.1
      simp only [Checkout, hc]
      split
      · exact hw1
      · have hw2 : CartIdsFresh (checkoutLoop env touristId cart.Items 0 s1 []).2 :=
          fresh_of_kept s1 _ (by rw [checkoutLoop_carts]) (checkoutLoop_nextID _ _ _ _ _ _) hw1
        cases hcl : (checkoutLoop env touristId cart.Items 0 s1 []).2.ClearCart env.faults
            touristId with
        | none => exact hw2
        | some s2 => exact clearCart_fresh hcl hw2

end Counter

section CounterInvariant

variable {F : Type} [Zero F] [Add F] [LE F] [DecidableRel (LE.le : F → F → Prop)] [OfNat F 50]
  (calculateDistance : F → F → F → F → F)

theorem step_cartIdsFresh (s : Store F) (env : Env) (c : Call F) (hw : CartIdsFresh s) :
    CartIdsFresh (step calculateDistance s env c) := by
  have of_eq : ∀ s1 : Store F, s1.carts = s.carts → s.nextID ≤ s1.nextID → CartIdsFresh s1 :=
    fun s1 h1 h2 => fresh_of_kept s s1 (by rw [h1]) h2 hw
  cases c with
  | publishTour a b c =>
    exact of_eq _ (publishTour_frame s env a b c).2.1 (publishTour_nextID s env a b c)
  | addKeyPoint a b c d e f g h =>
    exact of_eq _ (addKeyPoint_frame s env a b c d e f g h).2.1
      (addKeyPoint_nextID s env a b c d e f g h)
  | updateKeyPoint a b c d e f g h =>
    exact of_eq _ (updateKeyPoint_frame s env a b c d e f g h).2.1
      (updateKeyPoint_nextID s env a b c d e f g h)
  | deleteKeyPoint a b c =>
    exact of_eq _ (deleteKeyPoint_frame s env a b c).2.1 (deleteKeyPoint_nextID s env a b c)
  | addToCart a b => exact (cart_handlers_fresh s env a b hw).1
  | removeFromCart a b => exact (cart_handlers_fresh s env a b hw).2.1
  | getCart a => exact (cart_handlers_fresh s env a none hw).2.2.1
  | checkout a => exact (cart_handlers_fresh s env a none hw).2.2.2
  | startTourExecution a b c d =>
    exact of_eq _ (startTourExecution_frame s env a b c d).1
      (startTourExecution_nextID s env a b c d)
  | checkProximity a b c d =>
    exact of_eq _ (checkProximity_frame calculateDistance s env a b c d).1
      (checkProximity_nextID calculateDistance s env a b c d)
  | completeTour a b => exact of_eq _ (completeTour_frame s env a b).1 (completeTour_nextID s env a b)
  | abandonTour a b => exact of_eq _ (abandonTour_frame s env a b).1 (abandonTour_nextID s env a b)
  | getExecution a b =>
    exact of_eq _ (by simp [step, getExecution_store]) (by simp [step, getExecution_store])

/-- The cart documents keep distinct ids drawn from the counter along every
sequence of requests; in particular this holds from a store with no cart. -/
theorem run_cartIdsFresh (s : Store F) (trace : List (Env × Call F)) (hw : CartIdsFresh s) :
    CartIdsFresh (run calculateDistance s trace) := by
  induction trace generalizing s with
  | nil => exact hw
  | cons c rest ih => exact ih _ (step_cartIdsFresh calculateDistance s c.1 c.2 hw)

end CounterInvariant

end TourService
